import Mathlib

/-! LSM303 driver: register-level model and verified properties.

A shallow embedding of the Go package `lsm303` (accelerometer, magnetometer and
temperature channel of the LSM303 sensor family on a two-wire bus).

Conventions of the embedding:

* Go machine integers are `Nat` / `Int` with explicit wrap-around
  (`uint8` is `% 256`, `int16` and `int64` are re-centred residues).
* The bus (`i2c.Bus` behind `mmr.Dev8`) is a state machine that is passed
  explicitly; every register access is recorded in a transaction log.
* A method with a pointer receiver returns the updated handle next to its result.
* `time.Sleep` has no observable effect on registers and is not modelled.
* A nil pointer dereference and `log.Fatalf` end the program; they are
  constructors of `Error` that no caller can discard.
-/

namespace Lsm303

/-! ## Machine integers -/

/-- Conversion `uint8(x)` of a Go integer. -/
def uint8 (x : Int) : Nat := (x % 256).toNat

/-- Conversion `uint16(x)` of a Go integer: the 16-bit pattern of `x`. -/
def uint16 (x : Int) : Nat := (x % 65536).toNat

/-- Conversion `int16(x)`: the value of the low 16 bits read as twos-complement. -/
def int16 (x : Int) : Int := (x + 32768) % 65536 - 32768

/-- Conversion `int64(x)` and wrap-around of `int64` arithmetic. -/
def int64 (x : Int) : Int := (x + 2 ^ 63) % 2 ^ 64 - 2 ^ 63

/-- Operator `^x` on a `uint8`. -/
def not8 (x : Nat) : Nat := 255 - x % 256

/-- Operator `x << s` on a `uint8`. -/
def shl8 (x s : Nat) : Nat := (x <<< s) % 256

/-- Operator `x << s` on an `int16`. -/
def shl16 (x : Int) (s : Nat) : Int := int16 (x * 2 ^ s)

/-- Operator `x | y` on two `int16` values: the bitwise or of their 16-bit patterns. -/
def or16 (x y : Int) : Int := int16 ((uint16 x ||| uint16 y : Nat) : Int)

/-! ## Sensor types, modes, ranges, gains and rates (`options.go`) -/

/-- Go `type SensorType string`. -/
abbrev SensorType := String

def LSM303DLHC : SensorType := "LSM303DLHC"
def LSM303AGR : SensorType := "LSM303AGR"
def LSM303C : SensorType := "LSM303C"

/-- Go `type AccelerometerMode int`. -/
abbrev AccelerometerMode := Int

def ACCELEROMETER_MODE_NORMAL : AccelerometerMode := 0
def ACCELEROMETER_MODE_HIGH_RESOLUTION : AccelerometerMode := 1
def ACCELEROMETER_MODE_LOW_POWER : AccelerometerMode := 2

/-- Go `type AccelerometerRange int`. -/
abbrev AccelerometerRange := Int

def ACCELEROMETER_RANGE_2G : AccelerometerRange := 0
def ACCELEROMETER_RANGE_4G : AccelerometerRange := 1
def ACCELEROMETER_RANGE_8G : AccelerometerRange := 2
def ACCELEROMETER_RANGE_16G : AccelerometerRange := 3

/-- Go `type MagnetometerGain int`. -/
abbrev MagnetometerGain := Int

def MAGNETOMETER_GAIN_1_3 : MagnetometerGain := 0
def MAGNETOMETER_GAIN_1_9 : MagnetometerGain := 1
def MAGNETOMETER_GAIN_2_5 : MagnetometerGain := 2
def MAGNETOMETER_GAIN_4_0 : MagnetometerGain := 3
def MAGNETOMETER_GAIN_4_7 : MagnetometerGain := 4
def MAGNETOMETER_GAIN_5_6 : MagnetometerGain := 5
def MAGNETOMETER_GAIN_8_1 : MagnetometerGain := 6

/-- Go `type MagnetometerRate int`. -/
abbrev MagnetometerRate := Int

def MAGNETOMETER_RATE_0_75 : MagnetometerRate := 0
def MAGNETOMETER_RATE_1_5 : MagnetometerRate := 1
def MAGNETOMETER_RATE_3_0 : MagnetometerRate := 2
def MAGNETOMETER_RATE_7_5 : MagnetometerRate := 3
def MAGNETOMETER_RATE_15 : MagnetometerRate := 4
def MAGNETOMETER_RATE_30 : MagnetometerRate := 5
def MAGNETOMETER_RATE_75 : MagnetometerRate := 6
def MAGNETOMETER_RATE_220 : MagnetometerRate := 7

/-! ## Constants of the units package `physic` -/

namespace physic

/-- One standard gravity, `9806650 * MicroNewton`, in nanonewtons. -/
def EarthGravity : Int := 9806650000

/-- One degree Celsius, equal to one kelvin, in nanokelvins. -/
def Celsius : Int := 1000000000

/-- Zero degrees Celsius, `273150 * MilliKelvin`, in nanokelvins. -/
def ZeroCelsius : Int := 273150000000

end physic

/-! ## Errors -/

/-- Ways in which a driver call can fail to produce a value. -/
inductive Error
  /-- The error of a failed bus transaction, passed on unchanged. -/
  | bus (code : Nat)
  /-- The error `fmt.Errorf("no %s detected", sensorType)`. -/
  | notDetected (sensorType : SensorType)
  /-- Runtime panic: a register number is read through a nil datasheet pointer. -/
  | nilDatasheet
  /-- Process exit by `log.Fatalf("Unknown mode %v in getMultiplier", mode)`. -/
  | fatalUnknownMode (mode : Int)
  /-- Process exit by `log.Fatalf("Unknown range %v in getMultiplier", range_)`. -/
  | fatalUnknownRange (range_ : Int)
  deriving DecidableEq, Repr

/-! ## The bus -/

/-- A bus as seen through `mmr.Dev8`: one-byte register reads and writes at a
device address, each of which may fail with an error code and may change the
state of the bus. -/
structure Bus (σ : Type) where
  read : σ → (addr reg : Nat) → Except Nat Nat × σ
  write : σ → (addr reg val : Nat) → Except Nat Unit × σ

/-- One bus transaction together with its outcome. -/
inductive Event
  | readOk (addr reg val : Nat)
  | readErr (addr reg code : Nat)
  | writeOk (addr reg val : Nat)
  | writeErr (addr reg val code : Nat)
  deriving DecidableEq, Repr

/-- The state of the bus and the transactions issued so far, oldest first. -/
structure World (σ : Type) where
  dev : σ
  log : List Event

/-- Method `mmr.Dev8.ReadUint8`: one read transaction of one byte. -/
def ReadUint8 {σ : Type} (bus : Bus σ) (addr reg : Nat) (w : World σ) :
    Except Error Nat × World σ :=
  match bus.read w.dev addr reg with
  | (.ok v, s) => (.ok (v % 256), ⟨s, w.log ++ [Event.readOk addr reg (v % 256)]⟩)
  | (.error c, s) => (.error (Error.bus c), ⟨s, w.log ++ [Event.readErr addr reg c]⟩)

/-- Method `mmr.Dev8.WriteUint8`: one write transaction of one byte. -/
def WriteUint8 {σ : Type} (bus : Bus σ) (addr reg val : Nat) (w : World σ) :
    Except Error Unit × World σ :=
  match bus.write w.dev addr reg val with
  | (.ok _, s) => (.ok (), ⟨s, w.log ++ [Event.writeOk addr reg val]⟩)
  | (.error c, s) => (.error (Error.bus c), ⟨s, w.log ++ [Event.writeErr addr reg val c]⟩)

/-- A faithful bus: a register file per device address in which every write
succeeds and stores its byte and every read succeeds and returns the byte
stored last. -/
def faithfulBus : Bus (Nat → Nat → Nat) where
  read := fun regs addr reg => (.ok (regs addr reg), regs)
  write := fun regs addr reg val =>
    (.ok (), fun a r => if a = addr ∧ r = reg then val else regs a r)

/-- One expected transaction of a playback scenario (`i2ctest` record with
fields `Addr`, `W`, `R`). -/
structure TxRecord where
  Addr : Nat
  W : List Nat
  R : List Nat
  deriving DecidableEq, Repr

/-- The playback bus of the tests (`i2ctest.Playback`): it accepts exactly the
recorded transactions in their order; `Count` is the number already played. -/
structure Playback where
  Ops : List TxRecord
  Count : Nat
  deriving DecidableEq, Repr

/-- Method `Playback.Tx`: the transaction fails when no record is left, or when
the address, the written bytes or the number of bytes to read differ from the
next record; otherwise the recorded reply is returned and the record consumed.
A failure is the error that the library returns with `DontPanic` set; without
it the library panics at the same point. -/
def Playback.Tx (p : Playback) (addr : Nat) (w : List Nat) (rlen : Nat) :
    Except Nat (List Nat) × Playback :=
  match p.Ops.get? p.Count with
  | none => (.error 1, p)
  | some op =>
    if op.Addr ≠ addr then (.error 2, p)
    else if op.W ≠ w then (.error 3, p)
    else if op.R.length ≠ rlen then (.error 4, p)
    else (.ok op.R, { p with Count := p.Count + 1 })

/-- The playback scenario as a bus: a register read sends the register number
and reads one byte, a register write sends the register number and the value. -/
def playbackBus : Bus Playback where
  read := fun p addr reg =>
    match p.Tx addr [reg] 1 with
    | (.ok r, p1) => (.ok (r.headD 0), p1)
    | (.error c, p1) => (.error c, p1)
  write := fun p addr reg val =>
    match p.Tx addr [reg, val] 0 with
    | (.ok _, p1) => (.ok (), p1)
    | (.error c, p1) => (.error c, p1)

/-! ## Datasheets (`datasheet.go`) -/

structure AccelerometerDatasheet where
  ADDRESS : Nat
  WHO_AM_I_A : Nat
  CHIP_ID : Nat
  CTRL_REG1_A : Nat
  CTRL_REG4_A : Nat
  OUT_X_L_A : Nat
  OUT_X_H_A : Nat
  OUT_Y_L_A : Nat
  OUT_Y_H_A : Nat
  OUT_Z_L_A : Nat
  OUT_Z_H_A : Nat
  deriving DecidableEq, Repr

/-- Fields the source leaves out of a literal are zero, as in Go. -/
structure MagnetometerDatasheet where
  ADDRESS : Nat := 0
  WHO_AM_I_M : Nat := 0
  CHIP_ID : Nat := 0
  CRA_REG_M : Nat := 0
  CRB_REG_M : Nat := 0
  MR_REG_M : Nat := 0
  OUT_X_H_M : Nat := 0
  OUT_X_L_M : Nat := 0
  OUT_Z_H_M : Nat := 0
  OUT_Z_L_M : Nat := 0
  OUT_Y_H_M : Nat := 0
  OUT_Y_L_M : Nat := 0
  IRA_REG_M : Nat := 0
  TEMP_OUT_H_M : Nat := 0
  TEMP_OUT_L_M : Nat := 0
  deriving DecidableEq, Repr

def datasheetForAccelerometer (sensorType : SensorType) : AccelerometerDatasheet :=
  let datasheet : AccelerometerDatasheet :=
    { ADDRESS := 0x19
      WHO_AM_I_A := 0x0F
      CHIP_ID := 0x33
      CTRL_REG1_A := 0x20
      CTRL_REG4_A := 0x23
      OUT_X_L_A := 0x28
      OUT_X_H_A := 0x29
      OUT_Y_L_A := 0x2A
      OUT_Y_H_A := 0x2B
      OUT_Z_L_A := 0x2C
      OUT_Z_H_A := 0x2D }
  if sensorType = LSM303DLHC then datasheet
  else if sensorType = LSM303AGR then datasheet
  else if sensorType = LSM303C then { datasheet with ADDRESS := 0x1D, CHIP_ID := 0x41 }
  else datasheet

def datasheetForMagnetometer (sensorType : SensorType) : MagnetometerDatasheet :=
  let defaultDatasheet : MagnetometerDatasheet :=
    { ADDRESS := 0x1E
      WHO_AM_I_M := 0x0A
      CHIP_ID := 0b01001000
      CRA_REG_M := 0x00
      CRB_REG_M := 0x01
      MR_REG_M := 0x02
      OUT_X_H_M := 0x03
      OUT_X_L_M := 0x04
      OUT_Z_H_M := 0x05
      OUT_Z_L_M := 0x06
      OUT_Y_H_M := 0x07
      OUT_Y_L_M := 0x08
      IRA_REG_M := 0x0A
      TEMP_OUT_H_M := 0x31
      TEMP_OUT_L_M := 0x32 }
  if sensorType = LSM303DLHC then defaultDatasheet
  else if sensorType = LSM303AGR then
    { ADDRESS := 0x1E
      WHO_AM_I_M := 0x4F
      CHIP_ID := 0x40
      CRA_REG_M := 0x60
      CRB_REG_M := 0x61
      MR_REG_M := 0x02
      OUT_X_L_M := 0x68
      OUT_X_H_M := 0x69
      OUT_Y_L_M := 0x6A
      OUT_Y_H_M := 0x6B
      OUT_Z_L_M := 0x6C
      OUT_Z_H_M := 0x6D
      IRA_REG_M := 0x0A
      TEMP_OUT_H_M := 0x31
      TEMP_OUT_L_M := 0x32 }
  else if sensorType = LSM303C then
    { ADDRESS := 0x1E
      WHO_AM_I_M := 0x0F
      CHIP_ID := 0x3D
      CRA_REG_M := 0x20
      MR_REG_M := 0x22
      OUT_X_L_M := 0x28
      OUT_X_H_M := 0x29
      OUT_Y_L_M := 0x2A
      OUT_Y_H_M := 0x2B
      OUT_Z_L_M := 0x2C
      OUT_Z_H_M := 0x2D
      IRA_REG_M := 0x0A
      TEMP_OUT_H_M := 0x2F
      TEMP_OUT_L_M := 0x2E }
  else defaultDatasheet

/-! ## Handles and options (`accelerometer.go`, `magnetometer.go`, `options.go`) -/

/-- The accelerometer handle. Field `mmr` is the device address of the
connection behind `mmr.Dev8`; the bus itself is an explicit parameter of every
method. The pointers `datasheet` and `addr` may be nil. -/
structure Accelerometer where
  mmr : Nat
  sensorType : SensorType
  datasheet : Option AccelerometerDatasheet
  addr : Option Nat
  range_ : AccelerometerRange
  mode : AccelerometerMode
  deriving DecidableEq, Repr

/-- The magnetometer handle, with the same conventions as `Accelerometer`. -/
structure Magnetometer where
  mmr : Nat
  sensorType : SensorType
  datasheet : Option MagnetometerDatasheet
  addr : Option Nat
  rate : MagnetometerRate
  gain : MagnetometerGain
  deriving DecidableEq, Repr

/-- The option constructors of the package that yield an `AccelerometerOption`. -/
inductive AccelerometerOption
  | WithAccelerometerSensorType (sensorType : SensorType)
  | WithAccelerometerAddress (addr : Nat)
  | WithMode (mode : AccelerometerMode)
  | WithRange (rng : AccelerometerRange)
  deriving DecidableEq, Repr

/-- Method `Apply` of an accelerometer option: it runs the closure of the constructor. -/
def AccelerometerOption.Apply : AccelerometerOption → Accelerometer → Accelerometer
  | .WithAccelerometerSensorType sensorType, d => { d with sensorType := sensorType }
  | .WithAccelerometerAddress addr, d => { d with addr := some addr }
  | .WithMode mode, d => { d with mode := mode }
  | .WithRange rng, d => { d with range_ := rng }

/-- The option constructors of the package that yield a `MagnetometerOption`. -/
inductive MagnetometerOption
  | WithMagnetometerSensorType (sensorType : SensorType)
  | WithMagnetometerAddress (addr : Nat)
  | WithGain (gain : MagnetometerGain)
  | WithRate (rate : MagnetometerRate)
  | WithDatasheet (datasheet : MagnetometerDatasheet)
  deriving DecidableEq, Repr

/-- Method `Apply` of a magnetometer option. -/
def MagnetometerOption.Apply : MagnetometerOption → Magnetometer → Magnetometer
  | .WithMagnetometerSensorType sensorType, d => { d with sensorType := sensorType }
  | .WithMagnetometerAddress addr, d => { d with addr := some addr }
  | .WithGain gain, d => { d with gain := gain }
  | .WithRate rate, d => { d with rate := rate }
  | .WithDatasheet datasheet, d => { d with datasheet := some datasheet }

/-! ## Accelerometer (`accelerometer.go`) -/

/-- Function `readBits` on `uint32` values with a `uint8` shift. -/
def readBits (value bits shift : Nat) : Nat :=
  let value := value >>> shift
  value &&& (((1 <<< bits) % 2 ^ 32 + 2 ^ 32 - 1) % 2 ^ 32)

/-- Gets the multiplier for the accelerometer mode and range. -/
def getMultiplier (mode : AccelerometerMode) (range_ : AccelerometerRange) :
    Except Error Int :=
  if mode = ACCELEROMETER_MODE_LOW_POWER then
    if range_ = ACCELEROMETER_RANGE_2G then .ok (Int.shiftRight 153277939 8)
    else if range_ = ACCELEROMETER_RANGE_4G then .ok (Int.shiftRight 306555879 8)
    else if range_ = ACCELEROMETER_RANGE_8G then .ok (Int.shiftRight 613111758 8)
    else if range_ = ACCELEROMETER_RANGE_16G then .ok (Int.shiftRight 1839531407 8)
    else .error (Error.fatalUnknownRange range_)
  else if mode = ACCELEROMETER_MODE_NORMAL then
    if range_ = ACCELEROMETER_RANGE_2G then .ok (Int.shiftRight 38245935 6)
    else if range_ = ACCELEROMETER_RANGE_4G then .ok (Int.shiftRight 76688003 6)
    else if range_ = ACCELEROMETER_RANGE_8G then .ok (Int.shiftRight 153277939 6)
    else if range_ = ACCELEROMETER_RANGE_16G then .ok (Int.shiftRight 459931885 6)
    else .error (Error.fatalUnknownRange range_)
  else if mode = ACCELEROMETER_MODE_HIGH_RESOLUTION then
    if range_ = ACCELEROMETER_RANGE_2G then .ok (Int.shiftRight 9610517 4)
    else if range_ = ACCELEROMETER_RANGE_4G then .ok (Int.shiftRight 19122967 4)
    else if range_ = ACCELEROMETER_RANGE_8G then .ok (Int.shiftRight 38245935 4)
    else if range_ = ACCELEROMETER_RANGE_16G then .ok (Int.shiftRight 114933938 4)
    else .error (Error.fatalUnknownRange range_)
  else .error (Error.fatalUnknownMode mode)

def Accelerometer.SenseRaw {σ : Type} (bus : Bus σ) (a : Accelerometer) (w : World σ) :
    Except Error (Int × Int × Int) × World σ :=
  match a.datasheet with
  | none => (.error Error.nilDatasheet, w)
  | some ds =>
    match ReadUint8 bus a.mmr ds.OUT_X_L_A w with
    | (.error err, w) => (.error err, w)
    | (.ok xLow, w) =>
    match ReadUint8 bus a.mmr ds.OUT_X_H_A w with
    | (.error err, w) => (.error err, w)
    | (.ok xHigh, w) =>
    match ReadUint8 bus a.mmr ds.OUT_Y_L_A w with
    | (.error err, w) => (.error err, w)
    | (.ok yLow, w) =>
    match ReadUint8 bus a.mmr ds.OUT_Y_H_A w with
    | (.error err, w) => (.error err, w)
    | (.ok yHigh, w) =>
    match ReadUint8 bus a.mmr ds.OUT_Z_L_A w with
    | (.error err, w) => (.error err, w)
    | (.ok zLow, w) =>
    match ReadUint8 bus a.mmr ds.OUT_Z_H_A w with
    | (.error err, w) => (.error err, w)
    | (.ok zHigh, w) =>
      let xValue := int16 ((((xHigh <<< 8) % 65536 + xLow) % 65536 : Nat) : Int)
      let yValue := int16 ((((yHigh <<< 8) % 65536 + yLow) % 65536 : Nat) : Int)
      let zValue := int16 ((((zHigh <<< 8) % 65536 + zLow) % 65536 : Nat) : Int)
      (.ok (xValue, yValue, zValue), w)

def Accelerometer.Sense {σ : Type} (bus : Bus σ) (a : Accelerometer) (w : World σ) :
    Except Error (Int × Int × Int) × World σ :=
  match a.SenseRaw bus w with
  | (.error err, w) => (.error err, w)
  | (.ok (xValue, yValue, zValue), w) =>
    match getMultiplier a.mode a.range_ with
    | .error err => (.error err, w)
    | .ok multiplier =>
      let xAcceleration := int64 (int64 xValue * multiplier)
      let yAcceleration := int64 (int64 yValue * multiplier)
      let zAcceleration := int64 (int64 zValue * multiplier)
      (.ok (xAcceleration, yAcceleration, zAcceleration), w)

def Accelerometer.GetMode {σ : Type} (bus : Bus σ) (a : Accelerometer) (w : World σ) :
    Except Error AccelerometerMode × World σ :=
  match a.datasheet with
  | none => (.error Error.nilDatasheet, w)
  | some ds =>
    match ReadUint8 bus a.mmr ds.CTRL_REG1_A w with
    | (.error err, w) => (.error err, w)
    | (.ok lowPowerU8, w) =>
      let lowPowerBit := readBits lowPowerU8 1 3
      match ReadUint8 bus a.mmr ds.CTRL_REG4_A w with
      | (.error err, w) => (.error err, w)
      | (.ok highResolutionU8, w) =>
        let highResolutionBit := readBits highResolutionU8 1 3
        (.ok ((((lowPowerBit <<< 1) % 2 ^ 32 ||| highResolutionBit : Nat) : Int)), w)

def Accelerometer.SetMode {σ : Type} (bus : Bus σ) (a : Accelerometer)
    (mode : AccelerometerMode) (w : World σ) : Except Error Unit × Accelerometer × World σ :=
  let bits := 1
  let shift := 3
  match a.datasheet with
  | none => (.error Error.nilDatasheet, a, w)
  | some ds =>
    let data := uint8 (Int.shiftRight (Int.land mode 0x02) 1)
    match ReadUint8 bus a.mmr ds.CTRL_REG1_A w with
    | (.error err, w) => (.error err, a, w)
    | (.ok power, w) =>
      let mask := uint8 ((1 <<< bits) - 1)
      let data := data &&& mask
      let mask := shl8 mask shift
      let power := power &&& not8 mask
      let power := power ||| shl8 data shift
      match WriteUint8 bus a.mmr ds.CTRL_REG1_A power w with
      | (.error err, w) => (.error err, a, w)
      | (.ok _, w) =>
        let data := uint8 (Int.land mode 0x01)
        match ReadUint8 bus a.mmr ds.CTRL_REG4_A w with
        | (.error err, w) => (.error err, a, w)
        | (.ok resolution, w) =>
          let mask := uint8 ((1 <<< bits) - 1)
          let data := data &&& mask
          let mask := shl8 mask shift
          let resolution := resolution &&& not8 mask
          let resolution := resolution ||| shl8 data shift
          match WriteUint8 bus a.mmr ds.CTRL_REG4_A resolution w with
          | (.error err, w) => (.error err, a, w)
          | (.ok _, w) => (.ok (), { a with mode := mode }, w)

def Accelerometer.GetRange {σ : Type} (bus : Bus σ) (a : Accelerometer) (w : World σ) :
    Except Error AccelerometerRange × World σ :=
  match a.datasheet with
  | none => (.error Error.nilDatasheet, w)
  | some ds =>
    match ReadUint8 bus a.mmr ds.CTRL_REG4_A w with
    | (.error err, w) => (.error err, w)
    | (.ok value, w) =>
      let range_ := (value >>> 4) &&& ((1 <<< 2) - 1)
      (.ok ((range_ : Nat) : Int), w)

def Accelerometer.SetRange {σ : Type} (bus : Bus σ) (a : Accelerometer)
    (range_ : AccelerometerRange) (w : World σ) : Except Error Unit × Accelerometer × World σ :=
  let bits := 2
  let shift := 4
  match a.datasheet with
  | none => (.error Error.nilDatasheet, a, w)
  | some ds =>
    let data := uint8 range_
    match ReadUint8 bus a.mmr ds.CTRL_REG4_A w with
    | (.error err, w) => (.error err, a, w)
    | (.ok currentRange, w) =>
      let mask := uint8 ((1 <<< bits) - 1)
      let data := data &&& mask
      let mask := shl8 mask shift
      let currentRange := currentRange &&& not8 mask
      let currentRange := currentRange ||| shl8 data shift
      match WriteUint8 bus a.mmr ds.CTRL_REG4_A currentRange w with
      | (.error err, w) => (.error err, a, w)
      | (.ok _, w) => (.ok (), { a with range_ := range_ }, w)

/-- The first part of `NewAccelerometer`, up to the construction of the
`mmr.Dev8`: the defaults, the options applied in order, and the datasheet and
address resolved from the sensor type where no option has set them. -/
def newAccelerometerDevice (opts : List AccelerometerOption) : Accelerometer :=
  let device : Accelerometer :=
    { mmr := 0
      sensorType := LSM303DLHC
      datasheet := none
      addr := none
      range_ := ACCELEROMETER_RANGE_4G
      mode := ACCELEROMETER_MODE_NORMAL }
  let device := opts.foldl (fun d o => o.Apply d) device
  let datasheet : AccelerometerDatasheet :=
    match device.datasheet with
    | none => datasheetForAccelerometer device.sensorType
    | some ds => ds
  let device := { device with datasheet := some datasheet }
  let addr : Nat :=
    match device.addr with
    | none => datasheet.ADDRESS
    | some p => p
  let device := { device with addr := some addr }
  { device with mmr := addr }

/-- New accelerometer opens a handle to an LSM303 accelerometer sensor. The
results of `SetRange` and `SetMode` are discarded, as in the source; only a
panic inside them would still end the call. -/
def NewAccelerometer {σ : Type} (bus : Bus σ) (opts : List AccelerometerOption)
    (w : World σ) : Except Error Accelerometer × World σ :=
  let device := newAccelerometerDevice opts
  match device.datasheet with
  | none => (.error Error.nilDatasheet, w)
  | some datasheet =>
    match WriteUint8 bus device.mmr datasheet.CTRL_REG1_A 0x57 w with
    | (.error err, w) => (.error err, w)
    | (.ok _, w) =>
      match ReadUint8 bus device.mmr datasheet.WHO_AM_I_A w with
      | (.error err, w) => (.error err, w)
      | (.ok chipId, w) =>
        if chipId ≠ datasheet.CHIP_ID then (.error (Error.notDetected device.sensorType), w)
        else
          match device.SetRange bus device.range_ w with
          | (.error Error.nilDatasheet, _, w) => (.error Error.nilDatasheet, w)
          | (_, device, w) =>
            match device.SetMode bus device.mode w with
            | (.error Error.nilDatasheet, _, w) => (.error Error.nilDatasheet, w)
            | (_, device, w) => (.ok device, w)

/-! ## Magnetometer (`magnetometer.go`) -/

def Magnetometer.SenseRaw {σ : Type} (bus : Bus σ) (m : Magnetometer) (w : World σ) :
    Except Error (Int × Int × Int) × World σ :=
  match m.datasheet with
  | none => (.error Error.nilDatasheet, w)
  | some ds =>
    match ReadUint8 bus m.mmr ds.OUT_X_L_M w with
    | (.error err, w) => (.error err, w)
    | (.ok xLow, w) =>
    match ReadUint8 bus m.mmr ds.OUT_X_H_M w with
    | (.error err, w) => (.error err, w)
    | (.ok xHigh, w) =>
    match ReadUint8 bus m.mmr ds.OUT_Y_L_M w with
    | (.error err, w) => (.error err, w)
    | (.ok yLow, w) =>
    match ReadUint8 bus m.mmr ds.OUT_Y_H_M w with
    | (.error err, w) => (.error err, w)
    | (.ok yHigh, w) =>
    match ReadUint8 bus m.mmr ds.OUT_Z_L_M w with
    | (.error err, w) => (.error err, w)
    | (.ok zLow, w) =>
    match ReadUint8 bus m.mmr ds.OUT_Z_H_M w with
    | (.error err, w) => (.error err, w)
    | (.ok zHigh, w) =>
      let xValue := int16 ((((xHigh <<< 8) % 65536 + xLow) % 65536 : Nat) : Int)
      let yValue := int16 ((((yHigh <<< 8) % 65536 + yLow) % 65536 : Nat) : Int)
      let zValue := int16 ((((zHigh <<< 8) % 65536 + zLow) % 65536 : Nat) : Int)
      (.ok (xValue, yValue, zValue), w)

/-- Method `SetRate`. The register is written from a zero baseline, without a
read, and the handle is returned as it was: the source has no assignment to
`m.rate`. -/
def Magnetometer.SetRate {σ : Type} (bus : Bus σ) (m : Magnetometer)
    (mode : MagnetometerRate) (w : World σ) : Except Error Unit × Magnetometer × World σ :=
  let bits := 3
  let shift := 2
  let previous := uint8 0
  let data := uint8 mode
  let mask := uint8 ((1 <<< bits) - 1)
  let data := data &&& mask
  let mask := shl8 mask shift
  let previous := previous &&& not8 mask
  let previous := previous ||| shl8 data shift
  let previous := previous ||| 0b10000000
  match m.datasheet with
  | none => (.error Error.nilDatasheet, m, w)
  | some ds =>
    match WriteUint8 bus m.mmr ds.CRA_REG_M previous w with
    | (.error err, w) => (.error err, m, w)
    | (.ok _, w) => (.ok (), m, w)

def Magnetometer.GetRate {σ : Type} (bus : Bus σ) (m : Magnetometer) (w : World σ) :
    Except Error MagnetometerRate × World σ :=
  match m.datasheet with
  | none => (.error Error.nilDatasheet, w)
  | some ds =>
    match ReadUint8 bus m.mmr ds.CRA_REG_M w with
    | (.error err, w) => (.error err, w)
    | (.ok value, w) =>
      let bits := 3
      let shift := 2
      let range_ := (value >>> shift) &&& ((1 <<< bits) - 1)
      (.ok ((range_ : Nat) : Int), w)

def Magnetometer.SetGain {σ : Type} (bus : Bus σ) (m : Magnetometer)
    (gain : MagnetometerGain) (w : World σ) : Except Error Unit × Magnetometer × World σ :=
  let bits := 3
  let shift := 5
  match m.datasheet with
  | none => (.error Error.nilDatasheet, m, w)
  | some ds =>
    let data := uint8 gain
    match ReadUint8 bus m.mmr ds.CRB_REG_M w with
    | (.error err, w) => (.error err, m, w)
    | (.ok currentGain, w) =>
      let mask := uint8 ((1 <<< bits) - 1)
      let data := data &&& mask
      let mask := shl8 mask shift
      let currentGain := currentGain &&& not8 mask
      let currentGain := currentGain ||| shl8 data shift
      match WriteUint8 bus m.mmr ds.CRB_REG_M currentGain w with
      | (.error err, w) => (.error err, m, w)
      | (.ok _, w) => (.ok (), { m with gain := gain }, w)

/-- Method `GetGain`. The source reads `CRA_REG_M` here. -/
def Magnetometer.GetGain {σ : Type} (bus : Bus σ) (m : Magnetometer) (w : World σ) :
    Except Error MagnetometerGain × World σ :=
  match m.datasheet with
  | none => (.error Error.nilDatasheet, w)
  | some ds =>
    match ReadUint8 bus m.mmr ds.CRA_REG_M w with
    | (.error err, w) => (.error err, w)
    | (.ok value, w) =>
      let bits := 3
      let shift := 5
      let gain := (value >>> shift) &&& ((1 <<< bits) - 1)
      (.ok ((gain : Nat) : Int), w)

/-- Returns the relative temperature in eighths of a degree. -/
def Magnetometer.senseRelativeTemperatureRaw {σ : Type} (bus : Bus σ) (m : Magnetometer)
    (w : World σ) : Except Error Int × World σ :=
  match m.datasheet with
  | none => (.error Error.nilDatasheet, w)
  | some ds =>
    match ReadUint8 bus m.mmr ds.TEMP_OUT_H_M w with
    | (.error err, w) => (.error err, w)
    | (.ok high, w) =>
      match ReadUint8 bus m.mmr ds.TEMP_OUT_L_M w with
      | (.error err, w) => (.error err, w)
      | (.ok low, w) =>
        let degreesEighths :=
          Int.shiftRight
            (or16 (shl16 (int16 (high : Int)) 8) (int16 ((uint16 (low : Int) : Nat) : Int))) 4
        (.ok degreesEighths, w)

/-- Method `SenseRelativeTemperature`; the division of `int64` values truncates
towards zero. -/
def Magnetometer.SenseRelativeTemperature {σ : Type} (bus : Bus σ) (m : Magnetometer)
    (w : World σ) : Except Error Int × World σ :=
  match m.senseRelativeTemperatureRaw bus w with
  | (.error err, w) => (.error err, w)
  | (.ok degrees_eighths, w) =>
    (.ok (int64 (Int.tdiv (int64 (int64 degrees_eighths * int64 physic.Celsius)) 8
        + int64 physic.ZeroCelsius)), w)

/-- The first part of `NewMagnetometer`, up to the construction of the
`mmr.Dev8`: the defaults, the options applied in order, and the datasheet and
address resolved from the sensor type where no option has set them. -/
def newMagnetometerDevice (opts : List MagnetometerOption) : Magnetometer :=
  let device : Magnetometer :=
    { mmr := 0
      sensorType := LSM303DLHC
      datasheet := none
      addr := none
      gain := MAGNETOMETER_GAIN_4_0
      rate := MAGNETOMETER_RATE_30 }
  let device := opts.foldl (fun d o => o.Apply d) device
  let datasheet : MagnetometerDatasheet :=
    match device.datasheet with
    | none => datasheetForMagnetometer device.sensorType
    | some ds => ds
  let device := { device with datasheet := some datasheet }
  let addr : Nat :=
    match device.addr with
    | none => datasheet.ADDRESS
    | some p => p
  let device := { device with addr := some addr }
  { device with mmr := addr }

/-- New magnetometer opens a handle to an LSM303 magnetometer sensor. The
results of `SetGain` and `SetRate` are discarded, as in the source. -/
def NewMagnetometer {σ : Type} (bus : Bus σ) (opts : List MagnetometerOption)
    (w : World σ) : Except Error Magnetometer × World σ :=
  let device := newMagnetometerDevice opts
  match device.datasheet with
  | none => (.error Error.nilDatasheet, w)
  | some datasheet =>
    match WriteUint8 bus device.mmr datasheet.MR_REG_M 0x00 w with
    | (.error err, w) => (.error err, w)
    | (.ok _, w) =>
      match ReadUint8 bus device.mmr datasheet.WHO_AM_I_M w with
      | (.error err, w) => (.error err, w)
      | (.ok chipId, w) =>
        if chipId ≠ datasheet.CHIP_ID then (.error (Error.notDetected device.sensorType), w)
        else
          match device.SetGain bus device.gain w with
          | (.error Error.nilDatasheet, _, w) => (.error Error.nilDatasheet, w)
          | (_, device, w) =>
            match device.SetRate bus device.rate w with
            | (.error Error.nilDatasheet, _, w) => (.error Error.nilDatasheet, w)
            | (_, device, w) => (.ok device, w)

/-! ## Reference values of the tests and of the specification -/

/-- Reinterpretation of a value in `0..65535` as a 16-bit twos-complement number. -/
def s16 (v : Nat) : Int := if v < 32768 then (v : Int) else (v : Int) - 65536

/-- Test helper `getLsb_`: the least significant bit weight in g for a mode and
range, as an exact rational; `0` stands for the failing fallthrough. -/
def getLsb_ (mode : AccelerometerMode) (range_ : AccelerometerRange) : ℚ :=
  if mode = ACCELEROMETER_MODE_LOW_POWER then
    if range_ = ACCELEROMETER_RANGE_2G then 0.01563
    else if range_ = ACCELEROMETER_RANGE_4G then 0.03126
    else if range_ = ACCELEROMETER_RANGE_8G then 0.06252
    else if range_ = ACCELEROMETER_RANGE_16G then 0.18758
    else 0
  else if mode = ACCELEROMETER_MODE_NORMAL then
    if range_ = ACCELEROMETER_RANGE_2G then 0.0039
    else if range_ = ACCELEROMETER_RANGE_4G then 0.00782
    else if range_ = ACCELEROMETER_RANGE_8G then 0.01563
    else if range_ = ACCELEROMETER_RANGE_16G then 0.0469
    else 0
  else if mode = ACCELEROMETER_MODE_HIGH_RESOLUTION then
    if range_ = ACCELEROMETER_RANGE_2G then 0.00098
    else if range_ = ACCELEROMETER_RANGE_4G then 0.00195
    else if range_ = ACCELEROMETER_RANGE_8G then 0.0039
    else if range_ = ACCELEROMETER_RANGE_16G then 0.01172
    else 0
  else 0

/-- Test helper `getShift_`: the bit shift amount for a mode. -/
def getShift_ (mode : AccelerometerMode) : Nat :=
  if mode = ACCELEROMETER_MODE_HIGH_RESOLUTION then 4
  else if mode = ACCELEROMETER_MODE_NORMAL then 6
  else if mode = ACCELEROMETER_MODE_LOW_POWER then 8
  else 0

/-- The modes over which the test `TestGetMultiplier` ranges. -/
def modes : List AccelerometerMode :=
  [ACCELEROMETER_MODE_LOW_POWER, ACCELEROMETER_MODE_NORMAL, ACCELEROMETER_MODE_HIGH_RESOLUTION]

/-- The ranges over which the test `TestGetMultiplier` ranges. -/
def ranges : List AccelerometerRange :=
  [ACCELEROMETER_RANGE_2G, ACCELEROMETER_RANGE_4G, ACCELEROMETER_RANGE_8G,
   ACCELEROMETER_RANGE_16G]

/-- An accelerometer handle as `NewAccelerometer` leaves it for an LSM303DLHC. -/
def dlhcAccelerometer : Accelerometer :=
  { mmr := 0x19
    sensorType := LSM303DLHC
    datasheet := some (datasheetForAccelerometer LSM303DLHC)
    addr := some 0x19
    range_ := ACCELEROMETER_RANGE_4G
    mode := ACCELEROMETER_MODE_NORMAL }

/-- A magnetometer handle as `NewMagnetometer` leaves it for an LSM303DLHC. -/
def dlhcMagnetometer : Magnetometer :=
  { mmr := 0x1E
    sensorType := LSM303DLHC
    datasheet := some (datasheetForMagnetometer LSM303DLHC)
    addr := some 0x1E
    rate := MAGNETOMETER_RATE_30
    gain := MAGNETOMETER_GAIN_4_0 }

/-- The playback scenario of `TestAccelerometerSense`. -/
def accelerometerSenseOps : List TxRecord :=
  [⟨0x19, [0x28], [0]⟩, ⟨0x19, [0x29], [1]⟩, ⟨0x19, [0x2A], [100]⟩,
   ⟨0x19, [0x2B], [0]⟩, ⟨0x19, [0x2C], [0xff]⟩, ⟨0x19, [0x2D], [0xff]⟩]

/-- The playback scenario of `TestNewAccelerometer`. -/
def newAccelerometerOps : List TxRecord :=
  [⟨0x19, [0x20, 0x57], []⟩, ⟨0x19, [0x0F], [0x33]⟩, ⟨0x19, [0x23], [0]⟩,
   ⟨0x19, [0x23, 0x10], []⟩, ⟨0x19, [0x20], [0]⟩, ⟨0x19, [0x20, 0], []⟩,
   ⟨0x19, [0x23], [0]⟩, ⟨0x19, [0x23, 0], []⟩]

/-- The bus trace of scenario 1 of the specification (open accelerometer with defaults). -/
def specAccelerometerOps : List TxRecord :=
  [⟨0x19, [0x20, 0x57], []⟩, ⟨0x19, [0x0F], [0x33]⟩, ⟨0x19, [0x23], [0x00]⟩,
   ⟨0x19, [0x23, 0x10], []⟩, ⟨0x19, [0x20], [0x00]⟩, ⟨0x19, [0x20, 0x00], []⟩,
   ⟨0x19, [0x23], [0x10]⟩, ⟨0x19, [0x23, 0x10], []⟩]

/-- A register file for the magnetometer at `0x1E` holding the byte pattern of
`TestMagnetometerSense` in the output registers of the LSM303DLHC. -/
def magnetometerSenseRegs : Nat → Nat → Nat := fun addr reg =>
  if addr = 0x1E then
    if reg = 0x03 then 0x01 else if reg = 0x04 then 0x00
    else if reg = 0x07 then 0x00 else if reg = 0x08 then 0x64
    else if reg = 0x05 then 0xFF else if reg = 0x06 then 0xFF
    else 0
  else 0

/-- The byte `((r & 7) << 2) | 0x80` on a Go integer `r`. -/
def rateByte (r : Int) : Nat := ((Int.land r 7).toNat <<< 2) ||| 0x80

/-- A bus that goes away: a register file that answers the next `budget`
transactions faithfully and fails every later one with error code 1. -/
def failingBus : Bus ((Nat → Nat → Nat) × Nat) where
  read := fun st addr reg =>
    if st.2 = 0 then (.error 1, st) else (.ok (st.1 addr reg), (st.1, st.2 - 1))
  write := fun st addr reg val =>
    if st.2 = 0 then (.error 1, st)
    else (.ok (), (fun a r => if a = addr ∧ r = reg then val else st.1 a r, st.2 - 1))

/-- The gains `MAGNETOMETER_GAIN_1_3` to `MAGNETOMETER_GAIN_8_1`. -/
def gains : List MagnetometerGain :=
  [MAGNETOMETER_GAIN_1_3, MAGNETOMETER_GAIN_1_9, MAGNETOMETER_GAIN_2_5, MAGNETOMETER_GAIN_4_0,
   MAGNETOMETER_GAIN_4_7, MAGNETOMETER_GAIN_5_6, MAGNETOMETER_GAIN_8_1]

/-- A register file in which every chip-id register holds the expected id of
the LSM303DLHC (accelerometer `0x33` at `0x19`, magnetometer `0x48` at `0x1E`)
and every other register holds zero. -/
def dlhcIdRegs : Nat → Nat → Nat := fun addr reg =>
  if addr = 0x19 ∧ reg = 0x0F then 0x33
  else if addr = 0x1E ∧ reg = 0x0A then 0x48
  else 0

/-- The bus trace of scenario 3 of the specification (open magnetometer with
defaults), with the gain byte `0x80` as written there. -/
def specMagnetometerTrace : List Event :=
  [Event.writeOk 0x1E 0x02 0x00, Event.readOk 0x1E 0x0A 0x48, Event.readOk 0x1E 0x01 0x00,
   Event.writeOk 0x1E 0x01 0x80, Event.writeOk 0x1E 0x00 0x94]

/-- The playback scenario of `TestNewMagnetometer`: four transactions, the
first of them the read of the chip id. -/
def newMagnetometerOps : List TxRecord :=
  [⟨0x1E, [0x0A], [0b01001000]⟩, ⟨0x1E, [0x01], [0]⟩,
   ⟨0x1E, [0x01, 0x60], []⟩, ⟨0x1E, [0x00, 0x94], []⟩]

/-- The scenario of `TestNewMagnetometer` preceded by the write of `0x00` to
`MR_REG_M`. -/
def enabledMagnetometerOps : List TxRecord :=
  ⟨0x1E, [0x02, 0x00], []⟩ :: newMagnetometerOps

/-- The temperature that `TestGetTemperature` expects for a raw value in
eighths of a degree: `ZeroCelsius + 20*Celsius + eighths*Celsius/8`. -/
def testTemperature (eighths : Int) : Int :=
  physic.ZeroCelsius + 20 * physic.Celsius + eighths * physic.Celsius / 8

/-- The device address to which a transaction was directed. -/
def Event.addr : Event → Nat
  | .readOk addr _ _ => addr
  | .readErr addr _ _ => addr
  | .writeOk addr _ _ => addr
  | .writeErr addr _ _ _ => addr

/-- The register number that a transaction names. -/
def Event.reg : Event → Nat
  | .readOk _ reg _ => reg
  | .readErr _ reg _ => reg
  | .writeOk _ reg _ => reg
  | .writeErr _ reg _ _ => reg

/-- Method `String` of `AccelerometerMode` (`options.go`): the mode indexes an
array of three names; an index outside `0..2` is a runtime panic, rendered as
`none`. -/
def AccelerometerMode.String (mode : AccelerometerMode) : Option String :=
  if 0 ≤ mode then ["normal", "high resolution", "low power"].get? mode.toNat else none

/-! ## Auxiliary lemmas -/

theorem int16_combine (hi lo : Nat) (hhi : hi < 256) (hlo : lo < 256) :
    int16 ((((hi <<< 8) % 65536 + lo) % 65536 : Nat) : Int) = s16 (hi * 256 + lo) := by
  simp only [int16, s16, Nat.shiftLeft_eq]
  split_ifs <;> omega

theorem int16_range (x : Int) : -32768 ≤ int16 x ∧ int16 x ≤ 32767 := by
  unfold int16; omega

theorem int64_of_range (v : Int) (h1 : -(2 ^ 63) ≤ v) (h2 : v < 2 ^ 63) : int64 v = v := by
  unfold int64
  norm_num at h1 h2 ⊢
  omega

theorem ReadUint8_of_ok {σ : Type} (bus : Bus σ) (addr reg : Nat) (w : World σ) (v : Nat) (s : σ)
    (h : bus.read w.dev addr reg = (.ok v, s)) :
    ReadUint8 bus addr reg w = (.ok (v % 256), ⟨s, w.log ++ [Event.readOk addr reg (v % 256)]⟩) := by
  simp [ReadUint8, h]

theorem WriteUint8_of_ok {σ : Type} (bus : Bus σ) (addr reg val : Nat) (w : World σ) (s : σ)
    (h : bus.write w.dev addr reg val = (.ok (), s)) :
    WriteUint8 bus addr reg val w = (.ok (), ⟨s, w.log ++ [Event.writeOk addr reg val]⟩) := by
  simp [WriteUint8, h]

theorem ReadUint8_lt {σ : Type} (bus : Bus σ) (addr reg : Nat) (w w1 : World σ) (v : Nat)
    (h : ReadUint8 bus addr reg w = (.ok v, w1)) : v < 256 := by
  unfold ReadUint8 at h
  split at h
  · simp at h; omega
  · simp at h

/-! ## Accelerometer: raw and scaled readings -/

/-- C1. `Accelerometer.SenseRaw`: when the six reads of OUT_X_L_A, OUT_X_H_A,
OUT_Y_L_A, OUT_Y_H_A, OUT_Z_L_A, OUT_Z_H_A succeed with the bytes
`xl, xh, yl, yh, zl, zh`, the call issues exactly these six reads in this order
and returns `(s16 (xh*256+xl), s16 (yh*256+yl), s16 (zh*256+zl))` with no error. -/
theorem Accelerometer_SenseRaw_combines {σ : Type} (bus : Bus σ) (a : Accelerometer)
    (ds : AccelerometerDatasheet) (hds : a.datasheet = some ds)
    (s0 s1 s2 s3 s4 s5 s6 : σ) (log : List Event) (xl xh yl yh zl zh : Nat)
    (hxl : xl < 256) (hxh : xh < 256) (hyl : yl < 256) (hyh : yh < 256)
    (hzl : zl < 256) (hzh : zh < 256)
    (h1 : bus.read s0 a.mmr ds.OUT_X_L_A = (.ok xl, s1))
    (h2 : bus.read s1 a.mmr ds.OUT_X_H_A = (.ok xh, s2))
    (h3 : bus.read s2 a.mmr ds.OUT_Y_L_A = (.ok yl, s3))
    (h4 : bus.read s3 a.mmr ds.OUT_Y_H_A = (.ok yh, s4))
    (h5 : bus.read s4 a.mmr ds.OUT_Z_L_A = (.ok zl, s5))
    (h6 : bus.read s5 a.mmr ds.OUT_Z_H_A = (.ok zh, s6)) :
    a.SenseRaw bus ⟨s0, log⟩ =
      (.ok (s16 (xh * 256 + xl), s16 (yh * 256 + yl), s16 (zh * 256 + zl)),
       ⟨s6, log ++ [Event.readOk a.mmr ds.OUT_X_L_A xl, Event.readOk a.mmr ds.OUT_X_H_A xh,
                    Event.readOk a.mmr ds.OUT_Y_L_A yl, Event.readOk a.mmr ds.OUT_Y_H_A yh,
                    Event.readOk a.mmr ds.OUT_Z_L_A zl, Event.readOk a.mmr ds.OUT_Z_H_A zh]⟩) := by
  simp only [Accelerometer.SenseRaw, hds]
  rw [ReadUint8_of_ok bus _ _ _ xl s1 h1]
  simp only []
  rw [ReadUint8_of_ok bus _ _ _ xh s2 h2]
  simp only []
  rw [ReadUint8_of_ok bus _ _ _ yl s3 h3]
  simp only []
  rw [ReadUint8_of_ok bus _ _ _ yh s4 h4]
  simp only []
  rw [ReadUint8_of_ok bus _ _ _ zl s5 h5]
  simp only []
  rw [ReadUint8_of_ok bus _ _ _ zh s6 h6]
  simp only [Nat.mod_eq_of_lt hxl, Nat.mod_eq_of_lt hxh, Nat.mod_eq_of_lt hyl,
    Nat.mod_eq_of_lt hyh, Nat.mod_eq_of_lt hzl, Nat.mod_eq_of_lt hzh,
    int16_combine _ _ hxh hxl, int16_combine _ _ hyh hyl, int16_combine _ _ hzh hzl,
    List.append_assoc, List.cons_append, List.nil_append]

/-- C1, at the scenario of `TestAccelerometerSense`: the bytes
`(0x00, 0x01, 0x64, 0x00, 0xFF, 0xFF)` give `(256, 100, -1)`. -/
theorem Accelerometer_SenseRaw_combines_witness :
    dlhcAccelerometer.SenseRaw playbackBus ⟨⟨accelerometerSenseOps, 0⟩, []⟩ =
      (.ok (256, 100, -1),
       ⟨⟨accelerometerSenseOps, 6⟩,
        [Event.readOk 0x19 0x28 0, Event.readOk 0x19 0x29 1, Event.readOk 0x19 0x2A 100,
         Event.readOk 0x19 0x2B 0, Event.readOk 0x19 0x2C 255, Event.readOk 0x19 0x2D 255]⟩) :=
  Accelerometer_SenseRaw_combines playbackBus dlhcAccelerometer
    (datasheetForAccelerometer LSM303DLHC) rfl
    ⟨accelerometerSenseOps, 0⟩ ⟨accelerometerSenseOps, 1⟩ ⟨accelerometerSenseOps, 2⟩
    ⟨accelerometerSenseOps, 3⟩ ⟨accelerometerSenseOps, 4⟩ ⟨accelerometerSenseOps, 5⟩
    ⟨accelerometerSenseOps, 6⟩ [] 0 1 100 0 255 255
    (by decide) (by decide) (by decide) (by decide) (by decide) (by decide)
    rfl rfl rfl rfl rfl rfl

theorem floor_lsb_values :
    ⌊(0.01563 : ℚ) * 9806650000⌋ = 153277939 ∧ ⌊(0.03126 : ℚ) * 9806650000⌋ = 306555879 ∧
    ⌊(0.06252 : ℚ) * 9806650000⌋ = 613111758 ∧ ⌊(0.18758 : ℚ) * 9806650000⌋ = 1839531407 ∧
    ⌊(0.0039 : ℚ) * 9806650000⌋ = 38245935 ∧ ⌊(0.00782 : ℚ) * 9806650000⌋ = 76688003 ∧
    ⌊(0.0469 : ℚ) * 9806650000⌋ = 459931885 ∧ ⌊(0.00098 : ℚ) * 9806650000⌋ = 9610517 ∧
    ⌊(0.00195 : ℚ) * 9806650000⌋ = 19122967 ∧ ⌊(0.01172 : ℚ) * 9806650000⌋ = 114933938 := by
  refine ⟨?_, ?_, ?_, ?_, ?_, ?_, ?_, ?_, ?_, ?_⟩ <;> norm_num [Int.floor_eq_iff]

/-- C2. `getMultiplier`: for each of the 12 combinations of a mode in
{LOW_POWER, NORMAL, HIGH_RESOLUTION} and a range in {2G, 4G, 8G, 16G} the value
returned is `floor (lsb * G) >> shift` in exact rational arithmetic, with
`G = 9806650000`, the shift and the lsb table of the test. -/
theorem getMultiplier_eq_floor_lsb (mode : AccelerometerMode) (range_ : AccelerometerRange)
    (hm : mode ∈ modes) (hr : range_ ∈ ranges) :
    getMultiplier mode range_ =
      .ok (⌊getLsb_ mode range_ * (physic.EarthGravity : ℚ)⌋ >>> getShift_ mode) := by
  obtain ⟨f1, f2, f3, f4, f5, f6, f7, f8, f9, f10⟩ := floor_lsb_values
  simp only [modes, ranges, List.mem_cons, List.mem_singleton, List.not_mem_nil, or_false] at hm hr
  rcases hm with rfl | rfl | rfl <;> rcases hr with rfl | rfl | rfl | rfl <;>
    simp [getMultiplier, getLsb_, getShift_, physic.EarthGravity, ACCELEROMETER_MODE_LOW_POWER,
      ACCELEROMETER_MODE_NORMAL, ACCELEROMETER_MODE_HIGH_RESOLUTION, ACCELEROMETER_RANGE_2G,
      ACCELEROMETER_RANGE_4G, ACCELEROMETER_RANGE_8G, ACCELEROMETER_RANGE_16G,
      f1, f2, f3, f4, f5, f6, f7, f8, f9, f10] <;> rfl

/-- C2, at NORMAL and 2G (lsb 0.0039, shift 6). -/
theorem getMultiplier_eq_floor_lsb_witness :
    ACCELEROMETER_MODE_NORMAL ∈ modes ∧ ACCELEROMETER_RANGE_2G ∈ ranges ∧
    getMultiplier ACCELEROMETER_MODE_NORMAL ACCELEROMETER_RANGE_2G =
      .ok (⌊getLsb_ ACCELEROMETER_MODE_NORMAL ACCELEROMETER_RANGE_2G
          * (physic.EarthGravity : ℚ)⌋ >>> getShift_ ACCELEROMETER_MODE_NORMAL) :=
  ⟨by decide, by decide,
    getMultiplier_eq_floor_lsb ACCELEROMETER_MODE_NORMAL ACCELEROMETER_RANGE_2G
      (by decide) (by decide)⟩

theorem getMultiplier_defined (mode : AccelerometerMode) (range_ : AccelerometerRange)
    (hm : mode ∈ modes) (hr : range_ ∈ ranges) : ∃ k, getMultiplier mode range_ = .ok k := by
  simp only [modes, ranges, List.mem_cons, List.mem_singleton, List.not_mem_nil, or_false] at hm hr
  rcases hm with rfl | rfl | rfl <;> rcases hr with rfl | rfl | rfl | rfl <;> exact ⟨_, rfl⟩

theorem Accelerometer_SenseRaw_range {σ : Type} (bus : Bus σ) (a : Accelerometer)
    (w w1 : World σ) (x y z : Int) (hraw : a.SenseRaw bus w = (.ok (x, y, z), w1)) :
    (-32768 ≤ x ∧ x ≤ 32767) ∧ (-32768 ≤ y ∧ y ≤ 32767) ∧ (-32768 ≤ z ∧ z ≤ 32767) := by
  unfold Accelerometer.SenseRaw at hraw
  repeat' split at hraw
  all_goals try simp only [Prod.mk.injEq, Except.ok.injEq, reduceCtorEq, false_and] at hraw
  obtain ⟨⟨rfl, rfl, rfl⟩, -⟩ := hraw
  exact ⟨int16_range _, int16_range _, int16_range _⟩

theorem getMultiplier_bounds (mode : AccelerometerMode) (range_ : AccelerometerRange) (k : Int)
    (h : getMultiplier mode range_ = .ok k) : 0 < k ∧ k ≤ 7186435 := by
  unfold getMultiplier at h
  repeat' split at h
  all_goals try simp only [Except.ok.injEq, reduceCtorEq] at h
  all_goals (subst h; decide)

/-- C3. `Accelerometer.Sense`: for a handle whose cached mode is one of the
three modes and whose cached range is one of the four ranges, and a raw triple
`(x, y, z)` returned by `SenseRaw`, `Sense` returns `(x*k, y*k, z*k)` with
`k = getMultiplier (cached mode) (cached range)`; the `int64` products do not
overflow (`|v*k| < 2^63` for every `int16` value `v`), and the bus is left as
`SenseRaw` left it, with no further transaction. -/
theorem Accelerometer_Sense_scales {σ : Type} (bus : Bus σ) (a : Accelerometer)
    (w w1 : World σ) (x y z : Int) (hm : a.mode ∈ modes) (hr : a.range_ ∈ ranges)
    (hraw : a.SenseRaw bus w = (.ok (x, y, z), w1)) :
    ∃ k, getMultiplier a.mode a.range_ = .ok k ∧
      a.Sense bus w = (.ok (x * k, y * k, z * k), w1) ∧
      ∀ v : Int, -32768 ≤ v → v ≤ 32767 → |v * k| < 2 ^ 63 := by
  obtain ⟨k, hk⟩ := getMultiplier_defined _ _ hm hr
  obtain ⟨hk0, hk1⟩ := getMultiplier_bounds _ _ _ hk
  have hb : ∀ v : Int, -32768 ≤ v → v ≤ 32767 → -(2 ^ 63) < v * k ∧ v * k < 2 ^ 63 := by
    intro v hv1 hv2
    have h1 : v * k ≤ 32767 * 7186435 := by
      calc v * k ≤ 32767 * k := by nlinarith
        _ ≤ 32767 * 7186435 := by nlinarith
    have h2 : -(32768 * 7186435) ≤ v * k := by
      calc -(32768 * 7186435) ≤ -(32768 * k) := by nlinarith
        _ ≤ v * k := by nlinarith
    constructor <;> norm_num <;> omega
  obtain ⟨hx, hy, hz⟩ := Accelerometer_SenseRaw_range bus a w w1 x y z hraw
  refine ⟨k, hk, ?_, ?_⟩
  · have e16 : ∀ v : Int, -32768 ≤ v → v ≤ 32767 → int64 v = v := by
      intro v h1 h2
      apply int64_of_range <;> norm_num <;> omega
    have e64 : ∀ v : Int, -32768 ≤ v → v ≤ 32767 → int64 (v * k) = v * k := by
      intro v h1 h2
      exact int64_of_range _ (le_of_lt (hb v h1 h2).1) (hb v h1 h2).2
    simp only [Accelerometer.Sense, hraw, hk, e16 x hx.1 hx.2, e16 y hy.1 hy.2, e16 z hz.1 hz.2,
      e64 x hx.1 hx.2, e64 y hy.1 hy.2, e64 z hz.1 hz.2]
  · intro v h1 h2
    rw [abs_lt]
    exact hb v h1 h2

/-- C3, at the default handle (NORMAL, 4G) and the raw triple `(256, 100, -1)`
of `TestAccelerometerSense`. -/
theorem Accelerometer_Sense_scales_witness :
    ∃ k, getMultiplier dlhcAccelerometer.mode dlhcAccelerometer.range_ = .ok k ∧
      dlhcAccelerometer.Sense playbackBus ⟨⟨accelerometerSenseOps, 0⟩, []⟩ =
        (.ok (256 * k, 100 * k, -1 * k),
         ⟨⟨accelerometerSenseOps, 6⟩,
          [Event.readOk 0x19 0x28 0, Event.readOk 0x19 0x29 1, Event.readOk 0x19 0x2A 100,
           Event.readOk 0x19 0x2B 0, Event.readOk 0x19 0x2C 255, Event.readOk 0x19 0x2D 255]⟩) ∧
      ∀ v : Int, -32768 ≤ v → v ≤ 32767 → |v * k| < 2 ^ 63 :=
  Accelerometer_Sense_scales playbackBus dlhcAccelerometer _ _ 256 100 (-1)
    (by decide) (by decide) rfl

/-! ## Accelerometer: configuration registers on a faithful bus -/

theorem ReadUint8_faithful (addr reg : Nat) (w : World (Nat → Nat → Nat)) :
    ReadUint8 faithfulBus addr reg w =
      (.ok (w.dev addr reg % 256),
       ⟨w.dev, w.log ++ [Event.readOk addr reg (w.dev addr reg % 256)]⟩) :=
  rfl

theorem WriteUint8_faithful (addr reg val : Nat) (w : World (Nat → Nat → Nat)) :
    WriteUint8 faithfulBus addr reg val w =
      (.ok (), ⟨fun a r => if a = addr ∧ r = reg then val else w.dev a r,
        w.log ++ [Event.writeOk addr reg val]⟩) :=
  rfl

set_option maxRecDepth 100000 in
theorem range_field_fin : ∀ v : Fin 256, ∀ d : Fin 4,
    ((v.val &&& not8 (shl8 (uint8 (((1 <<< 2 : Nat) : Int) - 1)) 4) |||
        shl8 (d.val &&& uint8 (((1 <<< 2 : Nat) : Int) - 1)) 4) % 256) >>> 4 &&& (1 <<< 2 - 1)
      = d.val := by decide

theorem range_field (v d : Nat) (hv : v < 256) (hd : d < 4) :
    ((v &&& not8 (shl8 (uint8 (((1 <<< 2 : Nat) : Int) - 1)) 4) |||
        shl8 (d &&& uint8 (((1 <<< 2 : Nat) : Int) - 1)) 4) % 256) >>> 4 &&& (1 <<< 2 - 1) = d :=
  range_field_fin ⟨v, hv⟩ ⟨d, hd⟩

theorem uint8_of_range (r : AccelerometerRange) (hr : r ∈ ranges) :
    uint8 r < 4 ∧ ((uint8 r : Nat) : Int) = r := by
  simp only [ranges, List.mem_cons, List.mem_singleton, List.not_mem_nil, or_false] at hr
  rcases hr with rfl | rfl | rfl | rfl <;> decide

/-- C4. Range round trip: on a faithful bus, for every range `r` of the four
ranges and every initial register content, `SetRange r` succeeds and an
immediately following `GetRange` returns `r`. -/
theorem SetRange_GetRange_roundtrip (a : Accelerometer) (ds : AccelerometerDatasheet)
    (hds : a.datasheet = some ds) (regs : Nat → Nat → Nat) (log : List Event)
    (r : AccelerometerRange) (hr : r ∈ ranges) :
    ∃ w1, a.SetRange faithfulBus r ⟨regs, log⟩ = (.ok (), { a with range_ := r }, w1) ∧
      (({ a with range_ := r } : Accelerometer).GetRange faithfulBus w1).1 = .ok r := by
  obtain ⟨h4, hcast⟩ := uint8_of_range r hr
  simp only [Accelerometer.SetRange, Accelerometer.GetRange, hds, ReadUint8_faithful,
    WriteUint8_faithful]
  refine ⟨_, rfl, ?_⟩
  simp only [and_self, if_true, hds]
  rw [range_field _ _ (Nat.mod_lt _ (by norm_num)) h4, hcast]

/-- C4, at range 16G with `CTRL_REG4_A` initially `0xFF`. -/
theorem SetRange_GetRange_roundtrip_witness :
    ∃ w1, dlhcAccelerometer.SetRange faithfulBus ACCELEROMETER_RANGE_16G ⟨fun _ _ => 0xFF, []⟩ =
        (.ok (), { dlhcAccelerometer with range_ := ACCELEROMETER_RANGE_16G }, w1) ∧
      (({ dlhcAccelerometer with range_ := ACCELEROMETER_RANGE_16G } : Accelerometer).GetRange
        faithfulBus w1).1 = .ok ACCELEROMETER_RANGE_16G :=
  SetRange_GetRange_roundtrip dlhcAccelerometer (datasheetForAccelerometer LSM303DLHC) rfl
    (fun _ _ => 0xFF) [] ACCELEROMETER_RANGE_16G (by decide)


set_option maxRecDepth 100000 in
theorem mode_field_fin : ∀ v : Fin 256, ∀ d : Fin 2,
    readBits ((v.val &&& not8 (shl8 (uint8 (((1 <<< 1 : Nat) : Int) - 1)) 3) |||
        shl8 (d.val &&& uint8 (((1 <<< 1 : Nat) : Int) - 1)) 3) % 256) 1 3 = d.val ∧
    ((v.val &&& not8 (shl8 (uint8 (((1 <<< 1 : Nat) : Int) - 1)) 3) |||
        shl8 (d.val &&& uint8 (((1 <<< 1 : Nat) : Int) - 1)) 3) >>> 3) &&& 1 = d.val := by decide

theorem mode_field (v d : Nat) (hv : v < 256) (hd : d < 2) :
    readBits ((v &&& not8 (shl8 (uint8 (((1 <<< 1 : Nat) : Int) - 1)) 3) |||
        shl8 (d &&& uint8 (((1 <<< 1 : Nat) : Int) - 1)) 3) % 256) 1 3 = d ∧
    ((v &&& not8 (shl8 (uint8 (((1 <<< 1 : Nat) : Int) - 1)) 3) |||
        shl8 (d &&& uint8 (((1 <<< 1 : Nat) : Int) - 1)) 3) >>> 3) &&& 1 = d :=
  mode_field_fin ⟨v, hv⟩ ⟨d, hd⟩

theorem mode_flags (m : AccelerometerMode) (hm : m ∈ modes) :
    uint8 (Int.shiftRight (Int.land m 0x02) 1) < 2 ∧ uint8 (Int.land m 0x01) < 2 ∧
    ((((uint8 (Int.shiftRight (Int.land m 0x02) 1) <<< 1) % 2 ^ 32 ||| uint8 (Int.land m 0x01) : Nat)) : Int)
      = m ∧
    ((uint8 (Int.shiftRight (Int.land m 0x02) 1) : Nat) : Int) = Int.land (Int.shiftRight m 1) 1 ∧
    ((uint8 (Int.land m 0x01) : Nat) : Int) = Int.land m 1 := by
  simp only [modes, List.mem_cons, List.mem_singleton, List.not_mem_nil, or_false] at hm
  rcases hm with rfl | rfl | rfl <;> decide

/-- C5. Mode round trip: on a faithful bus, with a datasheet that has
CTRL_REG1_A = 0x20 and CTRL_REG4_A = 0x23, for every mode `m` of the three modes
and every initial register content, `SetMode m` succeeds, an immediately
following `GetMode` returns `m`, bit 3 of CTRL_REG1_A holds the low-power flag
`(m >> 1) & 1` and bit 3 of CTRL_REG4_A holds the high-resolution flag `m & 1`. -/
theorem SetMode_GetMode_roundtrip (a : Accelerometer) (ds : AccelerometerDatasheet)
    (hds : a.datasheet = some ds) (h1 : ds.CTRL_REG1_A = 0x20) (h4 : ds.CTRL_REG4_A = 0x23)
    (regs : Nat → Nat → Nat) (log : List Event)
    (m : AccelerometerMode) (hm : m ∈ modes) :
    ∃ w1, a.SetMode faithfulBus m ⟨regs, log⟩ = (.ok (), { a with mode := m }, w1) ∧
      (({ a with mode := m } : Accelerometer).GetMode faithfulBus w1).1 = .ok m ∧
      (((w1.dev a.mmr 0x20 >>> 3) &&& 1 : Nat) : Int) = Int.land (Int.shiftRight m 1) 1 ∧
      (((w1.dev a.mmr 0x23 >>> 3) &&& 1 : Nat) : Int) = Int.land m 1 := by
  obtain ⟨hlp, hhr, hcomb, hlpv, hhrv⟩ := mode_flags m hm
  simp only [Accelerometer.SetMode, Accelerometer.GetMode, hds, ReadUint8_faithful,
    WriteUint8_faithful, h1, h4]
  refine ⟨_, rfl, ?_⟩
  simp only [and_self, if_true, hds, and_true, Nat.reduceEqDiff, and_false, if_false]
  obtain ⟨e1, e1b⟩ := mode_field (regs a.mmr 32 % 256) _ (Nat.mod_lt _ (by norm_num)) hlp
  obtain ⟨e4, e4b⟩ := mode_field (regs a.mmr 35 % 256) _ (Nat.mod_lt _ (by norm_num)) hhr
  rw [e1, e4, e1b, e4b, hcomb]
  exact ⟨rfl, hlpv, hhrv⟩

/-- C5, at LOW_POWER with every register initially `0xF7`. -/
theorem SetMode_GetMode_roundtrip_witness :
    ∃ w1, dlhcAccelerometer.SetMode faithfulBus ACCELEROMETER_MODE_LOW_POWER
        ⟨fun _ _ => 0xF7, []⟩ =
        (.ok (), { dlhcAccelerometer with mode := ACCELEROMETER_MODE_LOW_POWER }, w1) ∧
      (({ dlhcAccelerometer with mode := ACCELEROMETER_MODE_LOW_POWER } : Accelerometer).GetMode
        faithfulBus w1).1 = .ok ACCELEROMETER_MODE_LOW_POWER ∧
      (((w1.dev dlhcAccelerometer.mmr 0x20 >>> 3) &&& 1 : Nat) : Int)
        = Int.land (Int.shiftRight ACCELEROMETER_MODE_LOW_POWER 1) 1 ∧
      (((w1.dev dlhcAccelerometer.mmr 0x23 >>> 3) &&& 1 : Nat) : Int)
        = Int.land ACCELEROMETER_MODE_LOW_POWER 1 :=
  SetMode_GetMode_roundtrip dlhcAccelerometer (datasheetForAccelerometer LSM303DLHC) rfl rfl rfl
    (fun _ _ => 0xF7) [] ACCELEROMETER_MODE_LOW_POWER (by decide)


/-! ## Magnetometer: rate register -/

theorem ldiff7_small (k : Nat) (hk : k < 8) : Nat.ldiff 7 k = 7 - k := by
  interval_cases k <;> simp [Nat.ldiff, Nat.bitwise]

theorem ldiff7 (n : Nat) : Nat.ldiff 7 n = 7 - n % 8 := by
  have h : Nat.ldiff 7 n = Nat.ldiff 7 (n % 8) := by
    apply Nat.eq_of_testBit_eq
    intro i
    simp only [Nat.testBit_ldiff]
    by_cases hi : i < 3
    · have : (n % 8).testBit i = n.testBit i := by
        have := Nat.testBit_mod_two_pow n 3 i
        simpa [hi] using this
      rw [this]
    · have : Nat.testBit 7 i = false := by
        apply Nat.testBit_lt_two_pow
        calc 7 < 2 ^ 3 := by norm_num
          _ ≤ 2 ^ i := Nat.pow_le_pow_right (by norm_num) (by omega)
      simp [this]
  rw [h]
  exact ldiff7_small _ (Nat.mod_lt _ (by norm_num))

theorem land7 (r : Int) : Int.land r 7 = r % 8 := by
  cases r with
  | ofNat n =>
    show ((n &&& 7 : Nat) : Int) = _
    rw [Nat.and_pow_two_sub_one_eq_mod n 3]
    simp
  | negSucc n =>
    show ((Nat.ldiff 7 n : Nat) : Int) = _
    rw [ldiff7, Int.negSucc_eq]
    omega

theorem uint8_and7 (r : Int) :
    uint8 r &&& uint8 (((1 <<< 3 : Nat) : Int) - 1) = (Int.land r 7).toNat := by
  have h7 : uint8 (((1 <<< 3 : Nat) : Int) - 1) = 2 ^ 3 - 1 := by decide
  rw [h7, Nat.and_pow_two_sub_one_eq_mod, land7]
  unfold uint8
  omega

theorem rate_byte_fin : ∀ d : Fin 8,
    (uint8 0 &&& not8 (shl8 (uint8 (((1 <<< 3 : Nat) : Int) - 1)) 2) ||| shl8 d.val 2 |||
        0b10000000) = (d.val <<< 2) ||| 0x80 ∧
    ((d.val <<< 2) ||| 0x80) = d.val * 4 + 128 ∧
    ((d.val <<< 2) ||| 0x80).testBit 7 = true ∧
    ((d.val <<< 2) ||| 0x80).testBit 0 = false ∧
    ((d.val <<< 2) ||| 0x80).testBit 1 = false ∧
    ((d.val <<< 2) ||| 0x80).testBit 5 = false ∧
    ((d.val <<< 2) ||| 0x80).testBit 6 = false := by decide

theorem land7_lt (r : Int) : (Int.land r 7).toNat < 8 := by
  rw [land7]; omega

/-- C6. `Magnetometer.SetRate`: for every rate argument `r` the call issues
exactly one bus transaction, a write to CRA_REG_M of the byte
`((r & 7) << 2) | 0x80`, whether or not the write succeeds; bit 7 of that byte
is 1, bits 0, 1, 5 and 6 are 0, and for `r` in `0..7` the byte is
`(r << 2) | 0x80`. -/
theorem SetRate_single_write {σ : Type} (bus : Bus σ) (m : Magnetometer)
    (ds : MagnetometerDatasheet) (hds : m.datasheet = some ds) (r : Int)
    (w : World σ) :
    (∃ e, (m.SetRate bus r w).2.2.log = w.log ++ [e] ∧
      (e = Event.writeOk m.mmr ds.CRA_REG_M (rateByte r) ∨
        ∃ c, e = Event.writeErr m.mmr ds.CRA_REG_M (rateByte r) c)) ∧
    (rateByte r).testBit 7 = true ∧
    (rateByte r).testBit 0 = false ∧ (rateByte r).testBit 1 = false ∧
    (rateByte r).testBit 5 = false ∧ (rateByte r).testBit 6 = false ∧
    (0 ≤ r → r ≤ 7 → rateByte r = (r.toNat <<< 2) ||| 0x80) := by
  obtain ⟨hb, -, h7, h0, h1, h5, h6⟩ := rate_byte_fin ⟨(Int.land r 7).toNat, land7_lt r⟩
  simp only [] at hb h7 h0 h1 h5 h6
  refine ⟨?_, h7, h0, h1, h5, h6, ?_⟩
  · simp only [Magnetometer.SetRate, hds, uint8_and7, hb, WriteUint8]
    rcases hw : bus.write w.dev m.mmr ds.CRA_REG_M ((Int.land r 7).toNat <<< 2 ||| 128)
      with ⟨_ | _, s⟩
    · exact ⟨_, rfl, Or.inr ⟨_, rfl⟩⟩
    · exact ⟨_, rfl, Or.inl rfl⟩
  · intro h0 h7
    unfold rateByte
    rw [land7, Int.emod_eq_of_lt h0 (by omega)]

/-- C6, at the default rate of 30 Hz on the LSM303DLHC. -/
theorem SetRate_single_write_witness :
    (∃ e, (dlhcMagnetometer.SetRate faithfulBus MAGNETOMETER_RATE_30 ⟨fun _ _ => 0, []⟩).2.2.log
        = [] ++ [e] ∧
      (e = Event.writeOk 0x1E 0x00 (rateByte MAGNETOMETER_RATE_30) ∨
        ∃ c, e = Event.writeErr 0x1E 0x00 (rateByte MAGNETOMETER_RATE_30) c)) ∧
    (rateByte MAGNETOMETER_RATE_30).testBit 7 = true ∧
    (rateByte MAGNETOMETER_RATE_30).testBit 0 = false ∧
    (rateByte MAGNETOMETER_RATE_30).testBit 1 = false ∧
    (rateByte MAGNETOMETER_RATE_30).testBit 5 = false ∧
    (rateByte MAGNETOMETER_RATE_30).testBit 6 = false ∧
    (0 ≤ MAGNETOMETER_RATE_30 → MAGNETOMETER_RATE_30 ≤ 7 →
      rateByte MAGNETOMETER_RATE_30 = (MAGNETOMETER_RATE_30.toNat <<< 2) ||| 0x80) :=
  SetRate_single_write faithfulBus dlhcMagnetometer (datasheetForMagnetometer LSM303DLHC) rfl
    MAGNETOMETER_RATE_30 ⟨fun _ _ => 0, []⟩

/-! ## Opening a handle -/

theorem newAccelerometerDevice_datasheet (opts : List AccelerometerOption) :
    ∃ ds, (newAccelerometerDevice opts).datasheet = some ds :=
  ⟨_, rfl⟩

theorem newMagnetometerDevice_datasheet (opts : List MagnetometerOption) :
    ∃ ds, (newMagnetometerDevice opts).datasheet = some ds :=
  ⟨_, rfl⟩

theorem SetRange_datasheet {σ : Type} (bus : Bus σ) (a : Accelerometer)
    (ds : AccelerometerDatasheet) (hds : a.datasheet = some ds) (r : Int) (w : World σ) :
    (a.SetRange bus r w).1 ≠ .error Error.nilDatasheet ∧
    (a.SetRange bus r w).2.1.datasheet = some ds := by
  simp only [Accelerometer.SetRange, hds, ReadUint8, WriteUint8]
  rcases bus.read w.dev a.mmr ds.CTRL_REG4_A with ⟨_ | v, s⟩
  · simp [hds]
  · simp only []
    rcases bus.write s a.mmr ds.CTRL_REG4_A _ with ⟨_ | _, s1⟩ <;> simp [hds]

theorem SetMode_datasheet {σ : Type} (bus : Bus σ) (a : Accelerometer)
    (ds : AccelerometerDatasheet) (hds : a.datasheet = some ds) (m : Int) (w : World σ) :
    (a.SetMode bus m w).1 ≠ .error Error.nilDatasheet ∧
    (a.SetMode bus m w).2.1.datasheet = some ds := by
  simp only [Accelerometer.SetMode, hds, ReadUint8, WriteUint8]
  rcases bus.read w.dev a.mmr ds.CTRL_REG1_A with ⟨_ | v, s⟩
  · simp [hds]
  · simp only []
    rcases bus.write s a.mmr ds.CTRL_REG1_A _ with ⟨_ | _, s1⟩
    · simp [hds]
    · simp only []
      rcases bus.read s1 a.mmr ds.CTRL_REG4_A with ⟨_ | v, s2⟩
      · simp [hds]
      · simp only []
        rcases bus.write s2 a.mmr ds.CTRL_REG4_A _ with ⟨_ | _, s3⟩ <;> simp [hds]

theorem SetGain_datasheet {σ : Type} (bus : Bus σ) (m : Magnetometer)
    (ds : MagnetometerDatasheet) (hds : m.datasheet = some ds) (g : Int) (w : World σ) :
    (m.SetGain bus g w).1 ≠ .error Error.nilDatasheet ∧
    (m.SetGain bus g w).2.1.datasheet = some ds := by
  simp only [Magnetometer.SetGain, hds, ReadUint8, WriteUint8]
  rcases bus.read w.dev m.mmr ds.CRB_REG_M with ⟨_ | v, s⟩
  · simp [hds]
  · simp only []
    rcases bus.write s m.mmr ds.CRB_REG_M _ with ⟨_ | _, s1⟩ <;> simp [hds]

theorem SetRate_datasheet {σ : Type} (bus : Bus σ) (m : Magnetometer)
    (ds : MagnetometerDatasheet) (hds : m.datasheet = some ds) (r : Int) (w : World σ) :
    (m.SetRate bus r w).1 ≠ .error Error.nilDatasheet ∧
    (m.SetRate bus r w).2.1.datasheet = some ds := by
  simp only [Magnetometer.SetRate, hds, WriteUint8]
  rcases bus.write w.dev m.mmr ds.CRA_REG_M _ with ⟨_ | _, s1⟩ <;> simp [hds]

/-- After a matching chip id, the rest of `NewAccelerometer` always ends in success. -/
theorem NewAccelerometer_tail {σ : Type} (bus : Bus σ) (d : Accelerometer)
    (ds : AccelerometerDatasheet) (hds : d.datasheet = some ds) (w : World σ) :
    ∃ a w1,
      (match d.SetRange bus d.range_ w with
        | (.error Error.nilDatasheet, _, w) => (.error Error.nilDatasheet, w)
        | (_, device, w) =>
          match device.SetMode bus device.mode w with
          | (.error Error.nilDatasheet, _, w) => (.error Error.nilDatasheet, w)
          | (_, device, w) => (.ok device, w) : Except Error Accelerometer × World σ)
        = (.ok a, w1) := by
  obtain ⟨h1, h2⟩ := SetRange_datasheet bus d ds hds d.range_ w
  rcases hsr : d.SetRange bus d.range_ w with ⟨r1, d1, w1⟩
  rw [hsr] at h1 h2
  simp only [] at h1 h2
  obtain ⟨h3, h4⟩ := SetMode_datasheet bus d1 ds h2 d1.mode w1
  rcases hsm : d1.SetMode bus d1.mode w1 with ⟨r2, d2, w2⟩
  rw [hsm] at h3 h4
  simp only [] at h3 h4
  split
  · rename_i heq
    simp only [Prod.mk.injEq] at heq
    exact absurd heq.1 h1
  · rename_i heq
    simp only [Prod.mk.injEq] at heq
    obtain ⟨-, rfl, rfl⟩ := heq
    rw [hsm]
    split
    · rename_i heq2
      simp only [Prod.mk.injEq] at heq2
      exact absurd heq2.1 h3
    · exact ⟨_, _, rfl⟩

theorem NewMagnetometer_tail {σ : Type} (bus : Bus σ) (d : Magnetometer)
    (ds : MagnetometerDatasheet) (hds : d.datasheet = some ds) (w : World σ) :
    ∃ a w1,
      (match d.SetGain bus d.gain w with
        | (.error Error.nilDatasheet, _, w) => (.error Error.nilDatasheet, w)
        | (_, device, w) =>
          match device.SetRate bus device.rate w with
          | (.error Error.nilDatasheet, _, w) => (.error Error.nilDatasheet, w)
          | (_, device, w) => (.ok device, w) : Except Error Magnetometer × World σ)
        = (.ok a, w1) := by
  obtain ⟨h1, h2⟩ := SetGain_datasheet bus d ds hds d.gain w
  rcases hsr : d.SetGain bus d.gain w with ⟨r1, d1, w1⟩
  rw [hsr] at h1 h2
  simp only [] at h1 h2
  obtain ⟨h3, h4⟩ := SetRate_datasheet bus d1 ds h2 d1.rate w1
  rcases hsm : d1.SetRate bus d1.rate w1 with ⟨r2, d2, w2⟩
  rw [hsm] at h3 h4
  simp only [] at h3 h4
  split
  · rename_i heq
    simp only [Prod.mk.injEq] at heq
    exact absurd heq.1 h1
  · rename_i heq
    simp only [Prod.mk.injEq] at heq
    obtain ⟨-, rfl, rfl⟩ := heq
    rw [hsm]
    split
    · rename_i heq2
      simp only [Prod.mk.injEq] at heq2
      exact absurd heq2.1 h3
    · exact ⟨_, _, rfl⟩

/-- C7. Chip-id validation, for `NewAccelerometer` and for `NewMagnetometer`:
for every list of options (hence every sensor variant) and every byte `b`, if
the enable write succeeds and the read of the chip-id register returns `b`,
then with `b` different from the CHIP_ID of the resolved datasheet the call
returns the not-detected error, no handle, and issues no transaction after
that read; with `b` equal to CHIP_ID the call does not return that error (it
returns a handle). -/
theorem open_validates_chip_id {σ : Type} (bus : Bus σ) (w : World σ) (s1 s2 : σ) (b : Nat)
    (hb : b < 256) :
    (∀ (opts : List AccelerometerOption) (ds : AccelerometerDatasheet),
      (newAccelerometerDevice opts).datasheet = some ds →
      bus.write w.dev (newAccelerometerDevice opts).mmr ds.CTRL_REG1_A 0x57 = (.ok (), s1) →
      bus.read s1 (newAccelerometerDevice opts).mmr ds.WHO_AM_I_A = (.ok b, s2) →
      (b ≠ ds.CHIP_ID →
        NewAccelerometer bus opts w =
          (.error (Error.notDetected (newAccelerometerDevice opts).sensorType),
           ⟨s2, w.log ++ [Event.writeOk (newAccelerometerDevice opts).mmr ds.CTRL_REG1_A 0x57,
                          Event.readOk (newAccelerometerDevice opts).mmr ds.WHO_AM_I_A b]⟩)) ∧
      (b = ds.CHIP_ID → ∃ a w1, NewAccelerometer bus opts w = (.ok a, w1))) ∧
    (∀ (opts : List MagnetometerOption) (ds : MagnetometerDatasheet),
      (newMagnetometerDevice opts).datasheet = some ds →
      bus.write w.dev (newMagnetometerDevice opts).mmr ds.MR_REG_M 0x00 = (.ok (), s1) →
      bus.read s1 (newMagnetometerDevice opts).mmr ds.WHO_AM_I_M = (.ok b, s2) →
      (b ≠ ds.CHIP_ID →
        NewMagnetometer bus opts w =
          (.error (Error.notDetected (newMagnetometerDevice opts).sensorType),
           ⟨s2, w.log ++ [Event.writeOk (newMagnetometerDevice opts).mmr ds.MR_REG_M 0x00,
                          Event.readOk (newMagnetometerDevice opts).mmr ds.WHO_AM_I_M b]⟩)) ∧
      (b = ds.CHIP_ID → ∃ a w1, NewMagnetometer bus opts w = (.ok a, w1))) := by
  constructor
  · intro opts ds hds hw hr
    have hW := WriteUint8_of_ok bus _ _ _ w s1 hw
    have hR := ReadUint8_of_ok bus (newAccelerometerDevice opts).mmr ds.WHO_AM_I_A
      ⟨s1, w.log ++ [Event.writeOk (newAccelerometerDevice opts).mmr ds.CTRL_REG1_A 0x57]⟩ b s2 hr
    rw [Nat.mod_eq_of_lt hb] at hR
    constructor
    · intro hne
      simp only [NewAccelerometer, hds, hW, hR, ne_eq, hne, not_false_eq_true, if_true,
        List.append_assoc, List.cons_append, List.nil_append]
    · intro heq
      simp only [NewAccelerometer, hds, hW, hR, ne_eq, heq, not_true_eq_false, if_false]
      exact NewAccelerometer_tail bus _ ds hds _
  · intro opts ds hds hw hr
    have hW := WriteUint8_of_ok bus _ _ _ w s1 hw
    have hR := ReadUint8_of_ok bus (newMagnetometerDevice opts).mmr ds.WHO_AM_I_M
      ⟨s1, w.log ++ [Event.writeOk (newMagnetometerDevice opts).mmr ds.MR_REG_M 0x00]⟩ b s2 hr
    rw [Nat.mod_eq_of_lt hb] at hR
    constructor
    · intro hne
      simp only [NewMagnetometer, hds, hW, hR, ne_eq, hne, not_false_eq_true, if_true,
        List.append_assoc, List.cons_append, List.nil_append]
    · intro heq
      simp only [NewMagnetometer, hds, hW, hR, ne_eq, heq, not_true_eq_false, if_false]
      exact NewMagnetometer_tail bus _ ds hds _

/-- C7, at an all-zero register file: the default accelerometer (expected id
0x33) and the LSM303C magnetometer (expected id 0x3D) are both rejected. -/
theorem open_validates_chip_id_witness :
    (NewAccelerometer faithfulBus [] ⟨fun _ _ => 0, []⟩).1 =
      .error (Error.notDetected LSM303DLHC) ∧
    (NewMagnetometer faithfulBus [MagnetometerOption.WithMagnetometerSensorType LSM303C]
      ⟨fun _ _ => 0, []⟩).1 = .error (Error.notDetected LSM303C) := by
  have hA := (open_validates_chip_id faithfulBus ⟨fun _ _ => 0, []⟩
    (faithfulBus.write (fun _ _ => 0) 0x19 0x20 0x57).2
    (faithfulBus.write (fun _ _ => 0) 0x19 0x20 0x57).2 0 (by decide)).1
    [] (datasheetForAccelerometer LSM303DLHC) rfl rfl rfl
  have hM := (open_validates_chip_id faithfulBus ⟨fun _ _ => 0, []⟩
    (faithfulBus.write (fun _ _ => 0) 0x1E 0x22 0x00).2
    (faithfulBus.write (fun _ _ => 0) 0x1E 0x22 0x00).2 0 (by decide)).2
    [MagnetometerOption.WithMagnetometerSensorType LSM303C]
    (datasheetForMagnetometer LSM303C) rfl rfl rfl
  exact ⟨by rw [hA.1 (by decide)]; rfl, by rw [hM.1 (by decide)]; rfl⟩

theorem range_byte (v d : Nat) :
    v &&& not8 (shl8 (uint8 (((1 <<< 2 : Nat) : Int) - 1)) 4) |||
        shl8 (d &&& uint8 (((1 <<< 2 : Nat) : Int) - 1)) 4 = (v &&& 0xCF) ||| ((d % 4) <<< 4) := by
  have h3 : uint8 (((1 <<< 2 : Nat) : Int) - 1) = 2 ^ 2 - 1 := by decide
  have hn : not8 (shl8 (2 ^ 2 - 1) 4) = 0xCF := by decide
  have hs : ∀ k : Fin 4, shl8 k.val 4 = k.val <<< 4 := by decide
  rw [h3, hn, Nat.and_pow_two_sub_one_eq_mod]
  exact congrArg _ (hs ⟨d % 4, Nat.mod_lt _ (by norm_num)⟩)

theorem mode_byte (v d : Nat) :
    v &&& not8 (shl8 (uint8 (((1 <<< 1 : Nat) : Int) - 1)) 3) |||
        shl8 (d &&& uint8 (((1 <<< 1 : Nat) : Int) - 1)) 3 = (v &&& 0xF7) ||| ((d % 2) <<< 3) := by
  have h3 : uint8 (((1 <<< 1 : Nat) : Int) - 1) = 2 ^ 1 - 1 := by decide
  have hn : not8 (shl8 (2 ^ 1 - 1) 3) = 0xF7 := by decide
  have hs : ∀ k : Fin 2, shl8 k.val 3 = k.val <<< 3 := by decide
  rw [h3, hn, Nat.and_pow_two_sub_one_eq_mod]
  exact congrArg _ (hs ⟨d % 2, Nat.mod_lt _ (by norm_num)⟩)

/-- `SetRange` on a bus that answers its read with `v` and accepts its write. -/
theorem SetRange_of_ok {σ : Type} (bus : Bus σ) (a : Accelerometer)
    (ds : AccelerometerDatasheet) (hds : a.datasheet = some ds) (r : Int)
    (s s1 s2 : σ) (log : List Event) (v : Nat) (hv : v < 256)
    (hr : bus.read s a.mmr ds.CTRL_REG4_A = (.ok v, s1))
    (hw : bus.write s1 a.mmr ds.CTRL_REG4_A ((v &&& 0xCF) ||| ((uint8 r % 4) <<< 4))
      = (.ok (), s2)) :
    a.SetRange bus r ⟨s, log⟩ =
      (.ok (), { a with range_ := r },
       ⟨s2, log ++ [Event.readOk a.mmr ds.CTRL_REG4_A v,
          Event.writeOk a.mmr ds.CTRL_REG4_A ((v &&& 0xCF) ||| ((uint8 r % 4) <<< 4))]⟩) := by
  simp only [Accelerometer.SetRange, hds]
  rw [ReadUint8_of_ok bus _ _ _ v s1 hr]
  simp only [Nat.mod_eq_of_lt hv, range_byte]
  rw [WriteUint8_of_ok bus _ _ _ _ s2 hw]
  simp only [List.append_assoc, List.cons_append, List.nil_append]

/-- `SetMode` on a bus that answers its two reads with `v1`, `v4` and accepts its two writes. -/
theorem SetMode_of_ok {σ : Type} (bus : Bus σ) (a : Accelerometer)
    (ds : AccelerometerDatasheet) (hds : a.datasheet = some ds) (m : Int)
    (s s1 s2 s3 s4 : σ) (log : List Event) (v1 v4 : Nat) (hv1 : v1 < 256) (hv4 : v4 < 256)
    (hr1 : bus.read s a.mmr ds.CTRL_REG1_A = (.ok v1, s1))
    (hw1 : bus.write s1 a.mmr ds.CTRL_REG1_A
      ((v1 &&& 0xF7) ||| ((uint8 (Int.shiftRight (Int.land m 0x02) 1) % 2) <<< 3)) = (.ok (), s2))
    (hr4 : bus.read s2 a.mmr ds.CTRL_REG4_A = (.ok v4, s3))
    (hw4 : bus.write s3 a.mmr ds.CTRL_REG4_A
      ((v4 &&& 0xF7) ||| ((uint8 (Int.land m 0x01) % 2) <<< 3)) = (.ok (), s4)) :
    a.SetMode bus m ⟨s, log⟩ =
      (.ok (), { a with mode := m },
       ⟨s4, log ++ [Event.readOk a.mmr ds.CTRL_REG1_A v1,
          Event.writeOk a.mmr ds.CTRL_REG1_A
            ((v1 &&& 0xF7) ||| ((uint8 (Int.shiftRight (Int.land m 0x02) 1) % 2) <<< 3)),
          Event.readOk a.mmr ds.CTRL_REG4_A v4,
          Event.writeOk a.mmr ds.CTRL_REG4_A
            ((v4 &&& 0xF7) ||| ((uint8 (Int.land m 0x01) % 2) <<< 3))]⟩) := by
  simp only [Accelerometer.SetMode, hds]
  rw [ReadUint8_of_ok bus _ _ _ v1 s1 hr1]
  simp only [Nat.mod_eq_of_lt hv1, mode_byte]
  rw [WriteUint8_of_ok bus _ _ _ _ s2 hw1]
  simp only []
  rw [ReadUint8_of_ok bus _ _ _ v4 s3 hr4]
  simp only [Nat.mod_eq_of_lt hv4, mode_byte]
  rw [WriteUint8_of_ok bus _ _ _ _ s4 hw4]
  simp only [List.append_assoc, List.cons_append, List.nil_append]

/-- C8 as stated fails: on a faithful bus, which answers every transaction
successfully, with all registers zero the chip-id read returns `id = 0`, and
`NewAccelerometer` with no options issues only two transactions, the write of
`0x57` to register 0x20 and the read of register 0x0F, and returns the
not-detected error; the other six transactions of the trace are not issued. -/
theorem NewAccelerometer_trace_ends_at_wrong_id :
    (NewAccelerometer faithfulBus [] ⟨fun _ _ => 0, []⟩).1 =
      .error (Error.notDetected LSM303DLHC) ∧
    (NewAccelerometer faithfulBus [] ⟨fun _ _ => 0, []⟩).2.log =
      [Event.writeOk 0x19 0x20 0x57, Event.readOk 0x19 0x0F 0] ∧
    (NewAccelerometer faithfulBus [] ⟨fun _ _ => 0, []⟩).2.log.length ≠ 8 :=
  ⟨rfl, rfl, by decide⟩

/-- C8, amended. `NewAccelerometer` with no options, on a bus that answers each
transaction successfully and answers the chip-id read with `id = 0x33`, issues
exactly eight transactions to address 0x19, in this order: write(0x20, 0x57);
read(0x0F) -> 0x33; read(0x23) -> v1; write(0x23, (v1 & 0xCF) | 0x10);
read(0x20) -> v2; write(0x20, v2 & 0xF7); read(0x23) -> v3;
write(0x23, v3 & 0xF7); and it returns success with the default handle. -/
theorem NewAccelerometer_default_trace {σ : Type} (bus : Bus σ)
    (s0 s1 s2 s3 s4 s5 s6 s7 s8 : σ) (log : List Event) (v1 v2 v3 : Nat)
    (hv1 : v1 < 256) (hv2 : v2 < 256) (hv3 : v3 < 256)
    (h1 : bus.write s0 0x19 0x20 0x57 = (.ok (), s1))
    (h2 : bus.read s1 0x19 0x0F = (.ok 0x33, s2))
    (h3 : bus.read s2 0x19 0x23 = (.ok v1, s3))
    (h4 : bus.write s3 0x19 0x23 ((v1 &&& 0xCF) ||| 0x10) = (.ok (), s4))
    (h5 : bus.read s4 0x19 0x20 = (.ok v2, s5))
    (h6 : bus.write s5 0x19 0x20 (v2 &&& 0xF7) = (.ok (), s6))
    (h7 : bus.read s6 0x19 0x23 = (.ok v3, s7))
    (h8 : bus.write s7 0x19 0x23 (v3 &&& 0xF7) = (.ok (), s8)) :
    NewAccelerometer bus [] ⟨s0, log⟩ =
      (.ok dlhcAccelerometer,
       ⟨s8, log ++ [Event.writeOk 0x19 0x20 0x57, Event.readOk 0x19 0x0F 0x33,
          Event.readOk 0x19 0x23 v1, Event.writeOk 0x19 0x23 ((v1 &&& 0xCF) ||| 0x10),
          Event.readOk 0x19 0x20 v2, Event.writeOk 0x19 0x20 (v2 &&& 0xF7),
          Event.readOk 0x19 0x23 v3, Event.writeOk 0x19 0x23 (v3 &&& 0xF7)]⟩) := by
  have hdev : newAccelerometerDevice [] = dlhcAccelerometer := by decide
  have hds : dlhcAccelerometer.datasheet = some (datasheetForAccelerometer LSM303DLHC) := rfl
  have z1 : uint8 (Int.shiftRight (Int.land dlhcAccelerometer.mode 0x02) 1) % 2 = 0 := by decide
  have z2 : uint8 (Int.land dlhcAccelerometer.mode 0x01) % 2 = 0 := by decide
  have z3 : (uint8 dlhcAccelerometer.range_ % 4) <<< 4 = 0x10 := by decide
  have hW : WriteUint8 bus dlhcAccelerometer.mmr
      (datasheetForAccelerometer LSM303DLHC).CTRL_REG1_A 0x57 ⟨s0, log⟩ =
      (.ok (), ⟨s1, log ++ [Event.writeOk 0x19 0x20 0x57]⟩) :=
    WriteUint8_of_ok bus 0x19 0x20 0x57 ⟨s0, log⟩ s1 h1
  have hR : ReadUint8 bus dlhcAccelerometer.mmr
      (datasheetForAccelerometer LSM303DLHC).WHO_AM_I_A
      ⟨s1, log ++ [Event.writeOk 0x19 0x20 0x57]⟩ =
      (.ok 0x33, ⟨s2, log ++ [Event.writeOk 0x19 0x20 0x57] ++ [Event.readOk 0x19 0x0F 0x33]⟩) :=
    ReadUint8_of_ok bus 0x19 0x0F ⟨s1, log ++ [Event.writeOk 0x19 0x20 0x57]⟩ 0x33 s2 h2
  have hrange : dlhcAccelerometer.SetRange bus dlhcAccelerometer.range_
      ⟨s2, log ++ [Event.writeOk 0x19 0x20 0x57] ++ [Event.readOk 0x19 0x0F 0x33]⟩ =
      (.ok (), dlhcAccelerometer,
       ⟨s4, log ++ [Event.writeOk 0x19 0x20 0x57] ++ [Event.readOk 0x19 0x0F 0x33] ++
          [Event.readOk 0x19 0x23 v1, Event.writeOk 0x19 0x23 ((v1 &&& 0xCF) ||| 0x10)]⟩) :=
    SetRange_of_ok bus dlhcAccelerometer _ hds dlhcAccelerometer.range_ s2 s3 s4 _ v1 hv1 h3
      (by rw [z3]; exact h4)
  have hmode : dlhcAccelerometer.SetMode bus dlhcAccelerometer.mode
      ⟨s4, log ++ [Event.writeOk 0x19 0x20 0x57] ++ [Event.readOk 0x19 0x0F 0x33] ++
          [Event.readOk 0x19 0x23 v1, Event.writeOk 0x19 0x23 ((v1 &&& 0xCF) ||| 0x10)]⟩ =
      (.ok (), dlhcAccelerometer,
       ⟨s8, log ++ [Event.writeOk 0x19 0x20 0x57] ++ [Event.readOk 0x19 0x0F 0x33] ++
          [Event.readOk 0x19 0x23 v1, Event.writeOk 0x19 0x23 ((v1 &&& 0xCF) ||| 0x10)] ++
          [Event.readOk 0x19 0x20 v2, Event.writeOk 0x19 0x20 ((v2 &&& 0xF7) ||| (0 <<< 3)),
           Event.readOk 0x19 0x23 v3, Event.writeOk 0x19 0x23 ((v3 &&& 0xF7) ||| (0 <<< 3))]⟩) :=
    SetMode_of_ok bus dlhcAccelerometer _ hds dlhcAccelerometer.mode s4 s5 s6 s7 s8 _ v2 v3
      hv2 hv3 h5
      (by rw [z1]; show bus.write s5 0x19 0x20 ((v2 &&& 0xF7) ||| (0 <<< 3)) = _
          rw [Nat.zero_shiftLeft, Nat.or_zero]; exact h6)
      h7
      (by rw [z2]; show bus.write s7 0x19 0x23 ((v3 &&& 0xF7) ||| (0 <<< 3)) = _
          rw [Nat.zero_shiftLeft, Nat.or_zero]; exact h8)
  have ec : (datasheetForAccelerometer LSM303DLHC).CHIP_ID = 0x33 := by decide
  simp only [NewAccelerometer, hdev, hds, hW, hR, hrange, hmode]
  simp only [ne_eq, List.append_assoc, List.cons_append, List.nil_append, Nat.zero_shiftLeft,
    Nat.or_zero, ec, not_true_eq_false, if_false]

/-- C8 amended, at the playback scenario of `TestNewAccelerometer` (v1 = v2 = v3 = 0) and
at the trace of the specification (v1 = 0x00, v2 = 0x00, v3 = 0x10). -/
theorem NewAccelerometer_default_trace_witness :
    NewAccelerometer playbackBus [] ⟨⟨newAccelerometerOps, 0⟩, []⟩ =
      (.ok dlhcAccelerometer,
       ⟨⟨newAccelerometerOps, 8⟩,
        [Event.writeOk 0x19 0x20 0x57, Event.readOk 0x19 0x0F 0x33,
         Event.readOk 0x19 0x23 0, Event.writeOk 0x19 0x23 0x10,
         Event.readOk 0x19 0x20 0, Event.writeOk 0x19 0x20 0,
         Event.readOk 0x19 0x23 0, Event.writeOk 0x19 0x23 0]⟩) ∧
    NewAccelerometer playbackBus [] ⟨⟨specAccelerometerOps, 0⟩, []⟩ =
      (.ok dlhcAccelerometer,
       ⟨⟨specAccelerometerOps, 8⟩,
        [Event.writeOk 0x19 0x20 0x57, Event.readOk 0x19 0x0F 0x33,
         Event.readOk 0x19 0x23 0x00, Event.writeOk 0x19 0x23 0x10,
         Event.readOk 0x19 0x20 0x00, Event.writeOk 0x19 0x20 0x00,
         Event.readOk 0x19 0x23 0x10, Event.writeOk 0x19 0x23 0x10]⟩) :=
  ⟨NewAccelerometer_default_trace playbackBus
      ⟨newAccelerometerOps, 0⟩ ⟨newAccelerometerOps, 1⟩ ⟨newAccelerometerOps, 2⟩
      ⟨newAccelerometerOps, 3⟩ ⟨newAccelerometerOps, 4⟩ ⟨newAccelerometerOps, 5⟩
      ⟨newAccelerometerOps, 6⟩ ⟨newAccelerometerOps, 7⟩ ⟨newAccelerometerOps, 8⟩ [] 0 0 0
      (by decide) (by decide) (by decide) rfl rfl rfl rfl rfl rfl rfl rfl,
   NewAccelerometer_default_trace playbackBus
      ⟨specAccelerometerOps, 0⟩ ⟨specAccelerometerOps, 1⟩ ⟨specAccelerometerOps, 2⟩
      ⟨specAccelerometerOps, 3⟩ ⟨specAccelerometerOps, 4⟩ ⟨specAccelerometerOps, 5⟩
      ⟨specAccelerometerOps, 6⟩ ⟨specAccelerometerOps, 7⟩ ⟨specAccelerometerOps, 8⟩ [] 0 0 0x10
      (by decide) (by decide) (by decide) rfl rfl rfl rfl rfl rfl rfl rfl⟩

/-! ## Magnetometer: temperature and raw field -/

theorem temperature_raw (high low : Nat) (hh : high < 256) (hl : low < 256) :
    Int.shiftRight
        (or16 (shl16 (int16 (high : Int)) 8) (int16 ((uint16 (low : Int) : Nat) : Int))) 4
      = s16 (high * 256 + low) / 16 := by
  have e1 : int16 (high : Int) = high := by unfold int16; omega
  have e2 : uint16 (low : Int) = low := by unfold uint16; omega
  have e3 : int16 (low : Int) = low := by unfold int16; omega
  have e4 : uint16 (shl16 (high : Int) 8) = high <<< 8 := by
    unfold uint16 shl16 int16
    rw [Nat.shiftLeft_eq]
    norm_num
    omega
  have e5 : (high <<< 8 ||| low) = high * 256 + low := by
    rw [Nat.shiftLeft_eq, Nat.mul_comm, ← Nat.mul_add_lt_is_or (by norm_num; exact hl)]
  have e6 : int16 ((high * 256 + low : Nat) : Int) = s16 (high * 256 + low) := by
    unfold int16 s16
    split_ifs <;> omega
  rw [e1, e2, e3]
  unfold or16
  rw [e4, e2, e5, e6]
  show s16 (high * 256 + low) >>> (4 : Nat) = _
  rw [Int.shiftRight_eq_div_pow]
  norm_num

theorem s16_div16_range (v : Nat) (hv : v < 65536) :
    -2048 ≤ s16 v / 16 ∧ s16 v / 16 ≤ 2047 := by
  unfold s16
  split_ifs <;> omega

theorem temperature_scale (e : Int) (h1 : -2048 ≤ e) (h2 : e ≤ 2047) :
    int64 (Int.tdiv (int64 (int64 e * int64 physic.Celsius)) 8 + int64 physic.ZeroCelsius)
      = e * physic.Celsius / 8 + physic.ZeroCelsius := by
  have c1 : int64 physic.Celsius = 1000000000 := by decide
  have c2 : int64 physic.ZeroCelsius = 273150000000 := by decide
  have c3 : physic.Celsius = 1000000000 := rfl
  have c4 : physic.ZeroCelsius = 273150000000 := rfl
  have c5 : int64 e = e := by apply int64_of_range <;> norm_num <;> omega
  have c6 : int64 (e * 1000000000) = e * 1000000000 := by
    apply int64_of_range <;> norm_num <;> omega
  have c7 : e * 1000000000 = (e * 125000000) * 8 := by ring
  have c8 : Int.tdiv (e * 1000000000) 8 = e * 125000000 := by
    rw [c7, Int.mul_tdiv_cancel _ (by norm_num)]
  have c9 : e * 1000000000 / 8 = e * 125000000 := by
    rw [c7, Int.mul_ediv_cancel _ (by norm_num)]
  rw [c1, c2, c3, c4, c5, c6, c8, c9]
  apply int64_of_range <;> norm_num <;> omega

/-- C9. `Magnetometer.SenseRelativeTemperature`: when the reads of TEMP_OUT_H_M
and then TEMP_OUT_L_M succeed with the bytes `high` and `low`, the raw value is
`s16 (high*256 + low)` shifted right arithmetically by 4 (floor division by
16), and the result is `eighths * Celsius / 8 + ZeroCelsius`, with no further
offset; only these two reads are issued. -/
theorem SenseRelativeTemperature_formula {σ : Type} (bus : Bus σ) (m : Magnetometer)
    (ds : MagnetometerDatasheet) (hds : m.datasheet = some ds)
    (s0 s1 s2 : σ) (log : List Event) (high low : Nat) (hh : high < 256) (hl : low < 256)
    (h1 : bus.read s0 m.mmr ds.TEMP_OUT_H_M = (.ok high, s1))
    (h2 : bus.read s1 m.mmr ds.TEMP_OUT_L_M = (.ok low, s2)) :
    m.senseRelativeTemperatureRaw bus ⟨s0, log⟩ =
      (.ok (s16 (high * 256 + low) / 16),
       ⟨s2, log ++ [Event.readOk m.mmr ds.TEMP_OUT_H_M high,
                    Event.readOk m.mmr ds.TEMP_OUT_L_M low]⟩) ∧
    m.SenseRelativeTemperature bus ⟨s0, log⟩ =
      (.ok (s16 (high * 256 + low) / 16 * physic.Celsius / 8 + physic.ZeroCelsius),
       ⟨s2, log ++ [Event.readOk m.mmr ds.TEMP_OUT_H_M high,
                    Event.readOk m.mmr ds.TEMP_OUT_L_M low]⟩) := by
  have hraw : m.senseRelativeTemperatureRaw bus ⟨s0, log⟩ =
      (.ok (s16 (high * 256 + low) / 16),
       ⟨s2, log ++ [Event.readOk m.mmr ds.TEMP_OUT_H_M high,
                    Event.readOk m.mmr ds.TEMP_OUT_L_M low]⟩) := by
    simp only [Magnetometer.senseRelativeTemperatureRaw, hds]
    rw [ReadUint8_of_ok bus _ _ _ high s1 h1]
    simp only []
    rw [ReadUint8_of_ok bus _ _ _ low s2 h2]
    simp only [Nat.mod_eq_of_lt hh, Nat.mod_eq_of_lt hl, temperature_raw _ _ hh hl,
      List.append_assoc, List.cons_append, List.nil_append]
  refine ⟨hraw, ?_⟩
  obtain ⟨r1, r2⟩ := s16_div16_range (high * 256 + low) (by omega)
  simp only [Magnetometer.SenseRelativeTemperature, hraw, temperature_scale _ r1 r2]

/-- C9, at the three byte pairs of `TestGetTemperature`: `(0x00, 0x00)` gives
ZeroCelsius, `(0x00, 0x80)` gives 8 eighths and ZeroCelsius + 1 Celsius,
`(0xFF, 0x80)` gives -8 eighths and ZeroCelsius - 1 Celsius. -/
theorem SenseRelativeTemperature_formula_witness :
    (dlhcMagnetometer.SenseRelativeTemperature faithfulBus ⟨fun _ _ => 0, []⟩).1 =
      .ok physic.ZeroCelsius ∧
    (dlhcMagnetometer.senseRelativeTemperatureRaw faithfulBus
      ⟨fun _ r => if r = 0x31 then 0x00 else 0x80, []⟩).1 = .ok 8 ∧
    (dlhcMagnetometer.SenseRelativeTemperature faithfulBus
      ⟨fun _ r => if r = 0x31 then 0x00 else 0x80, []⟩).1 =
      .ok (physic.ZeroCelsius + 1 * physic.Celsius) ∧
    (dlhcMagnetometer.senseRelativeTemperatureRaw faithfulBus
      ⟨fun _ r => if r = 0x31 then 0xFF else 0x80, []⟩).1 = .ok (-8) ∧
    (dlhcMagnetometer.SenseRelativeTemperature faithfulBus
      ⟨fun _ r => if r = 0x31 then 0xFF else 0x80, []⟩).1 =
      .ok (physic.ZeroCelsius - 1 * physic.Celsius) := by
  have ha := SenseRelativeTemperature_formula faithfulBus dlhcMagnetometer
    (datasheetForMagnetometer LSM303DLHC) rfl (fun _ _ => 0) (fun _ _ => 0) (fun _ _ => 0) []
    0x00 0x00 (by decide) (by decide) rfl rfl
  have hb := SenseRelativeTemperature_formula faithfulBus dlhcMagnetometer
    (datasheetForMagnetometer LSM303DLHC) rfl (fun _ r => if r = 0x31 then 0x00 else 0x80)
    (fun _ r => if r = 0x31 then 0x00 else 0x80) (fun _ r => if r = 0x31 then 0x00 else 0x80) []
    0x00 0x80 (by decide) (by decide) rfl rfl
  have hc := SenseRelativeTemperature_formula faithfulBus dlhcMagnetometer
    (datasheetForMagnetometer LSM303DLHC) rfl (fun _ r => if r = 0x31 then 0xFF else 0x80)
    (fun _ r => if r = 0x31 then 0xFF else 0x80) (fun _ r => if r = 0x31 then 0xFF else 0x80) []
    0xFF 0x80 (by decide) (by decide) rfl rfl
  refine ⟨?_, ?_, ?_, ?_, ?_⟩
  · rw [ha.2]; exact congrArg Except.ok (by decide)
  · rw [hb.1]; exact congrArg Except.ok (by decide)
  · rw [hb.2]; exact congrArg Except.ok (by decide)
  · rw [hc.1]; exact congrArg Except.ok (by decide)
  · rw [hc.2]; exact congrArg Except.ok (by decide)

theorem Magnetometer_SenseRaw_of_reads {σ : Type} (bus : Bus σ) (m : Magnetometer)
    (ds : MagnetometerDatasheet) (hds : m.datasheet = some ds)
    (s0 s1 s2 s3 s4 s5 s6 : σ) (log : List Event) (xl xh yl yh zl zh : Nat)
    (hxl : xl < 256) (hxh : xh < 256) (hyl : yl < 256) (hyh : yh < 256)
    (hzl : zl < 256) (hzh : zh < 256)
    (h1 : bus.read s0 m.mmr ds.OUT_X_L_M = (.ok xl, s1))
    (h2 : bus.read s1 m.mmr ds.OUT_X_H_M = (.ok xh, s2))
    (h3 : bus.read s2 m.mmr ds.OUT_Y_L_M = (.ok yl, s3))
    (h4 : bus.read s3 m.mmr ds.OUT_Y_H_M = (.ok yh, s4))
    (h5 : bus.read s4 m.mmr ds.OUT_Z_L_M = (.ok zl, s5))
    (h6 : bus.read s5 m.mmr ds.OUT_Z_H_M = (.ok zh, s6)) :
    m.SenseRaw bus ⟨s0, log⟩ =
      (.ok (s16 (xh * 256 + xl), s16 (yh * 256 + yl), s16 (zh * 256 + zl)),
       ⟨s6, log ++ [Event.readOk m.mmr ds.OUT_X_L_M xl, Event.readOk m.mmr ds.OUT_X_H_M xh,
                    Event.readOk m.mmr ds.OUT_Y_L_M yl, Event.readOk m.mmr ds.OUT_Y_H_M yh,
                    Event.readOk m.mmr ds.OUT_Z_L_M zl, Event.readOk m.mmr ds.OUT_Z_H_M zh]⟩) := by
  simp only [Magnetometer.SenseRaw, hds]
  rw [ReadUint8_of_ok bus _ _ _ xl s1 h1]
  simp only []
  rw [ReadUint8_of_ok bus _ _ _ xh s2 h2]
  simp only []
  rw [ReadUint8_of_ok bus _ _ _ yl s3 h3]
  simp only []
  rw [ReadUint8_of_ok bus _ _ _ yh s4 h4]
  simp only []
  rw [ReadUint8_of_ok bus _ _ _ zl s5 h5]
  simp only []
  rw [ReadUint8_of_ok bus _ _ _ zh s6 h6]
  simp only [Nat.mod_eq_of_lt hxl, Nat.mod_eq_of_lt hxh, Nat.mod_eq_of_lt hyl,
    Nat.mod_eq_of_lt hyh, Nat.mod_eq_of_lt hzl, Nat.mod_eq_of_lt hzh,
    int16_combine _ _ hxh hxl, int16_combine _ _ hyh hyl, int16_combine _ _ hzh hzl,
    List.append_assoc, List.cons_append, List.nil_append]

/-- C10. `Magnetometer.SenseRaw` with the LSM303DLHC datasheet, on a register
file of bytes: x = s16 (reg 0x03 * 256 + reg 0x04), y = s16 (reg 0x07 * 256 +
reg 0x08), z = s16 (reg 0x05 * 256 + reg 0x06); each axis takes its high byte
from the OUT_*_H_M register and its low byte from OUT_*_L_M of the datasheet. -/
theorem Magnetometer_SenseRaw_dlhc (m : Magnetometer)
    (hds : m.datasheet = some (datasheetForMagnetometer LSM303DLHC))
    (regs : Nat → Nat → Nat) (log : List Event) (hbytes : ∀ r, regs m.mmr r < 256) :
    m.SenseRaw faithfulBus ⟨regs, log⟩ =
      (.ok (s16 (regs m.mmr 0x03 * 256 + regs m.mmr 0x04),
            s16 (regs m.mmr 0x07 * 256 + regs m.mmr 0x08),
            s16 (regs m.mmr 0x05 * 256 + regs m.mmr 0x06)),
       ⟨regs, log ++ [Event.readOk m.mmr 0x04 (regs m.mmr 0x04),
                      Event.readOk m.mmr 0x03 (regs m.mmr 0x03),
                      Event.readOk m.mmr 0x08 (regs m.mmr 0x08),
                      Event.readOk m.mmr 0x07 (regs m.mmr 0x07),
                      Event.readOk m.mmr 0x06 (regs m.mmr 0x06),
                      Event.readOk m.mmr 0x05 (regs m.mmr 0x05)]⟩) ∧
    (datasheetForMagnetometer LSM303DLHC).OUT_X_H_M = 0x03 ∧
    (datasheetForMagnetometer LSM303DLHC).OUT_X_L_M = 0x04 ∧
    (datasheetForMagnetometer LSM303DLHC).OUT_Z_H_M = 0x05 ∧
    (datasheetForMagnetometer LSM303DLHC).OUT_Z_L_M = 0x06 ∧
    (datasheetForMagnetometer LSM303DLHC).OUT_Y_H_M = 0x07 ∧
    (datasheetForMagnetometer LSM303DLHC).OUT_Y_L_M = 0x08 :=
  ⟨Magnetometer_SenseRaw_of_reads faithfulBus m (datasheetForMagnetometer LSM303DLHC) hds
    regs regs regs regs regs regs regs log _ _ _ _ _ _
    (hbytes _) (hbytes _) (hbytes _) (hbytes _) (hbytes _) (hbytes _) rfl rfl rfl rfl rfl rfl,
   by decide, by decide, by decide, by decide, by decide, by decide⟩

/-- C10, at X_L = 0x00, X_H = 0x01, Y_L = 0x64, Y_H = 0x00, Z_L = 0xFF,
Z_H = 0xFF: the result is `(256, 100, -1)`. -/
theorem Magnetometer_SenseRaw_dlhc_witness :
    (dlhcMagnetometer.SenseRaw faithfulBus ⟨magnetometerSenseRegs, []⟩).1 = .ok (256, 100, -1) := by
  rw [(Magnetometer_SenseRaw_dlhc dlhcMagnetometer rfl magnetometerSenseRegs []
    (by intro r; unfold magnetometerSenseRegs; split_ifs <;> decide)).1]
  rfl

/-! ## Magnetometer: gain register -/

/-- On a faithful bus `GetGain` after a successful `SetGain` returns bits 5 to 7
of what `CRA_REG_M` held before, whatever gain was set, as long as the two
registers differ. -/
theorem GetGain_after_SetGain (m : Magnetometer) (ds : MagnetometerDatasheet)
    (hds : m.datasheet = some ds) (hne : ds.CRA_REG_M ≠ ds.CRB_REG_M)
    (regs : Nat → Nat → Nat) (log : List Event) (g : Int) :
    ∃ w1, m.SetGain faithfulBus g ⟨regs, log⟩ = (.ok (), { m with gain := g }, w1) ∧
      (({ m with gain := g } : Magnetometer).GetGain faithfulBus w1).1 =
        .ok ((((regs m.mmr ds.CRA_REG_M % 256) >>> 5 &&& 7 : Nat)) : Int) := by
  simp only [Magnetometer.SetGain, Magnetometer.GetGain, hds, ReadUint8_faithful,
    WriteUint8_faithful]
  refine ⟨_, rfl, ?_⟩
  simp only [hne, and_false, if_false]
  rfl

/-- C11. Gain round trip, evaluated on the code: on a faithful bus with the
LSM303DLHC datasheet and all registers zero, `SetGain MAGNETOMETER_GAIN_4_0`
succeeds and writes `0x60` to CRB_REG_M (0x01), and the immediately following
`GetGain` reads CRA_REG_M (0x00) and returns `MAGNETOMETER_GAIN_1_3`, not the
gain that was set. -/
theorem SetGain_GetGain_mismatch :
    (dlhcMagnetometer.SetGain faithfulBus MAGNETOMETER_GAIN_4_0 ⟨fun _ _ => 0, []⟩).1 = .ok () ∧
    ((dlhcMagnetometer.SetGain faithfulBus MAGNETOMETER_GAIN_4_0 ⟨fun _ _ => 0, []⟩).2.1.GetGain
      faithfulBus
      (dlhcMagnetometer.SetGain faithfulBus MAGNETOMETER_GAIN_4_0 ⟨fun _ _ => 0, []⟩).2.2).1
      = .ok MAGNETOMETER_GAIN_1_3 ∧
    ((dlhcMagnetometer.SetGain faithfulBus MAGNETOMETER_GAIN_4_0 ⟨fun _ _ => 0, []⟩).2.1.GetGain
      faithfulBus
      (dlhcMagnetometer.SetGain faithfulBus MAGNETOMETER_GAIN_4_0 ⟨fun _ _ => 0, []⟩).2.2).2.log
      = [Event.readOk 0x1E 0x01 0, Event.writeOk 0x1E 0x01 0x60, Event.readOk 0x1E 0x00 0] ∧
    MAGNETOMETER_GAIN_1_3 ≠ MAGNETOMETER_GAIN_4_0 :=
  ⟨rfl, rfl, rfl, by decide⟩

/-- C12. Open and bus failures, evaluated on the code: on a bus that answers the
enable write and the chip-id read and then fails every transaction,
`NewAccelerometer` and `NewMagnetometer` both return a handle with success
although the transactions of their setters have failed. -/
theorem open_discards_setter_failure :
    (NewAccelerometer failingBus [] ⟨(dlhcIdRegs, 2), []⟩).1 = .ok dlhcAccelerometer ∧
    (NewAccelerometer failingBus [] ⟨(dlhcIdRegs, 2), []⟩).2.log =
      [Event.writeOk 0x19 0x20 0x57, Event.readOk 0x19 0x0F 0x33,
       Event.readErr 0x19 0x23 1, Event.readErr 0x19 0x20 1] ∧
    (NewMagnetometer failingBus [] ⟨(dlhcIdRegs, 2), []⟩).1 = .ok dlhcMagnetometer ∧
    (NewMagnetometer failingBus [] ⟨(dlhcIdRegs, 2), []⟩).2.log =
      [Event.writeOk 0x1E 0x02 0x00, Event.readOk 0x1E 0x0A 0x48,
       Event.readErr 0x1E 0x01 1, Event.writeErr 0x1E 0x00 0x94 1] :=
  ⟨rfl, rfl, rfl, rfl⟩

/-- C13. Setter atomicity on the cache: whenever `SetMode`, `SetRange`,
`SetGain` or `SetRate` returns an error, at whatever step of the call, the
handle it leaves is the handle it was given, so the cached mode, range, gain
and rate are what they were before the call. -/
theorem setter_error_keeps_handle {σ : Type} (bus : Bus σ) (w : World σ) :
    (∀ (a : Accelerometer) (mode : Int) (e : Error),
      (a.SetMode bus mode w).1 = .error e → (a.SetMode bus mode w).2.1 = a) ∧
    (∀ (a : Accelerometer) (range_ : Int) (e : Error),
      (a.SetRange bus range_ w).1 = .error e → (a.SetRange bus range_ w).2.1 = a) ∧
    (∀ (m : Magnetometer) (gain : Int) (e : Error),
      (m.SetGain bus gain w).1 = .error e → (m.SetGain bus gain w).2.1 = m) ∧
    (∀ (m : Magnetometer) (rate : Int) (e : Error),
      (m.SetRate bus rate w).1 = .error e → (m.SetRate bus rate w).2.1 = m) := by
  refine ⟨?_, ?_, ?_, ?_⟩
  · intro a mode e
    simp only [Accelerometer.SetMode, ReadUint8, WriteUint8]
    rcases a.datasheet with _ | ds
    · simp
    · simp only []
      rcases bus.read w.dev a.mmr ds.CTRL_REG1_A with ⟨_ | v, s⟩
      · simp
      · simp only []
        rcases bus.write s a.mmr ds.CTRL_REG1_A _ with ⟨_ | _, s1⟩
        · simp
        · simp only []
          rcases bus.read s1 a.mmr ds.CTRL_REG4_A with ⟨_ | v, s2⟩
          · simp
          · simp only []
            rcases bus.write s2 a.mmr ds.CTRL_REG4_A _ with ⟨_ | _, s3⟩ <;> simp
  · intro a range_ e
    simp only [Accelerometer.SetRange, ReadUint8, WriteUint8]
    rcases a.datasheet with _ | ds
    · simp
    · simp only []
      rcases bus.read w.dev a.mmr ds.CTRL_REG4_A with ⟨_ | v, s⟩
      · simp
      · simp only []
        rcases bus.write s a.mmr ds.CTRL_REG4_A _ with ⟨_ | _, s1⟩ <;> simp
  · intro m gain e
    simp only [Magnetometer.SetGain, ReadUint8, WriteUint8]
    rcases m.datasheet with _ | ds
    · simp
    · simp only []
      rcases bus.read w.dev m.mmr ds.CRB_REG_M with ⟨_ | v, s⟩
      · simp
      · simp only []
        rcases bus.write s m.mmr ds.CRB_REG_M _ with ⟨_ | _, s1⟩ <;> simp
  · intro m rate e
    simp only [Magnetometer.SetRate, WriteUint8]
    rcases m.datasheet with _ | ds
    · simp
    · simp only []
      rcases bus.write w.dev m.mmr ds.CRA_REG_M _ with ⟨_ | _, s1⟩ <;> simp

/-- C13, at a `SetMode` whose second register step fails after the first
register has been written: the error is returned and the handle is unchanged. -/
theorem setter_error_keeps_handle_witness :
    (dlhcAccelerometer.SetMode failingBus ACCELEROMETER_MODE_LOW_POWER
      ⟨(fun _ _ => 0, 3), []⟩).1 = .error (Error.bus 1) ∧
    (dlhcAccelerometer.SetMode failingBus ACCELEROMETER_MODE_LOW_POWER
      ⟨(fun _ _ => 0, 3), []⟩).2.2.log =
      [Event.readOk 0x19 0x20 0, Event.writeOk 0x19 0x20 0x08, Event.readOk 0x19 0x23 0,
       Event.writeErr 0x19 0x23 0 1] ∧
    (dlhcAccelerometer.SetMode failingBus ACCELEROMETER_MODE_LOW_POWER
      ⟨(fun _ _ => 0, 3), []⟩).2.1 = dlhcAccelerometer :=
  ⟨rfl, rfl,
   (setter_error_keeps_handle failingBus ⟨(fun _ _ => 0, 3), []⟩).1 dlhcAccelerometer
     ACCELEROMETER_MODE_LOW_POWER (Error.bus 1) rfl⟩

/-- After a setter returns without error the cache of `SetMode`, `SetRange` and
`SetGain` holds the argument, and `SetRate` returns the handle unchanged. -/
theorem setter_success_cache {σ : Type} (bus : Bus σ) (w : World σ) :
    (∀ (a : Accelerometer) (mode : Int),
      (a.SetMode bus mode w).1 = .ok () → (a.SetMode bus mode w).2.1.mode = mode) ∧
    (∀ (a : Accelerometer) (range_ : Int),
      (a.SetRange bus range_ w).1 = .ok () → (a.SetRange bus range_ w).2.1.range_ = range_) ∧
    (∀ (m : Magnetometer) (gain : Int),
      (m.SetGain bus gain w).1 = .ok () → (m.SetGain bus gain w).2.1.gain = gain) ∧
    (∀ (m : Magnetometer) (rate : Int), (m.SetRate bus rate w).2.1 = m) := by
  refine ⟨?_, ?_, ?_, ?_⟩
  · intro a mode
    simp only [Accelerometer.SetMode, ReadUint8, WriteUint8]
    rcases a.datasheet with _ | ds
    · simp
    · simp only []
      rcases bus.read w.dev a.mmr ds.CTRL_REG1_A with ⟨_ | v, s⟩
      · simp
      · simp only []
        rcases bus.write s a.mmr ds.CTRL_REG1_A _ with ⟨_ | _, s1⟩
        · simp
        · simp only []
          rcases bus.read s1 a.mmr ds.CTRL_REG4_A with ⟨_ | v, s2⟩
          · simp
          · simp only []
            rcases bus.write s2 a.mmr ds.CTRL_REG4_A _ with ⟨_ | _, s3⟩ <;> simp
  · intro a range_
    simp only [Accelerometer.SetRange, ReadUint8, WriteUint8]
    rcases a.datasheet with _ | ds
    · simp
    · simp only []
      rcases bus.read w.dev a.mmr ds.CTRL_REG4_A with ⟨_ | v, s⟩
      · simp
      · simp only []
        rcases bus.write s a.mmr ds.CTRL_REG4_A _ with ⟨_ | _, s1⟩ <;> simp
  · intro m gain
    simp only [Magnetometer.SetGain, ReadUint8, WriteUint8]
    rcases m.datasheet with _ | ds
    · simp
    · simp only []
      rcases bus.read w.dev m.mmr ds.CRB_REG_M with ⟨_ | v, s⟩
      · simp
      · simp only []
        rcases bus.write s m.mmr ds.CRB_REG_M _ with ⟨_ | _, s1⟩ <;> simp
  · intro m rate
    simp only [Magnetometer.SetRate, WriteUint8]
    rcases m.datasheet with _ | ds
    · simp
    · simp only []
      rcases bus.write w.dev m.mmr ds.CRA_REG_M _ with ⟨_ | _, s1⟩ <;> simp

/-- C14. Cache after a successful setter, evaluated on the code: on a faithful
bus `SetRate MAGNETOMETER_RATE_75` returns without error and writes `0x98` to
CRA_REG_M, and the cached rate of the handle is still `MAGNETOMETER_RATE_30`. -/
theorem SetRate_leaves_cached_rate :
    (dlhcMagnetometer.SetRate faithfulBus MAGNETOMETER_RATE_75 ⟨fun _ _ => 0, []⟩).1 = .ok () ∧
    (dlhcMagnetometer.SetRate faithfulBus MAGNETOMETER_RATE_75 ⟨fun _ _ => 0, []⟩).2.2.log =
      [Event.writeOk 0x1E 0x00 0x98] ∧
    (dlhcMagnetometer.SetRate faithfulBus MAGNETOMETER_RATE_75 ⟨fun _ _ => 0, []⟩).2.1.rate =
      MAGNETOMETER_RATE_30 ∧
    MAGNETOMETER_RATE_30 ≠ MAGNETOMETER_RATE_75 :=
  ⟨rfl, rfl, rfl, by decide⟩

/-! ## Opening the magnetometer -/

theorem gain_byte (v d : Nat) :
    v &&& not8 (shl8 (uint8 (((1 <<< 3 : Nat) : Int) - 1)) 5) |||
        shl8 (d &&& uint8 (((1 <<< 3 : Nat) : Int) - 1)) 5 = (v &&& 0x1F) ||| ((d % 8) <<< 5) := by
  have h3 : uint8 (((1 <<< 3 : Nat) : Int) - 1) = 2 ^ 3 - 1 := by decide
  have hn : not8 (shl8 (2 ^ 3 - 1) 5) = 0x1F := by decide
  have hs : ∀ k : Fin 8, shl8 k.val 5 = k.val <<< 5 := by decide
  rw [h3, hn, Nat.and_pow_two_sub_one_eq_mod]
  exact congrArg _ (hs ⟨d % 8, Nat.mod_lt _ (by norm_num)⟩)

/-- `SetGain` on a bus that answers its read with `v` and accepts its write. -/
theorem SetGain_of_ok {σ : Type} (bus : Bus σ) (m : Magnetometer)
    (ds : MagnetometerDatasheet) (hds : m.datasheet = some ds) (g : Int)
    (s s1 s2 : σ) (log : List Event) (v : Nat) (hv : v < 256)
    (hr : bus.read s m.mmr ds.CRB_REG_M = (.ok v, s1))
    (hw : bus.write s1 m.mmr ds.CRB_REG_M ((v &&& 0x1F) ||| ((uint8 g % 8) <<< 5))
      = (.ok (), s2)) :
    m.SetGain bus g ⟨s, log⟩ =
      (.ok (), { m with gain := g },
       ⟨s2, log ++ [Event.readOk m.mmr ds.CRB_REG_M v,
          Event.writeOk m.mmr ds.CRB_REG_M ((v &&& 0x1F) ||| ((uint8 g % 8) <<< 5))]⟩) := by
  simp only [Magnetometer.SetGain, hds]
  rw [ReadUint8_of_ok bus _ _ _ v s1 hr]
  simp only [Nat.mod_eq_of_lt hv, gain_byte]
  rw [WriteUint8_of_ok bus _ _ _ _ s2 hw]
  simp only [List.append_assoc, List.cons_append, List.nil_append]

/-- `SetRate` on a bus that accepts its write. -/
theorem SetRate_of_ok {σ : Type} (bus : Bus σ) (m : Magnetometer)
    (ds : MagnetometerDatasheet) (hds : m.datasheet = some ds) (r : Int)
    (s s1 : σ) (log : List Event)
    (hw : bus.write s m.mmr ds.CRA_REG_M (rateByte r) = (.ok (), s1)) :
    m.SetRate bus r ⟨s, log⟩ =
      (.ok (), m, ⟨s1, log ++ [Event.writeOk m.mmr ds.CRA_REG_M (rateByte r)]⟩) := by
  have hb := (rate_byte_fin ⟨(Int.land r 7).toNat, land7_lt r⟩).1
  simp only [] at hb
  have hW := WriteUint8_of_ok bus m.mmr ds.CRA_REG_M (rateByte r) ⟨s, log⟩ s1 hw
  unfold rateByte at hW
  simp only [Magnetometer.SetRate, hds, uint8_and7, hb, hW]
  rfl

/-- C15 as stated fails: with no options, on a faithful bus whose chip-id
register holds `0x48` and whose other registers hold zero, `NewMagnetometer`
succeeds, and the byte written to register 0x01 is `0x60`, not `0x80`; the
trace differs from the trace of scenario 3 of the specification. -/
theorem NewMagnetometer_spec_trace_fails :
    (NewMagnetometer faithfulBus [] ⟨dlhcIdRegs, []⟩).1 = .ok dlhcMagnetometer ∧
    (NewMagnetometer faithfulBus [] ⟨dlhcIdRegs, []⟩).2.log =
      [Event.writeOk 0x1E 0x02 0x00, Event.readOk 0x1E 0x0A 0x48, Event.readOk 0x1E 0x01 0x00,
       Event.writeOk 0x1E 0x01 0x60, Event.writeOk 0x1E 0x00 0x94] ∧
    (NewMagnetometer faithfulBus [] ⟨dlhcIdRegs, []⟩).2.log ≠ specMagnetometerTrace :=
  ⟨rfl, rfl, by decide⟩

/-- C15, amended. `NewMagnetometer` with no options, on a bus that answers as
prescribed, issues exactly this trace to device 0x1E and succeeds:
write(0x02, 0x00); read(0x0A) -> 0x48; read(0x01) -> 0x00; write(0x01, 0x60);
write(0x00, 0x94). -/
theorem NewMagnetometer_default_trace {σ : Type} (bus : Bus σ)
    (s0 s1 s2 s3 s4 s5 : σ) (log : List Event)
    (h1 : bus.write s0 0x1E 0x02 0x00 = (.ok (), s1))
    (h2 : bus.read s1 0x1E 0x0A = (.ok 0x48, s2))
    (h3 : bus.read s2 0x1E 0x01 = (.ok 0x00, s3))
    (h4 : bus.write s3 0x1E 0x01 0x60 = (.ok (), s4))
    (h5 : bus.write s4 0x1E 0x00 0x94 = (.ok (), s5)) :
    NewMagnetometer bus [] ⟨s0, log⟩ =
      (.ok dlhcMagnetometer,
       ⟨s5, log ++ [Event.writeOk 0x1E 0x02 0x00, Event.readOk 0x1E 0x0A 0x48,
          Event.readOk 0x1E 0x01 0x00, Event.writeOk 0x1E 0x01 0x60,
          Event.writeOk 0x1E 0x00 0x94]⟩) := by
  have hdev : newMagnetometerDevice [] = dlhcMagnetometer := by decide
  have hds : dlhcMagnetometer.datasheet = some (datasheetForMagnetometer LSM303DLHC) := rfl
  have zg : (0x00 &&& 0x1F) ||| ((uint8 dlhcMagnetometer.gain % 8) <<< 5) = 0x60 := by decide
  have zr : rateByte dlhcMagnetometer.rate = 0x94 := by decide
  have hW : WriteUint8 bus dlhcMagnetometer.mmr
      (datasheetForMagnetometer LSM303DLHC).MR_REG_M 0x00 ⟨s0, log⟩ =
      (.ok (), ⟨s1, log ++ [Event.writeOk 0x1E 0x02 0x00]⟩) :=
    WriteUint8_of_ok bus 0x1E 0x02 0x00 ⟨s0, log⟩ s1 h1
  have hR : ReadUint8 bus dlhcMagnetometer.mmr
      (datasheetForMagnetometer LSM303DLHC).WHO_AM_I_M
      ⟨s1, log ++ [Event.writeOk 0x1E 0x02 0x00]⟩ =
      (.ok 0x48, ⟨s2, log ++ [Event.writeOk 0x1E 0x02 0x00] ++ [Event.readOk 0x1E 0x0A 0x48]⟩) :=
    ReadUint8_of_ok bus 0x1E 0x0A ⟨s1, log ++ [Event.writeOk 0x1E 0x02 0x00]⟩ 0x48 s2 h2
  have hgain : dlhcMagnetometer.SetGain bus dlhcMagnetometer.gain
      ⟨s2, log ++ [Event.writeOk 0x1E 0x02 0x00] ++ [Event.readOk 0x1E 0x0A 0x48]⟩ =
      (.ok (), dlhcMagnetometer,
       ⟨s4, log ++ [Event.writeOk 0x1E 0x02 0x00] ++ [Event.readOk 0x1E 0x0A 0x48] ++
          [Event.readOk 0x1E 0x01 0x00, Event.writeOk 0x1E 0x01 0x60]⟩) :=
    SetGain_of_ok bus dlhcMagnetometer _ hds dlhcMagnetometer.gain s2 s3 s4 _ 0x00
      (by decide) h3 (by rw [zg]; exact h4)
  have hrate : dlhcMagnetometer.SetRate bus dlhcMagnetometer.rate
      ⟨s4, log ++ [Event.writeOk 0x1E 0x02 0x00] ++ [Event.readOk 0x1E 0x0A 0x48] ++
          [Event.readOk 0x1E 0x01 0x00, Event.writeOk 0x1E 0x01 0x60]⟩ =
      (.ok (), dlhcMagnetometer,
       ⟨s5, log ++ [Event.writeOk 0x1E 0x02 0x00] ++ [Event.readOk 0x1E 0x0A 0x48] ++
          [Event.readOk 0x1E 0x01 0x00, Event.writeOk 0x1E 0x01 0x60] ++
          [Event.writeOk 0x1E 0x00 0x94]⟩) :=
    SetRate_of_ok bus dlhcMagnetometer _ hds dlhcMagnetometer.rate s4 s5 _
      (by rw [zr]; exact h5)
  have ec : (datasheetForMagnetometer LSM303DLHC).CHIP_ID = 0x48 := by decide
  simp only [NewMagnetometer, hdev, hds, hW, hR, hgain, hrate]
  simp only [ne_eq, List.append_assoc, List.cons_append, List.nil_append, ec,
    not_true_eq_false, if_false]

/-- C15 amended, at the playback bus that holds exactly these five transactions. -/
theorem NewMagnetometer_default_trace_witness :
    NewMagnetometer playbackBus [] ⟨⟨enabledMagnetometerOps, 0⟩, []⟩ =
      (.ok dlhcMagnetometer,
       ⟨⟨enabledMagnetometerOps, 5⟩,
        [Event.writeOk 0x1E 0x02 0x00, Event.readOk 0x1E 0x0A 0x48,
         Event.readOk 0x1E 0x01 0x00, Event.writeOk 0x1E 0x01 0x60,
         Event.writeOk 0x1E 0x00 0x94]⟩) :=
  NewMagnetometer_default_trace playbackBus
    ⟨enabledMagnetometerOps, 0⟩ ⟨enabledMagnetometerOps, 1⟩ ⟨enabledMagnetometerOps, 2⟩
    ⟨enabledMagnetometerOps, 3⟩ ⟨enabledMagnetometerOps, 4⟩ ⟨enabledMagnetometerOps, 5⟩ []
    rfl rfl rfl rfl rfl

/-- C17. `NewMagnetometer` trace as the test asserts it, evaluated on the code:
against the playback scenario of `TestNewMagnetometer` (four operations, the
read of the chip id first) the first transaction of `NewMagnetometer` with no
options is the write of `0x00` to MR_REG_M (0x02), which the scenario does not
accept, so no record is played and open returns that failure instead of
success; on a faithful bus that holds the chip id the code issues five
transactions, the chip-id read being the second. -/
theorem NewMagnetometer_test_trace_fails :
    NewMagnetometer playbackBus [] ⟨⟨newMagnetometerOps, 0⟩, []⟩ =
      (.error (Error.bus 3), ⟨⟨newMagnetometerOps, 0⟩, [Event.writeErr 0x1E 0x02 0x00 3]⟩) ∧
    newMagnetometerOps.length = 4 ∧
    (NewMagnetometer faithfulBus [] ⟨dlhcIdRegs, []⟩).1 = .ok dlhcMagnetometer ∧
    (NewMagnetometer faithfulBus [] ⟨dlhcIdRegs, []⟩).2.log =
      [Event.writeOk 0x1E 0x02 0x00, Event.readOk 0x1E 0x0A 0x48, Event.readOk 0x1E 0x01 0,
       Event.writeOk 0x1E 0x01 0x60, Event.writeOk 0x1E 0x00 0x94] :=
  ⟨rfl, rfl, rfl, rfl⟩

/-- With no options, against the playback bus that accepts only
write(MR_REG_M = 0x02, 0x00) followed by the four operations of
`TestNewMagnetometer`, open succeeds and plays all five records: the first
transaction is the enable write, the chip-id read read(0x0A) -> 0x48 is the
second, followed by read(0x01) -> 0, write(0x01, 0x60), write(0x00, 0x94). -/
theorem NewMagnetometer_enabled_playback :
    (NewMagnetometer playbackBus [] ⟨⟨enabledMagnetometerOps, 0⟩, []⟩).1 = .ok dlhcMagnetometer ∧
    (NewMagnetometer playbackBus [] ⟨⟨enabledMagnetometerOps, 0⟩, []⟩).2.dev.Count =
      enabledMagnetometerOps.length ∧
    (NewMagnetometer playbackBus [] ⟨⟨enabledMagnetometerOps, 0⟩, []⟩).2.log.get? 0 =
      some (Event.writeOk 0x1E 0x02 0x00) ∧
    (NewMagnetometer playbackBus [] ⟨⟨enabledMagnetometerOps, 0⟩, []⟩).2.log.drop 1 =
      [Event.readOk 0x1E 0x0A 0x48, Event.readOk 0x1E 0x01 0,
       Event.writeOk 0x1E 0x01 0x60, Event.writeOk 0x1E 0x00 0x94] :=
  ⟨rfl, rfl, rfl, rfl⟩

/-! ## Temperature without offset -/

theorem or16_shift_range (x y : Int) :
    -2048 ≤ Int.shiftRight (or16 x y) 4 ∧ Int.shiftRight (or16 x y) 4 ≤ 2047 := by
  have hs : Int.shiftRight (or16 x y) 4 = or16 x y / 16 := by
    show or16 x y >>> (4 : Nat) = _
    rw [Int.shiftRight_eq_div_pow]
    norm_num
  have hr := int16_range ((uint16 x ||| uint16 y : Nat) : Int)
  rw [hs]
  unfold or16
  omega

theorem senseRelativeTemperatureRaw_range {σ : Type} (bus : Bus σ) (m : Magnetometer)
    (w w1 : World σ) (e : Int) (h : m.senseRelativeTemperatureRaw bus w = (.ok e, w1)) :
    -2048 ≤ e ∧ e ≤ 2047 := by
  unfold Magnetometer.senseRelativeTemperatureRaw at h
  repeat' split at h
  all_goals try simp only [Prod.mk.injEq, Except.ok.injEq, reduceCtorEq, false_and] at h
  obtain ⟨rfl, -⟩ := h
  exact or16_shift_range _ _

/-- C16. Temperature as the test asserts it, evaluated on the code: for the raw
bytes `(0x00, 0x00)` the raw value is 0 eighths and `SenseRelativeTemperature`
returns `ZeroCelsius`, not the `ZeroCelsius + 20*Celsius` that
`TestGetTemperature` expects; for `(0x00, 0x80)` and `(0xFF, 0x80)` it returns
`ZeroCelsius + 1*Celsius` and `ZeroCelsius - 1*Celsius`, where the test expects
`ZeroCelsius + 21*Celsius` and `ZeroCelsius + 19*Celsius`. -/
theorem SenseRelativeTemperature_without_offset :
    (dlhcMagnetometer.SenseRelativeTemperature faithfulBus ⟨fun _ _ => 0, []⟩).1 =
      .ok physic.ZeroCelsius ∧
    (dlhcMagnetometer.senseRelativeTemperatureRaw faithfulBus ⟨fun _ _ => 0, []⟩).1 = .ok 0 ∧
    physic.ZeroCelsius ≠ testTemperature 0 ∧
    testTemperature 0 = physic.ZeroCelsius + 20 * physic.Celsius ∧
    (dlhcMagnetometer.SenseRelativeTemperature faithfulBus
      ⟨fun _ r => if r = 0x31 then 0x00 else 0x80, []⟩).1 =
      .ok (physic.ZeroCelsius + 1 * physic.Celsius) ∧
    testTemperature 8 = physic.ZeroCelsius + 21 * physic.Celsius ∧
    (dlhcMagnetometer.SenseRelativeTemperature faithfulBus
      ⟨fun _ r => if r = 0x31 then 0xFF else 0x80, []⟩).1 =
      .ok (physic.ZeroCelsius - 1 * physic.Celsius) ∧
    testTemperature (-8) = physic.ZeroCelsius + 19 * physic.Celsius :=
  ⟨rfl, rfl, by decide, by decide, by rfl, by decide, by rfl, by decide⟩

/-- For every raw value `eighths` that `senseRelativeTemperatureRaw` returns,
`SenseRelativeTemperature` returns `ZeroCelsius + eighths*Celsius/8` on the
same bus trace; this is exactly `20*Celsius` below the value that
`TestGetTemperature` expects. -/
theorem SenseRelativeTemperature_of_raw {σ : Type} (bus : Bus σ) (m : Magnetometer)
    (w w1 : World σ) (eighths : Int)
    (h : m.senseRelativeTemperatureRaw bus w = (.ok eighths, w1)) :
    m.SenseRelativeTemperature bus w =
      (.ok (physic.ZeroCelsius + eighths * physic.Celsius / 8), w1) ∧
    physic.ZeroCelsius + eighths * physic.Celsius / 8 + 20 * physic.Celsius
      = testTemperature eighths := by
  obtain ⟨r1, r2⟩ := senseRelativeTemperatureRaw_range bus m w w1 eighths h
  constructor
  · simp only [Magnetometer.SenseRelativeTemperature, h, temperature_scale _ r1 r2]
    rw [add_comm]
  · unfold testTemperature
    ring

/-- The result of the code at the three byte pairs of the test: `(0x00, 0x00)`
gives ZeroCelsius, `(0x00, 0x80)` gives ZeroCelsius + 1 Celsius, `(0xFF, 0x80)`
gives ZeroCelsius - 1 Celsius. -/
theorem SenseRelativeTemperature_of_raw_witness :
    (dlhcMagnetometer.SenseRelativeTemperature faithfulBus ⟨fun _ _ => 0, []⟩).1 =
      .ok physic.ZeroCelsius ∧
    (dlhcMagnetometer.SenseRelativeTemperature faithfulBus
      ⟨fun _ r => if r = 0x31 then 0x00 else 0x80, []⟩).1 =
      .ok (physic.ZeroCelsius + 1 * physic.Celsius) ∧
    (dlhcMagnetometer.SenseRelativeTemperature faithfulBus
      ⟨fun _ r => if r = 0x31 then 0xFF else 0x80, []⟩).1 =
      .ok (physic.ZeroCelsius - 1 * physic.Celsius) := by
  have ha := (SenseRelativeTemperature_of_raw faithfulBus dlhcMagnetometer
    ⟨fun _ _ => 0, []⟩
    (dlhcMagnetometer.senseRelativeTemperatureRaw faithfulBus ⟨fun _ _ => 0, []⟩).2 0 (by rfl)).1
  have hb := (SenseRelativeTemperature_of_raw faithfulBus dlhcMagnetometer
    ⟨fun _ r => if r = 0x31 then 0x00 else 0x80, []⟩
    (dlhcMagnetometer.senseRelativeTemperatureRaw faithfulBus ⟨fun _ r => if r = 0x31 then 0x00 else 0x80, []⟩).2 8 (by rfl)).1
  have hc := (SenseRelativeTemperature_of_raw faithfulBus dlhcMagnetometer
    ⟨fun _ r => if r = 0x31 then 0xFF else 0x80, []⟩
    (dlhcMagnetometer.senseRelativeTemperatureRaw faithfulBus ⟨fun _ r => if r = 0x31 then 0xFF else 0x80, []⟩).2 (-8) (by rfl)).1
  refine ⟨?_, ?_, ?_⟩
  · rw [ha]; exact congrArg Except.ok (by decide)
  · rw [hb]; exact congrArg Except.ok (by decide)
  · rw [hc]; exact congrArg Except.ok (by decide)

/-! ## Datasheet tables -/

/-- C18. `datasheetForAccelerometer`: LSM303DLHC and LSM303AGR get the
identical record (address 0x19, chip-id register 0x0F, chip id 0x33, CTRL1
0x20, CTRL4 0x23, outputs 0x28..0x2D in the order X_L, X_H, Y_L, Y_H, Z_L,
Z_H); LSM303C gets the same record except address 0x1D and chip id 0x41. -/
theorem datasheetForAccelerometer_tables :
    datasheetForAccelerometer LSM303DLHC =
      { ADDRESS := 0x19, WHO_AM_I_A := 0x0F, CHIP_ID := 0x33, CTRL_REG1_A := 0x20,
        CTRL_REG4_A := 0x23, OUT_X_L_A := 0x28, OUT_X_H_A := 0x29, OUT_Y_L_A := 0x2A,
        OUT_Y_H_A := 0x2B, OUT_Z_L_A := 0x2C, OUT_Z_H_A := 0x2D } ∧
    datasheetForAccelerometer LSM303AGR = datasheetForAccelerometer LSM303DLHC ∧
    datasheetForAccelerometer LSM303C =
      { datasheetForAccelerometer LSM303DLHC with ADDRESS := 0x1D, CHIP_ID := 0x41 } ∧
    datasheetForAccelerometer LSM303C =
      { ADDRESS := 0x1D, WHO_AM_I_A := 0x0F, CHIP_ID := 0x41, CTRL_REG1_A := 0x20,
        CTRL_REG4_A := 0x23, OUT_X_L_A := 0x28, OUT_X_H_A := 0x29, OUT_Y_L_A := 0x2A,
        OUT_Y_H_A := 0x2B, OUT_Z_L_A := 0x2C, OUT_Z_H_A := 0x2D } := by
  decide

/-- C19. `datasheetForMagnetometer` returns, field for field, the tables of the
specification for LSM303DLHC, LSM303AGR and LSM303C. -/
theorem datasheetForMagnetometer_tables :
    (let d := datasheetForMagnetometer LSM303DLHC
     d.ADDRESS = 0x1E ∧ d.WHO_AM_I_M = 0x0A ∧ d.CHIP_ID = 0x48 ∧ d.CRA_REG_M = 0x00 ∧
     d.CRB_REG_M = 0x01 ∧ d.MR_REG_M = 0x02 ∧ d.OUT_X_H_M = 0x03 ∧ d.OUT_X_L_M = 0x04 ∧
     d.OUT_Z_H_M = 0x05 ∧ d.OUT_Z_L_M = 0x06 ∧ d.OUT_Y_H_M = 0x07 ∧ d.OUT_Y_L_M = 0x08 ∧
     d.TEMP_OUT_H_M = 0x31 ∧ d.TEMP_OUT_L_M = 0x32) ∧
    (let d := datasheetForMagnetometer LSM303AGR
     d.ADDRESS = 0x1E ∧ d.WHO_AM_I_M = 0x4F ∧ d.CHIP_ID = 0x40 ∧ d.CRA_REG_M = 0x60 ∧
     d.CRB_REG_M = 0x61 ∧ d.MR_REG_M = 0x02 ∧ d.OUT_X_L_M = 0x68 ∧ d.OUT_X_H_M = 0x69 ∧
     d.OUT_Y_L_M = 0x6A ∧ d.OUT_Y_H_M = 0x6B ∧ d.OUT_Z_L_M = 0x6C ∧ d.OUT_Z_H_M = 0x6D ∧
     d.TEMP_OUT_H_M = 0x31 ∧ d.TEMP_OUT_L_M = 0x32) ∧
    (let d := datasheetForMagnetometer LSM303C
     d.ADDRESS = 0x1E ∧ d.WHO_AM_I_M = 0x0F ∧ d.CHIP_ID = 0x3D ∧ d.CRA_REG_M = 0x20 ∧
     d.MR_REG_M = 0x22 ∧ d.OUT_X_L_M = 0x28 ∧ d.OUT_X_H_M = 0x29 ∧
     d.OUT_Y_L_M = 0x2A ∧ d.OUT_Y_H_M = 0x2B ∧ d.OUT_Z_L_M = 0x2C ∧ d.OUT_Z_H_M = 0x2D ∧
     d.TEMP_OUT_H_M = 0x2F ∧ d.TEMP_OUT_L_M = 0x2E) := by
  decide

/-! ## Scale lookup: abort -/

/-- C20. `getMultiplier` ends the process (an error result, never a number)
exactly when the mode is not one of the three modes or the range is not one of
the four ranges: an unknown mode gives the unknown-mode abort, a known mode
with an unknown range gives the unknown-range abort, and each of the 12 valid
combinations returns a strictly positive value. -/
theorem getMultiplier_aborts_iff (mode range_ : Int) :
    ((∃ e, getMultiplier mode range_ = .error e) ↔ (mode ∉ modes ∨ range_ ∉ ranges)) ∧
    (mode ∉ modes → getMultiplier mode range_ = .error (Error.fatalUnknownMode mode)) ∧
    (mode ∈ modes → range_ ∉ ranges →
      getMultiplier mode range_ = .error (Error.fatalUnknownRange range_)) ∧
    (mode ∈ modes → range_ ∈ ranges → ∃ k, getMultiplier mode range_ = .ok k ∧ 0 < k) := by
  have hA : mode ∉ modes → getMultiplier mode range_ = .error (Error.fatalUnknownMode mode) := by
    intro h
    simp only [modes, List.mem_cons, List.mem_singleton, List.not_mem_nil, or_false,
      not_or] at h
    simp only [getMultiplier, h.1, h.2.1, h.2.2, if_false]
  have hB : mode ∈ modes → range_ ∉ ranges →
      getMultiplier mode range_ = .error (Error.fatalUnknownRange range_) := by
    intro hm h
    simp only [ranges, List.mem_cons, List.mem_singleton, List.not_mem_nil, or_false,
      not_or] at h
    simp only [modes, List.mem_cons, List.mem_singleton, List.not_mem_nil, or_false] at hm
    rcases hm with rfl | rfl | rfl <;>
      simp [getMultiplier, h.1, h.2.1, h.2.2.1, h.2.2.2, ACCELEROMETER_MODE_LOW_POWER,
        ACCELEROMETER_MODE_NORMAL, ACCELEROMETER_MODE_HIGH_RESOLUTION]
  have hC : mode ∈ modes → range_ ∈ ranges → ∃ k, getMultiplier mode range_ = .ok k ∧ 0 < k := by
    intro hm hr
    obtain ⟨k, hk⟩ := getMultiplier_defined mode range_ hm hr
    exact ⟨k, hk, (getMultiplier_bounds _ _ _ hk).1⟩
  refine ⟨⟨?_, ?_⟩, hA, hB, hC⟩
  · rintro ⟨e, he⟩
    by_contra hcon
    rw [not_or, not_not, not_not] at hcon
    obtain ⟨k, hk, -⟩ := hC hcon.1 hcon.2
    rw [hk] at he
    exact absurd he (by simp)
  · intro h
    by_cases hm : mode ∈ modes
    · rcases h with h | h
      · exact absurd hm h
      · exact ⟨_, hB hm h⟩
    · exact ⟨_, hA hm⟩

/-- C20, at mode 3 (undefined), at range 4 (undefined) and at NORMAL with 4G. -/
theorem getMultiplier_aborts_iff_witness :
    ((∃ e, getMultiplier 3 ACCELEROMETER_RANGE_2G = .error e) ↔
      ((3 : Int) ∉ modes ∨ ACCELEROMETER_RANGE_2G ∉ ranges)) ∧
    getMultiplier 3 ACCELEROMETER_RANGE_2G = .error (Error.fatalUnknownMode 3) ∧
    getMultiplier ACCELEROMETER_MODE_NORMAL 4 = .error (Error.fatalUnknownRange 4) ∧
    (∃ k, getMultiplier ACCELEROMETER_MODE_NORMAL ACCELEROMETER_RANGE_4G = .ok k ∧ 0 < k) :=
  ⟨(getMultiplier_aborts_iff 3 ACCELEROMETER_RANGE_2G).1,
   (getMultiplier_aborts_iff 3 ACCELEROMETER_RANGE_2G).2.1 (by decide),
   (getMultiplier_aborts_iff ACCELEROMETER_MODE_NORMAL 4).2.2.1 (by decide) (by decide),
   (getMultiplier_aborts_iff ACCELEROMETER_MODE_NORMAL ACCELEROMETER_RANGE_4G).2.2.2
     (by decide) (by decide)⟩

/-! ## Bit fields of signed arguments -/

theorem ldiff3 (n : Nat) : Nat.ldiff 3 n = 3 - n % 4 := by
  have h : Nat.ldiff 3 n = Nat.ldiff 3 (n % 4) := by
    apply Nat.eq_of_testBit_eq
    intro i
    simp only [Nat.testBit_ldiff]
    by_cases hi : i < 2
    · have : (n % 4).testBit i = n.testBit i := by
        have := Nat.testBit_mod_two_pow n 2 i
        simpa [hi] using this
      rw [this]
    · have : Nat.testBit 3 i = false := by
        apply Nat.testBit_lt_two_pow
        calc 3 < 2 ^ 2 := by norm_num
          _ ≤ 2 ^ i := Nat.pow_le_pow_right (by norm_num) (by omega)
      simp [this]
  rw [h]
  have : n % 4 < 4 := Nat.mod_lt _ (by norm_num)
  generalize n % 4 = k at this
  interval_cases k <;> simp [Nat.ldiff, Nat.bitwise]

theorem land3 (r : Int) : Int.land r 3 = r % 4 := by
  cases r with
  | ofNat n =>
    show ((n &&& 3 : Nat) : Int) = _
    rw [Nat.and_pow_two_sub_one_eq_mod n 2]
    simp
  | negSucc n =>
    show ((Nat.ldiff 3 n : Nat) : Int) = _
    rw [ldiff3, Int.negSucc_eq]
    omega

theorem ldiff1 (n : Nat) : Nat.ldiff 1 n = 1 - n % 2 := by
  have h : Nat.ldiff 1 n = Nat.ldiff 1 (n % 2) := by
    apply Nat.eq_of_testBit_eq
    intro i
    simp only [Nat.testBit_ldiff]
    by_cases hi : i < 1
    · have : (n % 2).testBit i = n.testBit i := by
        have := Nat.testBit_mod_two_pow n 1 i
        simpa [hi] using this
      rw [this]
    · have : Nat.testBit 1 i = false := by
        apply Nat.testBit_lt_two_pow
        calc 1 < 2 ^ 1 := by norm_num
          _ ≤ 2 ^ i := Nat.pow_le_pow_right (by norm_num) (by omega)
      simp [this]
  rw [h]
  have : n % 2 < 2 := Nat.mod_lt _ (by norm_num)
  generalize n % 2 = k at this
  interval_cases k <;> simp [Nat.ldiff, Nat.bitwise]

theorem land1 (r : Int) : Int.land r 1 = r % 2 := by
  cases r with
  | ofNat n =>
    show ((n &&& 1 : Nat) : Int) = _
    rw [Nat.and_pow_two_sub_one_eq_mod n 1]
    simp
  | negSucc n =>
    show ((Nat.ldiff 1 n : Nat) : Int) = _
    rw [ldiff1, Int.negSucc_eq]
    omega

theorem testBit_two_succ (i : Nat) : Nat.testBit 2 (1 + i) = Nat.testBit 1 i := by
  rw [Nat.add_comm, Nat.testBit_succ]

theorem and2_shift (n : Nat) : (n &&& 2) >>> 1 = (n / 2) % 2 := by
  have : (n &&& 2) >>> 1 = (n >>> 1) &&& 1 := by
    apply Nat.eq_of_testBit_eq
    intro i
    simp only [Nat.testBit_and, Nat.testBit_shiftRight, testBit_two_succ]
  rw [this, Nat.and_pow_two_sub_one_eq_mod _ 1, Nat.shiftRight_eq_div_pow]

theorem ldiff2_shift (n : Nat) : (Nat.ldiff 2 n) >>> 1 = 1 - (n / 2) % 2 := by
  have : (Nat.ldiff 2 n) >>> 1 = Nat.ldiff 1 (n >>> 1) := by
    apply Nat.eq_of_testBit_eq
    intro i
    simp only [Nat.testBit_ldiff, Nat.testBit_shiftRight, testBit_two_succ]
  rw [this, ldiff1, Nat.shiftRight_eq_div_pow]

theorem land2_shift (m : Int) :
    Int.shiftRight (Int.land m 0x02) 1 = Int.land (Int.shiftRight m 1) 1 := by
  cases m with
  | ofNat n =>
    show (((n &&& 2) >>> 1 : Nat) : Int) = (((n >>> 1) &&& 1 : Nat) : Int)
    rw [and2_shift, Nat.and_pow_two_sub_one_eq_mod _ 1, Nat.shiftRight_eq_div_pow]
  | negSucc n =>
    show (((Nat.ldiff 2 n) >>> 1 : Nat) : Int) = ((Nat.ldiff 1 (n >>> 1) : Nat) : Int)
    rw [ldiff2_shift, ldiff1, Nat.shiftRight_eq_div_pow]

theorem land_shift_lt (m : Int) :
    0 ≤ Int.land (Int.shiftRight m 1) 1 ∧ Int.land (Int.shiftRight m 1) 1 < 2 := by
  rw [land1]; omega

/-! ## Mode and range on a faithful bus -/

theorem uint8_land3 (r : Int) : uint8 r % 4 = (Int.land r 3).toNat := by
  rw [land3]; unfold uint8; omega

theorem uint8_land1 (m : Int) : uint8 (Int.land m 0x01) % 2 = (Int.land m 1).toNat := by
  rw [land1]; unfold uint8; omega

theorem uint8_land2 (m : Int) :
    uint8 (Int.shiftRight (Int.land m 0x02) 1) % 2 = (Int.land (Int.shiftRight m 1) 1).toNat := by
  rw [land2_shift]
  have := land_shift_lt m
  unfold uint8; omega

/-- `SetRange` on a faithful bus. -/
theorem SetRange_faithful (a : Accelerometer) (ds : AccelerometerDatasheet)
    (hds : a.datasheet = some ds) (r : Int) (regs : Nat → Nat → Nat) (log : List Event) :
    a.SetRange faithfulBus r ⟨regs, log⟩ =
      (.ok (), { a with range_ := r },
       ⟨fun x y => if x = a.mmr ∧ y = ds.CTRL_REG4_A then
            (regs a.mmr ds.CTRL_REG4_A % 256 &&& 0xCF) ||| ((Int.land r 3).toNat <<< 4)
          else regs x y,
        log ++ [Event.readOk a.mmr ds.CTRL_REG4_A (regs a.mmr ds.CTRL_REG4_A % 256),
          Event.writeOk a.mmr ds.CTRL_REG4_A
            ((regs a.mmr ds.CTRL_REG4_A % 256 &&& 0xCF) ||| ((Int.land r 3).toNat <<< 4))]⟩) := by
  simp only [Accelerometer.SetRange, hds, ReadUint8_faithful, WriteUint8_faithful, range_byte,
    uint8_land3, List.append_assoc, List.cons_append, List.nil_append]

/-- `SetMode` on a faithful bus. -/
theorem SetMode_faithful (a : Accelerometer) (ds : AccelerometerDatasheet)
    (hds : a.datasheet = some ds) (m : Int) (regs : Nat → Nat → Nat) (log : List Event) :
    a.SetMode faithfulBus m ⟨regs, log⟩ =
      (let old1 := regs a.mmr ds.CTRL_REG1_A % 256
       let new1 := (old1 &&& 0xF7) ||| ((Int.land (Int.shiftRight m 1) 1).toNat <<< 3)
       let regs1 : Nat → Nat → Nat :=
         fun x y => if x = a.mmr ∧ y = ds.CTRL_REG1_A then new1 else regs x y
       let old4 := regs1 a.mmr ds.CTRL_REG4_A % 256
       let new4 := (old4 &&& 0xF7) ||| ((Int.land m 1).toNat <<< 3)
       (.ok (), { a with mode := m },
        ⟨fun x y => if x = a.mmr ∧ y = ds.CTRL_REG4_A then new4 else regs1 x y,
         log ++ [Event.readOk a.mmr ds.CTRL_REG1_A old1, Event.writeOk a.mmr ds.CTRL_REG1_A new1,
           Event.readOk a.mmr ds.CTRL_REG4_A old4, Event.writeOk a.mmr ds.CTRL_REG4_A new4]⟩)) := by
  simp only [Accelerometer.SetMode, hds, ReadUint8_faithful, WriteUint8_faithful, mode_byte,
    uint8_land1, uint8_land2, List.append_assoc, List.cons_append, List.nil_append]

theorem GetRange_faithful (a : Accelerometer) (ds : AccelerometerDatasheet)
    (hds : a.datasheet = some ds) (regs : Nat → Nat → Nat) (log : List Event) :
    a.GetRange faithfulBus ⟨regs, log⟩ =
      (.ok ((((regs a.mmr ds.CTRL_REG4_A % 256) >>> 4 &&& 3 : Nat) : Int)),
       ⟨regs, log ++ [Event.readOk a.mmr ds.CTRL_REG4_A (regs a.mmr ds.CTRL_REG4_A % 256)]⟩) := by
  simp only [Accelerometer.GetRange, hds, ReadUint8_faithful]
  rfl

theorem readBits_one_three (v : Nat) : readBits v 1 3 = (v >>> 3) % 2 := by
  unfold readBits
  show (v >>> 3) &&& 1 = _
  rw [Nat.and_pow_two_sub_one_eq_mod _ 1]

theorem mode_combine (x y : Nat) (hx : x < 2) (hy : y < 2) :
    (x <<< 1) % 2 ^ 32 ||| y = 2 * x + y := by
  interval_cases x <;> interval_cases y <;> rfl

theorem GetMode_faithful (a : Accelerometer) (ds : AccelerometerDatasheet)
    (hds : a.datasheet = some ds) (regs : Nat → Nat → Nat) (log : List Event) :
    a.GetMode faithfulBus ⟨regs, log⟩ =
      (.ok (((2 * ((regs a.mmr ds.CTRL_REG1_A % 256) >>> 3 % 2) +
          (regs a.mmr ds.CTRL_REG4_A % 256) >>> 3 % 2 : Nat) : Int)),
       ⟨regs, log ++ [Event.readOk a.mmr ds.CTRL_REG1_A (regs a.mmr ds.CTRL_REG1_A % 256),
          Event.readOk a.mmr ds.CTRL_REG4_A (regs a.mmr ds.CTRL_REG4_A % 256)]⟩) := by
  simp only [Accelerometer.GetMode, hds, ReadUint8_faithful, readBits_one_three,
    List.append_assoc, List.cons_append, List.nil_append,
    mode_combine _ _ (Nat.mod_lt _ (by norm_num)) (Nat.mod_lt _ (by norm_num))]

theorem datasheetForAccelerometer_regs (v : SensorType) :
    (datasheetForAccelerometer v).CTRL_REG1_A = 0x20 ∧
    (datasheetForAccelerometer v).CTRL_REG4_A = 0x23 ∧
    (datasheetForAccelerometer v).WHO_AM_I_A = 0x0F := by
  unfold datasheetForAccelerometer
  simp only []
  split_ifs <;> exact ⟨rfl, rfl, rfl⟩

set_option maxRecDepth 100000 in
theorem ctrl4_fields_fin : ∀ v : Fin 256, ∀ d : Fin 4, ∀ h : Fin 2,
    ((v.val &&& 0xCF ||| d.val <<< 4) % 256 &&& 0xF7) ||| h.val <<< 3 =
      ((v.val &&& 0xF7 ||| h.val <<< 3) % 256 &&& 0xCF) ||| d.val <<< 4 ∧
    ((((v.val &&& 0xCF ||| d.val <<< 4) % 256 &&& 0xF7) ||| h.val <<< 3) % 256) >>> 4 &&& 3
      = d.val ∧
    ((((v.val &&& 0xCF ||| d.val <<< 4) % 256 &&& 0xF7) ||| h.val <<< 3) % 256) >>> 3 % 2
      = h.val ∧
    ((v.val &&& 0xCF ||| d.val <<< 4) % 256 &&& 0xF7) ||| h.val <<< 3 =
      (v.val &&& 0xC7) ||| d.val <<< 4 ||| h.val <<< 3 := by decide

theorem ctrl4_fields (v d h : Nat) (hv : v < 256) (hd : d < 4) (hh : h < 2) :
    ((v &&& 0xCF ||| d <<< 4) % 256 &&& 0xF7) ||| h <<< 3 =
      ((v &&& 0xF7 ||| h <<< 3) % 256 &&& 0xCF) ||| d <<< 4 ∧
    ((((v &&& 0xCF ||| d <<< 4) % 256 &&& 0xF7) ||| h <<< 3) % 256) >>> 4 &&& 3 = d ∧
    ((((v &&& 0xCF ||| d <<< 4) % 256 &&& 0xF7) ||| h <<< 3) % 256) >>> 3 % 2 = h ∧
    ((v &&& 0xCF ||| d <<< 4) % 256 &&& 0xF7) ||| h <<< 3 =
      (v &&& 0xC7) ||| d <<< 4 ||| h <<< 3 :=
  ctrl4_fields_fin ⟨v, hv⟩ ⟨d, hd⟩ ⟨h, hh⟩

set_option maxRecDepth 100000 in
theorem ctrl1_field_fin : ∀ v : Fin 256, ∀ l : Fin 2,
    ((v.val &&& 0xF7 ||| l.val <<< 3) % 256) >>> 3 % 2 = l.val := by decide

theorem ctrl1_field (v l : Nat) (hv : v < 256) (hl : l < 2) :
    ((v &&& 0xF7 ||| l <<< 3) % 256) >>> 3 % 2 = l :=
  ctrl1_field_fin ⟨v, hv⟩ ⟨l, hl⟩

theorem land3_lt (r : Int) : (Int.land r 3).toNat < 4 := by
  rw [land3]; omega

theorem land1_lt (m : Int) : (Int.land m 1).toNat < 2 := by
  rw [land1]; omega

theorem land_shift_toNat_lt (m : Int) : (Int.land (Int.shiftRight m 1) 1).toNat < 2 := by
  have := land_shift_lt m
  omega

theorem range_land3 (r : AccelerometerRange) (hr : r ∈ ranges) :
    (((Int.land r 3).toNat : Nat) : Int) = r := by
  simp only [ranges, List.mem_cons, List.mem_singleton, List.not_mem_nil, or_false] at hr
  rcases hr with rfl | rfl | rfl | rfl <;> decide

theorem mode_land (m : AccelerometerMode) (hm : m ∈ modes) :
    ((2 * (Int.land (Int.shiftRight m 1) 1).toNat + (Int.land m 1).toNat : Nat) : Int) = m := by
  simp only [modes, List.mem_cons, List.mem_singleton, List.not_mem_nil, or_false] at hm
  rcases hm with rfl | rfl | rfl <;> decide

/-- `SetRange r` followed by `SetMode m` on a faithful bus, for a datasheet with
CTRL_REG1_A = 0x20 and CTRL_REG4_A = 0x23. -/
theorem SetRange_then_SetMode (a : Accelerometer) (ds : AccelerometerDatasheet)
    (hds : a.datasheet = some ds) (h1 : ds.CTRL_REG1_A = 0x20) (h4 : ds.CTRL_REG4_A = 0x23)
    (regs : Nat → Nat → Nat) (log : List Event) (m r : Int) :
    ((a.SetRange faithfulBus r ⟨regs, log⟩).2.1.SetMode faithfulBus m
        (a.SetRange faithfulBus r ⟨regs, log⟩).2.2).1 = .ok () ∧
    ((a.SetRange faithfulBus r ⟨regs, log⟩).2.1.SetMode faithfulBus m
        (a.SetRange faithfulBus r ⟨regs, log⟩).2.2).2.1 = { a with range_ := r, mode := m } ∧
    ((a.SetRange faithfulBus r ⟨regs, log⟩).2.1.SetMode faithfulBus m
        (a.SetRange faithfulBus r ⟨regs, log⟩).2.2).2.2.dev =
      (fun x y =>
            if x = a.mmr ∧ y = 0x23 then
              (regs a.mmr 0x23 % 256 &&& 0xC7) ||| (Int.land r 3).toNat <<< 4 |||
                (Int.land m 1).toNat <<< 3
            else if x = a.mmr ∧ y = 0x20 then
              (regs a.mmr 0x20 % 256 &&& 0xF7) ||| (Int.land (Int.shiftRight m 1) 1).toNat <<< 3
            else regs x y) := by
  obtain ⟨-, -, -, e3⟩ := ctrl4_fields (regs a.mmr 0x23 % 256) _ _
    (Nat.mod_lt _ (by norm_num)) (land3_lt r) (land1_lt m)
  have hA : ({ a with range_ := r } : Accelerometer).datasheet = some ds := hds
  rw [SetRange_faithful a ds hds]
  simp only []
  rw [SetMode_faithful _ ds hA]
  simp only [h1, h4, and_self, if_true, Nat.reduceEqDiff, and_false, if_false, e3, true_and]
  funext x y
  by_cases hc : x = a.mmr ∧ y = 35
  · simp only [hc, and_self, if_true]
  · simp only [hc, if_false]

/-- `SetMode m` followed by `SetRange r` on a faithful bus: the same handle and
the same register contents as in the other order. -/
theorem SetMode_then_SetRange (a : Accelerometer) (ds : AccelerometerDatasheet)
    (hds : a.datasheet = some ds) (h1 : ds.CTRL_REG1_A = 0x20) (h4 : ds.CTRL_REG4_A = 0x23)
    (regs : Nat → Nat → Nat) (log : List Event) (m r : Int) :
    ((a.SetMode faithfulBus m ⟨regs, log⟩).2.1.SetRange faithfulBus r
        (a.SetMode faithfulBus m ⟨regs, log⟩).2.2).1 = .ok () ∧
    ((a.SetMode faithfulBus m ⟨regs, log⟩).2.1.SetRange faithfulBus r
        (a.SetMode faithfulBus m ⟨regs, log⟩).2.2).2.1 = { a with range_ := r, mode := m } ∧
    ((a.SetMode faithfulBus m ⟨regs, log⟩).2.1.SetRange faithfulBus r
        (a.SetMode faithfulBus m ⟨regs, log⟩).2.2).2.2.dev =
      (fun x y =>
            if x = a.mmr ∧ y = 0x23 then
              (regs a.mmr 0x23 % 256 &&& 0xC7) ||| (Int.land r 3).toNat <<< 4 |||
                (Int.land m 1).toNat <<< 3
            else if x = a.mmr ∧ y = 0x20 then
              (regs a.mmr 0x20 % 256 &&& 0xF7) ||| (Int.land (Int.shiftRight m 1) 1).toNat <<< 3
            else regs x y) := by
  obtain ⟨e1, -, -, e3⟩ := ctrl4_fields (regs a.mmr 0x23 % 256) _ _
    (Nat.mod_lt _ (by norm_num)) (land3_lt r) (land1_lt m)
  have hB : ({ a with mode := m } : Accelerometer).datasheet = some ds := hds
  rw [SetMode_faithful a ds hds]
  simp only []
  rw [SetRange_faithful _ ds hB]
  simp only [h1, h4, and_self, if_true, Nat.reduceEqDiff, and_false, if_false, ← e1, e3,
    true_and]
  funext x y
  by_cases hc : x = a.mmr ∧ y = 35
  · simp only [hc, and_self, if_true]
  · simp only [hc, if_false]

/-- After both setters, in either order, the getters return what was set. -/
theorem getters_after_setters (h : Accelerometer) (ds : AccelerometerDatasheet)
    (hds : h.datasheet = some ds) (h1 : ds.CTRL_REG1_A = 0x20) (h4 : ds.CTRL_REG4_A = 0x23)
    (regs : Nat → Nat → Nat) (lg : List Event) (m r : Int) :
    (h.GetRange faithfulBus
      ⟨fun x y =>
            if x = h.mmr ∧ y = 0x23 then
              (regs h.mmr 0x23 % 256 &&& 0xC7) ||| (Int.land r 3).toNat <<< 4 |||
                (Int.land m 1).toNat <<< 3
            else if x = h.mmr ∧ y = 0x20 then
              (regs h.mmr 0x20 % 256 &&& 0xF7) ||| (Int.land (Int.shiftRight m 1) 1).toNat <<< 3
            else regs x y, lg⟩).1 = .ok (((Int.land r 3).toNat : Nat) : Int) ∧
    (h.GetMode faithfulBus
      ⟨fun x y =>
            if x = h.mmr ∧ y = 0x23 then
              (regs h.mmr 0x23 % 256 &&& 0xC7) ||| (Int.land r 3).toNat <<< 4 |||
                (Int.land m 1).toNat <<< 3
            else if x = h.mmr ∧ y = 0x20 then
              (regs h.mmr 0x20 % 256 &&& 0xF7) ||| (Int.land (Int.shiftRight m 1) 1).toNat <<< 3
            else regs x y, lg⟩).1 =
      .ok ((2 * (Int.land (Int.shiftRight m 1) 1).toNat + (Int.land m 1).toNat : Nat) : Int) := by
  obtain ⟨-, e2, e2b, e3⟩ := ctrl4_fields (regs h.mmr 0x23 % 256) _ _
    (Nat.mod_lt _ (by norm_num)) (land3_lt r) (land1_lt m)
  have e1 := ctrl1_field (regs h.mmr 0x20 % 256) _ (Nat.mod_lt _ (by norm_num))
    (land_shift_toNat_lt m)
  rw [e3] at e2 e2b
  rw [GetRange_faithful h ds hds, GetMode_faithful h ds hds]
  simp only [h1, h4, and_self, if_true, Nat.reduceEqDiff, and_false, if_false, e2, e2b, e1,
    true_and]

/-- C22. Mode and range do not interfere. For a handle that carries a
datasheet of the package (any sensor type), on a faithful bus with any
register contents: `SetRange r` reads CTRL_REG4_A (0x23), writes back
`(old & 0xCF) | ((r & 3) << 4)` and changes no other register; `SetMode m`
writes `(old1 & 0xF7) | (((m >> 1) & 1) << 3)` to CTRL_REG1_A (0x20) and then
`(old4 & 0xF7) | ((m & 1) << 3)` to CTRL_REG4_A and changes no other register;
and for every mode `m` of the three modes and range `r` of the four ranges both
orders of the two calls succeed, `GetRange` then returns `r` and `GetMode`
returns `m`, and both orders leave the same register contents. -/
theorem mode_range_do_not_interfere (a : Accelerometer) (v : SensorType)
    (hds : a.datasheet = some (datasheetForAccelerometer v))
    (regs : Nat → Nat → Nat) (log : List Event) :
    (∀ r : Int,
      a.SetRange faithfulBus r ⟨regs, log⟩ =
        (.ok (), { a with range_ := r },
         ⟨fun x y =>
            if x = a.mmr ∧ y = 0x23 then
              (regs a.mmr 0x23 % 256 &&& 0xCF) ||| (Int.land r 3).toNat <<< 4
            else regs x y,
          log ++ [Event.readOk a.mmr 0x23 (regs a.mmr 0x23 % 256),
            Event.writeOk a.mmr 0x23
              ((regs a.mmr 0x23 % 256 &&& 0xCF) ||| (Int.land r 3).toNat <<< 4)]⟩)) ∧
    (∀ m : Int,
      a.SetMode faithfulBus m ⟨regs, log⟩ =
        (.ok (), { a with mode := m },
         ⟨fun x y =>
            if x = a.mmr ∧ y = 0x23 then
              (regs a.mmr 0x23 % 256 &&& 0xF7) ||| (Int.land m 1).toNat <<< 3
            else if x = a.mmr ∧ y = 0x20 then
              (regs a.mmr 0x20 % 256 &&& 0xF7) ||| (Int.land (Int.shiftRight m 1) 1).toNat <<< 3
            else regs x y,
          log ++ [Event.readOk a.mmr 0x20 (regs a.mmr 0x20 % 256),
            Event.writeOk a.mmr 0x20
              ((regs a.mmr 0x20 % 256 &&& 0xF7) |||
                (Int.land (Int.shiftRight m 1) 1).toNat <<< 3),
            Event.readOk a.mmr 0x23 (regs a.mmr 0x23 % 256),
            Event.writeOk a.mmr 0x23
              ((regs a.mmr 0x23 % 256 &&& 0xF7) ||| (Int.land m 1).toNat <<< 3)]⟩)) ∧
    (∀ m ∈ modes, ∀ r ∈ ranges,
      ((a.SetRange faithfulBus r ⟨regs, log⟩).2.1.SetMode faithfulBus m
          (a.SetRange faithfulBus r ⟨regs, log⟩).2.2).1 = .ok () ∧
      (((a.SetRange faithfulBus r ⟨regs, log⟩).2.1.SetMode faithfulBus m
          (a.SetRange faithfulBus r ⟨regs, log⟩).2.2).2.1.GetRange faithfulBus
        ((a.SetRange faithfulBus r ⟨regs, log⟩).2.1.SetMode faithfulBus m
          (a.SetRange faithfulBus r ⟨regs, log⟩).2.2).2.2).1 = .ok r ∧
      (((a.SetRange faithfulBus r ⟨regs, log⟩).2.1.SetMode faithfulBus m
          (a.SetRange faithfulBus r ⟨regs, log⟩).2.2).2.1.GetMode faithfulBus
        ((a.SetRange faithfulBus r ⟨regs, log⟩).2.1.SetMode faithfulBus m
          (a.SetRange faithfulBus r ⟨regs, log⟩).2.2).2.2).1 = .ok m ∧
      ((a.SetMode faithfulBus m ⟨regs, log⟩).2.1.SetRange faithfulBus r
          (a.SetMode faithfulBus m ⟨regs, log⟩).2.2).1 = .ok () ∧
      (((a.SetMode faithfulBus m ⟨regs, log⟩).2.1.SetRange faithfulBus r
          (a.SetMode faithfulBus m ⟨regs, log⟩).2.2).2.1.GetMode faithfulBus
        ((a.SetMode faithfulBus m ⟨regs, log⟩).2.1.SetRange faithfulBus r
          (a.SetMode faithfulBus m ⟨regs, log⟩).2.2).2.2).1 = .ok m ∧
      (((a.SetMode faithfulBus m ⟨regs, log⟩).2.1.SetRange faithfulBus r
          (a.SetMode faithfulBus m ⟨regs, log⟩).2.2).2.1.GetRange faithfulBus
        ((a.SetMode faithfulBus m ⟨regs, log⟩).2.1.SetRange faithfulBus r
          (a.SetMode faithfulBus m ⟨regs, log⟩).2.2).2.2).1 = .ok r ∧
      ((a.SetRange faithfulBus r ⟨regs, log⟩).2.1.SetMode faithfulBus m
          (a.SetRange faithfulBus r ⟨regs, log⟩).2.2).2.2.dev =
        ((a.SetMode faithfulBus m ⟨regs, log⟩).2.1.SetRange faithfulBus r
          (a.SetMode faithfulBus m ⟨regs, log⟩).2.2).2.2.dev) := by
  obtain ⟨h1, h4, -⟩ := datasheetForAccelerometer_regs v
  refine ⟨?_, ?_, ?_⟩
  · intro r
    rw [SetRange_faithful a _ hds, h4]
  · intro m
    rw [SetMode_faithful a _ hds]
    simp only [h1, h4, Nat.reduceEqDiff, and_false, if_false]
  · intro m hm r hr
    obtain ⟨a1, a2, a3⟩ := SetRange_then_SetMode a _ hds h1 h4 regs log m r
    obtain ⟨b1, b2, b3⟩ := SetMode_then_SetRange a _ hds h1 h4 regs log m r
    rcases hA : (a.SetRange faithfulBus r ⟨regs, log⟩).2.1.SetMode faithfulBus m
      (a.SetRange faithfulBus r ⟨regs, log⟩).2.2 with ⟨resA, hdlA, ⟨devA, logA⟩⟩
    rcases hB : (a.SetMode faithfulBus m ⟨regs, log⟩).2.1.SetRange faithfulBus r
      (a.SetMode faithfulBus m ⟨regs, log⟩).2.2 with ⟨resB, hdlB, ⟨devB, logB⟩⟩
    rw [hA] at a1 a2 a3
    rw [hB] at b1 b2 b3
    simp only [] at a1 a2 a3 b1 b2 b3
    subst a1 a2 a3 b1 b2 b3
    have hh : ({ a with range_ := r, mode := m } : Accelerometer).datasheet =
      some (datasheetForAccelerometer v) := hds
    obtain ⟨gA1, gA2⟩ := getters_after_setters _ _ hh h1 h4 regs logA m r
    obtain ⟨gB1, gB2⟩ := getters_after_setters _ _ hh h1 h4 regs logB m r
    rw [range_land3 r hr] at gA1 gB1
    rw [mode_land m hm] at gA2 gB2
    exact ⟨rfl, gA1, gA2, rfl, gB2, gB1, rfl⟩

/-- C22, at the LSM303DLHC handle with every register initially `0xFF`, mode
HIGH_RESOLUTION and range 8G: `SetRange` alone leaves `0xEF` in CTRL_REG4_A,
`SetMode` alone leaves `0xF7` in CTRL_REG1_A and `0xFF` in CTRL_REG4_A, and
after both calls in either order the getters return 8G and HIGH_RESOLUTION. -/
theorem mode_range_do_not_interfere_witness :
    (dlhcAccelerometer.SetRange faithfulBus ACCELEROMETER_RANGE_8G
        ⟨fun _ _ => 0xFF, []⟩).2.2.dev 0x19 0x23 = 0xEF ∧
    (dlhcAccelerometer.SetMode faithfulBus ACCELEROMETER_MODE_HIGH_RESOLUTION
        ⟨fun _ _ => 0xFF, []⟩).2.2.dev 0x19 0x20 = 0xF7 ∧
    (dlhcAccelerometer.SetMode faithfulBus ACCELEROMETER_MODE_HIGH_RESOLUTION
        ⟨fun _ _ => 0xFF, []⟩).2.2.dev 0x19 0x23 = 0xFF ∧
    (((dlhcAccelerometer.SetRange faithfulBus ACCELEROMETER_RANGE_8G
          ⟨fun _ _ => 0xFF, []⟩).2.1.SetMode faithfulBus ACCELEROMETER_MODE_HIGH_RESOLUTION
        (dlhcAccelerometer.SetRange faithfulBus ACCELEROMETER_RANGE_8G
          ⟨fun _ _ => 0xFF, []⟩).2.2).2.1.GetRange faithfulBus
      ((dlhcAccelerometer.SetRange faithfulBus ACCELEROMETER_RANGE_8G
          ⟨fun _ _ => 0xFF, []⟩).2.1.SetMode faithfulBus ACCELEROMETER_MODE_HIGH_RESOLUTION
        (dlhcAccelerometer.SetRange faithfulBus ACCELEROMETER_RANGE_8G
          ⟨fun _ _ => 0xFF, []⟩).2.2).2.2).1 = .ok ACCELEROMETER_RANGE_8G ∧
    (((dlhcAccelerometer.SetMode faithfulBus ACCELEROMETER_MODE_HIGH_RESOLUTION
          ⟨fun _ _ => 0xFF, []⟩).2.1.SetRange faithfulBus ACCELEROMETER_RANGE_8G
        (dlhcAccelerometer.SetMode faithfulBus ACCELEROMETER_MODE_HIGH_RESOLUTION
          ⟨fun _ _ => 0xFF, []⟩).2.2).2.1.GetMode faithfulBus
      ((dlhcAccelerometer.SetMode faithfulBus ACCELEROMETER_MODE_HIGH_RESOLUTION
          ⟨fun _ _ => 0xFF, []⟩).2.1.SetRange faithfulBus ACCELEROMETER_RANGE_8G
        (dlhcAccelerometer.SetMode faithfulBus ACCELEROMETER_MODE_HIGH_RESOLUTION
          ⟨fun _ _ => 0xFF, []⟩).2.2).2.2).1 = .ok ACCELEROMETER_MODE_HIGH_RESOLUTION := by
  have h := mode_range_do_not_interfere dlhcAccelerometer LSM303DLHC rfl (fun _ _ => 0xFF) []
  have h3 := h.2.2 ACCELEROMETER_MODE_HIGH_RESOLUTION (by decide) ACCELEROMETER_RANGE_8G
    (by decide)
  refine ⟨?_, ?_, ?_, h3.2.1, h3.2.2.2.2.1⟩
  · rw [h.1]; decide
  · rw [h.2.1]; decide
  · rw [h.2.1]; decide

/-! ## Open postcondition -/

/-- C23. Open postcondition. For every mode `m` of the three modes and range
`r` of the four ranges, `NewAccelerometer` with the options `WithMode m` and
`WithRange r` (in either order) on a faithful bus whose chip-id register
(device 0x19, register 0x0F) holds 0x33 and whose CTRL_REG4_A (0x23) holds any
byte `v` succeeds; afterwards CTRL_REG1_A (0x20) holds
`0x57 | (((m >> 1) & 1) << 3)` and CTRL_REG4_A holds
`(v & 0xC7) | (r << 4) | ((m & 1) << 3)`, the cached mode is `m`, the cached
range is `r`, `GetMode` returns `m` and `GetRange` returns `r`. -/
theorem NewAccelerometer_postcondition (regs : Nat → Nat → Nat) (log : List Event)
    (v : Nat) (hv : v < 256) (hid : regs 0x19 0x0F = 0x33) (h4 : regs 0x19 0x23 = v)
    (m : AccelerometerMode) (hm : m ∈ modes) (r : AccelerometerRange) (hr : r ∈ ranges)
    (opts : List AccelerometerOption)
    (hopts : opts = [AccelerometerOption.WithMode m, AccelerometerOption.WithRange r] ∨
      opts = [AccelerometerOption.WithRange r, AccelerometerOption.WithMode m]) :
    ∃ h w1,
      NewAccelerometer faithfulBus opts ⟨regs, log⟩ = (.ok h, w1) ∧
      h.mode = m ∧ h.range_ = r ∧
      w1.dev 0x19 0x20 = 0x57 ||| (Int.land (Int.shiftRight m 1) 1).toNat <<< 3 ∧
      w1.dev 0x19 0x23 = (v &&& 0xC7) ||| r.toNat <<< 4 ||| (Int.land m 1).toNat <<< 3 ∧
      (h.GetMode faithfulBus w1).1 = .ok m ∧
      (h.GetRange faithfulBus w1).1 = .ok r := by
  have hdev : newAccelerometerDevice opts =
      ⟨0x19, LSM303DLHC, some (datasheetForAccelerometer LSM303DLHC), some 0x19, r, m⟩ := by
    rcases hopts with rfl | rfl <;> rfl
  have hds : (⟨0x19, LSM303DLHC, some (datasheetForAccelerometer LSM303DLHC), some 0x19, r, m⟩ :
      Accelerometer).datasheet = some (datasheetForAccelerometer LSM303DLHC) := rfl
  have hW : WriteUint8 faithfulBus 0x19 0x20 0x57 ⟨regs, log⟩ =
      (.ok (), ⟨fun x y => if x = 0x19 ∧ y = 0x20 then 0x57 else regs x y,
        log ++ [Event.writeOk 0x19 0x20 0x57]⟩) := rfl
  have hR : ReadUint8 faithfulBus 0x19 0x0F
      ⟨fun x y => if x = 0x19 ∧ y = 0x20 then 0x57 else regs x y,
        log ++ [Event.writeOk 0x19 0x20 0x57]⟩ =
      (.ok 0x33, ⟨fun x y => if x = 0x19 ∧ y = 0x20 then 0x57 else regs x y,
        log ++ [Event.writeOk 0x19 0x20 0x57] ++ [Event.readOk 0x19 0x0F 0x33]⟩) := by
    rw [ReadUint8_faithful]
    simp only [Nat.reduceEqDiff, and_false, if_false, hid]
  have c1 : (datasheetForAccelerometer LSM303DLHC).CTRL_REG1_A = 0x20 := rfl
  have c4 : (datasheetForAccelerometer LSM303DLHC).CTRL_REG4_A = 0x23 := rfl
  have cw : (datasheetForAccelerometer LSM303DLHC).WHO_AM_I_A = 0x0F := rfl
  have cid : (datasheetForAccelerometer LSM303DLHC).CHIP_ID = 0x33 := rfl
  simp only [NewAccelerometer, hdev, c1, cw, cid, hW, hR, ne_eq,
    not_true_eq_false, if_false]
  rw [SetRange_faithful _ _ hds]
  simp only []
  rw [SetMode_faithful _ _ hds]
  simp only [c1, c4, Nat.reduceEqDiff, and_false, and_self, if_false, if_true, h4,
    Nat.mod_eq_of_lt hv, Nat.reduceMod]
  obtain ⟨-, e2, e2b, e3⟩ := ctrl4_fields v _ _ hv (land3_lt r) (land1_lt m)
  have e1 := ctrl1_field 87 _ (by norm_num) (land_shift_toNat_lt m)
  have e57 : ∀ l : Fin 2, (87 &&& 247 ||| l.val <<< 3) = 87 ||| l.val <<< 3 := by decide
  have e57m := e57 ⟨_, land_shift_toNat_lt m⟩
  simp only [] at e57m
  have hr3 : (Int.land r 3).toNat = r.toNat := by
    have := range_land3 r hr
    omega
  refine ⟨_, _, rfl, rfl, rfl, ?_, ?_, ?_, ?_⟩
  · simp only [and_self, if_true, Nat.reduceEqDiff, and_false, if_false, e57m]
  · simp only [and_self, if_true]
    rw [e3, hr3]
  · rw [GetMode_faithful _ _ hds]
    simp only [c1, c4, and_self, if_true, Nat.reduceEqDiff, and_false, if_false, e1, e2b,
      mode_land m hm]
  · rw [GetRange_faithful _ _ hds]
    simp only [c4, and_self, if_true, e2, range_land3 r hr]

/-- C23, at LOW_POWER and 16G with every register except the chip id initially
`0xFF`: CTRL_REG1_A ends as `0x5F` and CTRL_REG4_A as `0xF7`. -/
theorem NewAccelerometer_postcondition_witness :
    ∃ h w1,
      NewAccelerometer faithfulBus
          [AccelerometerOption.WithMode ACCELEROMETER_MODE_LOW_POWER,
           AccelerometerOption.WithRange ACCELEROMETER_RANGE_16G]
          ⟨fun _ y => if y = 0x0F then 0x33 else 0xFF, []⟩ = (.ok h, w1) ∧
      h.mode = ACCELEROMETER_MODE_LOW_POWER ∧ h.range_ = ACCELEROMETER_RANGE_16G ∧
      w1.dev 0x19 0x20 = 0x5F ∧ w1.dev 0x19 0x23 = 0xF7 ∧
      (h.GetMode faithfulBus w1).1 = .ok ACCELEROMETER_MODE_LOW_POWER ∧
      (h.GetRange faithfulBus w1).1 = .ok ACCELEROMETER_RANGE_16G := by
  obtain ⟨h, w1, e1, e2, e3, e4, e5, e6, e7⟩ := NewAccelerometer_postcondition
    (fun _ y => if y = 0x0F then 0x33 else 0xFF) [] 0xFF (by decide) rfl rfl
    ACCELEROMETER_MODE_LOW_POWER (by decide) ACCELEROMETER_RANGE_16G (by decide)
    [AccelerometerOption.WithMode ACCELEROMETER_MODE_LOW_POWER,
     AccelerometerOption.WithRange ACCELEROMETER_RANGE_16G] (Or.inl rfl)
  exact ⟨h, w1, e1, e2, e3, e4, e5, e6, e7⟩

/-! ## Transactions of the open calls -/

theorem events_refl (P : Event → Prop) (l : List Event) :
    ∃ evs, l = l ++ evs ∧ ∀ e ∈ evs, P e :=
  ⟨[], by simp, by simp⟩

theorem events_snoc (P : Event → Prop) (l0 l1 : List Event) (e : Event)
    (h : ∃ evs, l1 = l0 ++ evs ∧ ∀ e ∈ evs, P e) (he : P e) :
    ∃ evs, l1 ++ [e] = l0 ++ evs ∧ ∀ e ∈ evs, P e := by
  obtain ⟨evs, h1, h2⟩ := h
  refine ⟨evs ++ [e], by rw [h1, List.append_assoc], ?_⟩
  intro x hx
  rcases List.mem_append.1 hx with hx | hx
  · exact h2 x hx
  · rw [List.mem_singleton.1 hx]; exact he

theorem events_trans (P : Event → Prop) (l0 l1 l2 : List Event)
    (h1 : ∃ evs, l1 = l0 ++ evs ∧ ∀ e ∈ evs, P e)
    (h2 : ∃ evs, l2 = l1 ++ evs ∧ ∀ e ∈ evs, P e) :
    ∃ evs, l2 = l0 ++ evs ∧ ∀ e ∈ evs, P e := by
  obtain ⟨e1, a1, b1⟩ := h1
  obtain ⟨e2, a2, b2⟩ := h2
  refine ⟨e1 ++ e2, by rw [a2, a1, List.append_assoc], ?_⟩
  intro x hx
  rcases List.mem_append.1 hx with hx | hx
  · exact b1 x hx
  · exact b2 x hx

theorem events_mono (P Q : Event → Prop) (hPQ : ∀ e, P e → Q e) (l0 l1 : List Event)
    (h : ∃ evs, l1 = l0 ++ evs ∧ ∀ e ∈ evs, P e) :
    ∃ evs, l1 = l0 ++ evs ∧ ∀ e ∈ evs, Q e := by
  obtain ⟨evs, h1, h2⟩ := h
  exact ⟨evs, h1, fun e he => hPQ e (h2 e he)⟩

/-- `SetRange` issues transactions only to its own device address and only to
CTRL_REG4_A, and leaves the device address of the handle as it was. -/
theorem SetRange_events {σ : Type} (bus : Bus σ) (a : Accelerometer)
    (ds : AccelerometerDatasheet) (hds : a.datasheet = some ds) (r : Int) (w : World σ) :
    (∃ evs, (a.SetRange bus r w).2.2.log = w.log ++ evs ∧
      ∀ e ∈ evs, e.addr = a.mmr ∧ e.reg = ds.CTRL_REG4_A) ∧
    (a.SetRange bus r w).2.1.mmr = a.mmr := by
  simp only [Accelerometer.SetRange, hds, ReadUint8, WriteUint8]
  rcases bus.read w.dev a.mmr ds.CTRL_REG4_A with ⟨_ | v, s⟩
  · exact ⟨events_snoc (fun e => e.addr = a.mmr ∧ e.reg = ds.CTRL_REG4_A) _ _ _
      (events_refl _ _) ⟨rfl, rfl⟩, rfl⟩
  · simp only []
    rcases bus.write s a.mmr ds.CTRL_REG4_A _ with ⟨_ | _, s1⟩
    · exact ⟨events_snoc (fun e => e.addr = a.mmr ∧ e.reg = ds.CTRL_REG4_A) _ _ _
        (events_snoc _ _ _ _ (events_refl _ _) ⟨rfl, rfl⟩) ⟨rfl, rfl⟩, rfl⟩
    · exact ⟨events_snoc (fun e => e.addr = a.mmr ∧ e.reg = ds.CTRL_REG4_A) _ _ _
        (events_snoc _ _ _ _ (events_refl _ _) ⟨rfl, rfl⟩) ⟨rfl, rfl⟩, rfl⟩

theorem SetMode_events {σ : Type} (bus : Bus σ) (a : Accelerometer)
    (ds : AccelerometerDatasheet) (hds : a.datasheet = some ds) (m : Int) (w : World σ) :
    (∃ evs, (a.SetMode bus m w).2.2.log = w.log ++ evs ∧
      ∀ e ∈ evs, e.addr = a.mmr ∧ (e.reg = ds.CTRL_REG1_A ∨ e.reg = ds.CTRL_REG4_A)) ∧
    (a.SetMode bus m w).2.1.mmr = a.mmr := by
  simp only [Accelerometer.SetMode, hds, ReadUint8, WriteUint8]
  rcases bus.read w.dev a.mmr ds.CTRL_REG1_A with ⟨_ | v, s⟩
  · exact ⟨events_snoc
      (fun e => e.addr = a.mmr ∧ (e.reg = ds.CTRL_REG1_A ∨ e.reg = ds.CTRL_REG4_A)) _ _ _
      (events_refl _ _) ⟨rfl, Or.inl rfl⟩, rfl⟩
  · simp only []
    rcases bus.write s a.mmr ds.CTRL_REG1_A _ with ⟨_ | _, s1⟩
    · exact ⟨events_snoc
        (fun e => e.addr = a.mmr ∧ (e.reg = ds.CTRL_REG1_A ∨ e.reg = ds.CTRL_REG4_A)) _ _ _
        (events_snoc _ _ _ _ (events_refl _ _) ⟨rfl, Or.inl rfl⟩) ⟨rfl, Or.inl rfl⟩, rfl⟩
    · simp only []
      rcases bus.read s1 a.mmr ds.CTRL_REG4_A with ⟨_ | v, s2⟩
      · exact ⟨events_snoc
          (fun e => e.addr = a.mmr ∧ (e.reg = ds.CTRL_REG1_A ∨ e.reg = ds.CTRL_REG4_A)) _ _ _
          (events_snoc _ _ _ _ (events_snoc _ _ _ _ (events_refl _ _) ⟨rfl, Or.inl rfl⟩)
            ⟨rfl, Or.inl rfl⟩) ⟨rfl, Or.inr rfl⟩, rfl⟩
      · simp only []
        rcases bus.write s2 a.mmr ds.CTRL_REG4_A _ with ⟨_ | _, s3⟩
        · exact ⟨events_snoc
            (fun e => e.addr = a.mmr ∧ (e.reg = ds.CTRL_REG1_A ∨ e.reg = ds.CTRL_REG4_A)) _ _ _
            (events_snoc _ _ _ _ (events_snoc _ _ _ _ (events_snoc _ _ _ _ (events_refl _ _)
              ⟨rfl, Or.inl rfl⟩) ⟨rfl, Or.inl rfl⟩) ⟨rfl, Or.inr rfl⟩) ⟨rfl, Or.inr rfl⟩, rfl⟩
        · exact ⟨events_snoc
            (fun e => e.addr = a.mmr ∧ (e.reg = ds.CTRL_REG1_A ∨ e.reg = ds.CTRL_REG4_A)) _ _ _
            (events_snoc _ _ _ _ (events_snoc _ _ _ _ (events_snoc _ _ _ _ (events_refl _ _)
              ⟨rfl, Or.inl rfl⟩) ⟨rfl, Or.inl rfl⟩) ⟨rfl, Or.inr rfl⟩) ⟨rfl, Or.inr rfl⟩, rfl⟩

theorem SetGain_events {σ : Type} (bus : Bus σ) (m : Magnetometer)
    (ds : MagnetometerDatasheet) (hds : m.datasheet = some ds) (g : Int) (w : World σ) :
    (∃ evs, (m.SetGain bus g w).2.2.log = w.log ++ evs ∧
      ∀ e ∈ evs, e.addr = m.mmr ∧ e.reg = ds.CRB_REG_M) ∧
    (m.SetGain bus g w).2.1.mmr = m.mmr := by
  simp only [Magnetometer.SetGain, hds, ReadUint8, WriteUint8]
  rcases bus.read w.dev m.mmr ds.CRB_REG_M with ⟨_ | v, s⟩
  · exact ⟨events_snoc (fun e => e.addr = m.mmr ∧ e.reg = ds.CRB_REG_M) _ _ _
      (events_refl _ _) ⟨rfl, rfl⟩, rfl⟩
  · simp only []
    rcases bus.write s m.mmr ds.CRB_REG_M _ with ⟨_ | _, s1⟩
    · exact ⟨events_snoc (fun e => e.addr = m.mmr ∧ e.reg = ds.CRB_REG_M) _ _ _
        (events_snoc _ _ _ _ (events_refl _ _) ⟨rfl, rfl⟩) ⟨rfl, rfl⟩, rfl⟩
    · exact ⟨events_snoc (fun e => e.addr = m.mmr ∧ e.reg = ds.CRB_REG_M) _ _ _
        (events_snoc _ _ _ _ (events_refl _ _) ⟨rfl, rfl⟩) ⟨rfl, rfl⟩, rfl⟩

theorem SetRate_events {σ : Type} (bus : Bus σ) (m : Magnetometer)
    (ds : MagnetometerDatasheet) (hds : m.datasheet = some ds) (r : Int) (w : World σ) :
    (∃ evs, (m.SetRate bus r w).2.2.log = w.log ++ evs ∧
      ∀ e ∈ evs, e.addr = m.mmr ∧ e.reg = ds.CRA_REG_M) ∧
    (m.SetRate bus r w).2.1.mmr = m.mmr := by
  simp only [Magnetometer.SetRate, hds, WriteUint8]
  rcases bus.write w.dev m.mmr ds.CRA_REG_M _ with ⟨_ | _, s1⟩
  · exact ⟨events_snoc (fun e => e.addr = m.mmr ∧ e.reg = ds.CRA_REG_M) _ _ _
      (events_refl _ _) ⟨rfl, rfl⟩, rfl⟩
  · exact ⟨events_snoc (fun e => e.addr = m.mmr ∧ e.reg = ds.CRA_REG_M) _ _ _
      (events_refl _ _) ⟨rfl, rfl⟩, rfl⟩

/-- After a matching chip id, the rest of `NewAccelerometer` ends in success and
issues transactions only to the device address of the handle and only to
CTRL_REG1_A and CTRL_REG4_A. -/
theorem NewAccelerometer_tail_events {σ : Type} (bus : Bus σ) (d : Accelerometer)
    (ds : AccelerometerDatasheet) (hds : d.datasheet = some ds) (w : World σ) :
    ∃ a w1,
      (match d.SetRange bus d.range_ w with
        | (.error Error.nilDatasheet, _, w) => (.error Error.nilDatasheet, w)
        | (_, device, w) =>
          match device.SetMode bus device.mode w with
          | (.error Error.nilDatasheet, _, w) => (.error Error.nilDatasheet, w)
          | (_, device, w) => (.ok device, w) : Except Error Accelerometer × World σ)
        = (.ok a, w1) ∧
      ∃ evs, w1.log = w.log ++ evs ∧
        ∀ e ∈ evs, e.addr = d.mmr ∧ (e.reg = ds.CTRL_REG1_A ∨ e.reg = ds.CTRL_REG4_A) := by
  obtain ⟨h1, h2⟩ := SetRange_datasheet bus d ds hds d.range_ w
  obtain ⟨g1, g2⟩ := SetRange_events bus d ds hds d.range_ w
  rcases hsr : d.SetRange bus d.range_ w with ⟨r1, d1, w1⟩
  rw [hsr] at h1 h2 g1 g2
  simp only [] at h1 h2 g1 g2
  obtain ⟨h3, h4⟩ := SetMode_datasheet bus d1 ds h2 d1.mode w1
  obtain ⟨g3, g4⟩ := SetMode_events bus d1 ds h2 d1.mode w1
  rcases hsm : d1.SetMode bus d1.mode w1 with ⟨r2, d2, w2⟩
  rw [hsm] at h3 h4 g3 g4
  simp only [] at h3 h4 g3 g4
  rw [g2] at g3
  have hlog := events_trans
    (fun e => e.addr = d.mmr ∧ (e.reg = ds.CTRL_REG1_A ∨ e.reg = ds.CTRL_REG4_A)) _ _ _
    (events_mono _ _ (fun e he => ⟨he.1, Or.inr he.2⟩) _ _ g1) g3
  split
  · rename_i heq
    simp only [Prod.mk.injEq] at heq
    exact absurd heq.1 h1
  · rename_i heq
    simp only [Prod.mk.injEq] at heq
    obtain ⟨-, rfl, rfl⟩ := heq
    rw [hsm]
    split
    · rename_i heq2
      simp only [Prod.mk.injEq] at heq2
      exact absurd heq2.1 h3
    · rename_i heq2
      simp only [Prod.mk.injEq] at heq2
      obtain ⟨-, rfl, rfl⟩ := heq2
      exact ⟨_, _, rfl, hlog⟩

theorem NewMagnetometer_tail_events {σ : Type} (bus : Bus σ) (d : Magnetometer)
    (ds : MagnetometerDatasheet) (hds : d.datasheet = some ds) (w : World σ) :
    ∃ a w1,
      (match d.SetGain bus d.gain w with
        | (.error Error.nilDatasheet, _, w) => (.error Error.nilDatasheet, w)
        | (_, device, w) =>
          match device.SetRate bus device.rate w with
          | (.error Error.nilDatasheet, _, w) => (.error Error.nilDatasheet, w)
          | (_, device, w) => (.ok device, w) : Except Error Magnetometer × World σ)
        = (.ok a, w1) ∧
      ∃ evs, w1.log = w.log ++ evs ∧
        ∀ e ∈ evs, e.addr = d.mmr ∧ (e.reg = ds.CRB_REG_M ∨ e.reg = ds.CRA_REG_M) := by
  obtain ⟨h1, h2⟩ := SetGain_datasheet bus d ds hds d.gain w
  obtain ⟨g1, g2⟩ := SetGain_events bus d ds hds d.gain w
  rcases hsr : d.SetGain bus d.gain w with ⟨r1, d1, w1⟩
  rw [hsr] at h1 h2 g1 g2
  simp only [] at h1 h2 g1 g2
  obtain ⟨h3, h4⟩ := SetRate_datasheet bus d1 ds h2 d1.rate w1
  obtain ⟨g3, g4⟩ := SetRate_events bus d1 ds h2 d1.rate w1
  rcases hsm : d1.SetRate bus d1.rate w1 with ⟨r2, d2, w2⟩
  rw [hsm] at h3 h4 g3 g4
  simp only [] at h3 h4 g3 g4
  rw [g2] at g3
  have hlog := events_trans
    (fun e => e.addr = d.mmr ∧ (e.reg = ds.CRB_REG_M ∨ e.reg = ds.CRA_REG_M)) _ _ _
    (events_mono _ _ (fun e he => ⟨he.1, Or.inl he.2⟩) _ _ g1)
    (events_mono _ _ (fun e he => ⟨he.1, Or.inr he.2⟩) _ _ g3)
  split
  · rename_i heq
    simp only [Prod.mk.injEq] at heq
    exact absurd heq.1 h1
  · rename_i heq
    simp only [Prod.mk.injEq] at heq
    obtain ⟨-, rfl, rfl⟩ := heq
    rw [hsm]
    split
    · rename_i heq2
      simp only [Prod.mk.injEq] at heq2
      exact absurd heq2.1 h3
    · rename_i heq2
      simp only [Prod.mk.injEq] at heq2
      obtain ⟨-, rfl, rfl⟩ := heq2
      exact ⟨_, _, rfl, hlog⟩

/-- Every transaction of `NewAccelerometer` goes to the device address of the
resolved handle and to a register number of its datasheet; a handle is returned
only after the chip-id register was read as CHIP_ID, and the not-detected error
only after it was read as another byte. -/
theorem NewAccelerometer_events {σ : Type} (bus : Bus σ) (opts : List AccelerometerOption)
    (ds : AccelerometerDatasheet) (hds : (newAccelerometerDevice opts).datasheet = some ds)
    (w : World σ) :
    ∃ evs, (NewAccelerometer bus opts w).2.log = w.log ++ evs ∧
      (∀ e ∈ evs, e.addr = (newAccelerometerDevice opts).mmr ∧
        (e.reg = ds.CTRL_REG1_A ∨ e.reg = ds.WHO_AM_I_A ∨ e.reg = ds.CTRL_REG4_A)) ∧
      (∀ h, (NewAccelerometer bus opts w).1 = .ok h →
        Event.readOk (newAccelerometerDevice opts).mmr ds.WHO_AM_I_A ds.CHIP_ID ∈ evs) ∧
      (∀ s, (NewAccelerometer bus opts w).1 = .error (Error.notDetected s) →
        s = (newAccelerometerDevice opts).sensorType ∧
        ∃ b, b ≠ ds.CHIP_ID ∧
          Event.readOk (newAccelerometerDevice opts).mmr ds.WHO_AM_I_A b ∈ evs) := by
  simp only [NewAccelerometer, hds]
  generalize newAccelerometerDevice opts = d at hds
  simp only [WriteUint8, ReadUint8]
  rcases bus.write w.dev d.mmr ds.CTRL_REG1_A 0x57 with ⟨c | _, s1⟩
  · refine ⟨[_], rfl, ?_, ?_, ?_⟩
    · simp [Event.addr, Event.reg]
    · intro h hh; simp at hh
    · intro s hh; simp at hh
  · simp only []
    rcases bus.read s1 d.mmr ds.WHO_AM_I_A with ⟨c | b, s2⟩
    · refine ⟨_, List.append_assoc _ _ _, ?_, ?_, ?_⟩
      · simp [Event.addr, Event.reg]
      · intro h hh; simp at hh
      · intro s hh; simp at hh
    · simp only []
      by_cases hb : b % 256 = ds.CHIP_ID
      · simp only [hb, ne_eq, not_true_eq_false, if_false]
        obtain ⟨a, w1, htail, evs, hlog, hev⟩ := NewAccelerometer_tail_events bus d ds hds
          ⟨s2, w.log ++ [Event.writeOk d.mmr ds.CTRL_REG1_A 0x57] ++
            [Event.readOk d.mmr ds.WHO_AM_I_A (b % 256)]⟩
        rw [hb] at htail hlog
        have key : ∀ res : Except Error Accelerometer × World σ, res = (.ok a, w1) →
            ∃ evs, res.2.log = w.log ++ evs ∧
              (∀ e ∈ evs, e.addr = d.mmr ∧
                (e.reg = ds.CTRL_REG1_A ∨ e.reg = ds.WHO_AM_I_A ∨ e.reg = ds.CTRL_REG4_A)) ∧
              (∀ h, res.1 = .ok h → Event.readOk d.mmr ds.WHO_AM_I_A ds.CHIP_ID ∈ evs) ∧
              (∀ s, res.1 = .error (Error.notDetected s) →
                s = d.sensorType ∧
                ∃ b, b ≠ ds.CHIP_ID ∧ Event.readOk d.mmr ds.WHO_AM_I_A b ∈ evs) := by
          intro res hres
          subst hres
          refine ⟨[Event.writeOk d.mmr ds.CTRL_REG1_A 0x57,
            Event.readOk d.mmr ds.WHO_AM_I_A ds.CHIP_ID] ++ evs, ?_, ?_, ?_, ?_⟩
          · rw [hlog]; simp
          · intro e he
            rcases List.mem_append.1 he with he | he
            · simp only [List.mem_cons, List.mem_singleton, List.not_mem_nil, or_false] at he
              rcases he with rfl | rfl
              · exact ⟨rfl, Or.inl rfl⟩
              · exact ⟨rfl, Or.inr (Or.inl rfl)⟩
            · obtain ⟨q1, q2⟩ := hev e he
              exact ⟨q1, q2.elim Or.inl (fun q => Or.inr (Or.inr q))⟩
          · intro h _
            simp
          · intro s hh; simp at hh
        exact key _ htail
      · simp only [ne_eq, hb, not_false_eq_true, if_true]
        refine ⟨_, List.append_assoc _ _ _, ?_, ?_, ?_⟩
        · simp [Event.addr, Event.reg]
        · intro h hh; simp at hh
        · intro s hh
          simp only [Prod.mk.injEq, Except.error.injEq, Error.notDetected.injEq] at hh
          exact ⟨hh.symm, b % 256, hb, by simp⟩

theorem NewMagnetometer_events {σ : Type} (bus : Bus σ) (opts : List MagnetometerOption)
    (ds : MagnetometerDatasheet) (hds : (newMagnetometerDevice opts).datasheet = some ds)
    (w : World σ) :
    ∃ evs, (NewMagnetometer bus opts w).2.log = w.log ++ evs ∧
      (∀ e ∈ evs, e.addr = (newMagnetometerDevice opts).mmr ∧
        (e.reg = ds.MR_REG_M ∨ e.reg = ds.WHO_AM_I_M ∨ e.reg = ds.CRB_REG_M ∨
          e.reg = ds.CRA_REG_M)) ∧
      (∀ h, (NewMagnetometer bus opts w).1 = .ok h →
        Event.readOk (newMagnetometerDevice opts).mmr ds.WHO_AM_I_M ds.CHIP_ID ∈ evs) ∧
      (∀ s, (NewMagnetometer bus opts w).1 = .error (Error.notDetected s) →
        s = (newMagnetometerDevice opts).sensorType ∧
        ∃ b, b ≠ ds.CHIP_ID ∧
          Event.readOk (newMagnetometerDevice opts).mmr ds.WHO_AM_I_M b ∈ evs) := by
  simp only [NewMagnetometer, hds]
  generalize newMagnetometerDevice opts = d at hds
  simp only [WriteUint8, ReadUint8]
  rcases bus.write w.dev d.mmr ds.MR_REG_M 0x00 with ⟨c | _, s1⟩
  · refine ⟨[_], rfl, ?_, ?_, ?_⟩
    · simp [Event.addr, Event.reg]
    · intro h hh; simp at hh
    · intro s hh; simp at hh
  · simp only []
    rcases bus.read s1 d.mmr ds.WHO_AM_I_M with ⟨c | b, s2⟩
    · refine ⟨_, List.append_assoc _ _ _, ?_, ?_, ?_⟩
      · simp [Event.addr, Event.reg]
      · intro h hh; simp at hh
      · intro s hh; simp at hh
    · simp only []
      by_cases hb : b % 256 = ds.CHIP_ID
      · simp only [hb, ne_eq, not_true_eq_false, if_false]
        obtain ⟨a, w1, htail, evs, hlog, hev⟩ := NewMagnetometer_tail_events bus d ds hds
          ⟨s2, w.log ++ [Event.writeOk d.mmr ds.MR_REG_M 0x00] ++
            [Event.readOk d.mmr ds.WHO_AM_I_M (b % 256)]⟩
        rw [hb] at htail hlog
        have key : ∀ res : Except Error Magnetometer × World σ, res = (.ok a, w1) →
            ∃ evs, res.2.log = w.log ++ evs ∧
              (∀ e ∈ evs, e.addr = d.mmr ∧
                (e.reg = ds.MR_REG_M ∨ e.reg = ds.WHO_AM_I_M ∨ e.reg = ds.CRB_REG_M ∨
                  e.reg = ds.CRA_REG_M)) ∧
              (∀ h, res.1 = .ok h → Event.readOk d.mmr ds.WHO_AM_I_M ds.CHIP_ID ∈ evs) ∧
              (∀ s, res.1 = .error (Error.notDetected s) →
                s = d.sensorType ∧
                ∃ b, b ≠ ds.CHIP_ID ∧ Event.readOk d.mmr ds.WHO_AM_I_M b ∈ evs) := by
          intro res hres
          subst hres
          refine ⟨[Event.writeOk d.mmr ds.MR_REG_M 0x00,
            Event.readOk d.mmr ds.WHO_AM_I_M ds.CHIP_ID] ++ evs, ?_, ?_, ?_, ?_⟩
          · rw [hlog]; simp
          · intro e he
            rcases List.mem_append.1 he with he | he
            · simp only [List.mem_cons, List.mem_singleton, List.not_mem_nil, or_false] at he
              rcases he with rfl | rfl
              · exact ⟨rfl, Or.inl rfl⟩
              · exact ⟨rfl, Or.inr (Or.inl rfl)⟩
            · obtain ⟨q1, q2⟩ := hev e he
              exact ⟨q1, q2.elim (fun q => Or.inr (Or.inr (Or.inl q)))
                (fun q => Or.inr (Or.inr (Or.inr q)))⟩
          · intro h _
            simp
          · intro s hh; simp at hh
        exact key _ htail
      · simp only [ne_eq, hb, not_false_eq_true, if_true]
        refine ⟨_, List.append_assoc _ _ _, ?_, ?_, ?_⟩
        · simp [Event.addr, Event.reg]
        · intro h hh; simp at hh
        · intro s hh
          simp only [Prod.mk.injEq, Except.error.injEq, Error.notDetected.injEq] at hh
          exact ⟨hh.symm, b % 256, hb, by simp⟩

/-! ## Modes read back from the registers -/

/-- C24 as stated fails: with bit 3 set in both CTRL_REG1_A and CTRL_REG4_A
(both registers hold `0x08`) `GetMode` succeeds and returns 3, which is none of
the three modes; `getMultiplier` aborts on it with the unknown-mode message and
`AccelerometerMode.String` indexes out of bounds. -/
theorem GetMode_undefined_mode :
    (dlhcAccelerometer.GetMode faithfulBus ⟨fun _ _ => 0x08, []⟩).1 = .ok 3 ∧
    (3 : Int) ∉ modes ∧
    getMultiplier 3 ACCELEROMETER_RANGE_2G = .error (Error.fatalUnknownMode 3) ∧
    AccelerometerMode.String 3 = none :=
  ⟨rfl, by decide, rfl, by decide⟩

theorem mode_value_cases (x y : Nat) (hx : x < 2) (hy : y < 2) :
    (0 : Int) ≤ ((2 * x + y : Nat) : Int) ∧ ((2 * x + y : Nat) : Int) ≤ 3 ∧
    ((((2 * x + y : Nat) : Int) ∈ modes) ↔ ¬ (x = 1 ∧ y = 1)) ∧
    (¬ (x = 1 ∧ y = 1) →
      (∀ r ∈ ranges, ∃ k, getMultiplier ((2 * x + y : Nat) : Int) r = .ok k) ∧
      ∃ name, AccelerometerMode.String ((2 * x + y : Nat) : Int) = some name) ∧
    (x = 1 ∧ y = 1 →
      ((2 * x + y : Nat) : Int) = 3 ∧
      (∀ r, getMultiplier ((2 * x + y : Nat) : Int) r = .error (Error.fatalUnknownMode 3)) ∧
      AccelerometerMode.String ((2 * x + y : Nat) : Int) = none) := by
  refine ⟨by omega, by omega, ?_, ?_, ?_⟩
  · interval_cases x <;> interval_cases y <;> decide
  · intro h
    have hm : ((2 * x + y : Nat) : Int) ∈ modes := by
      interval_cases x <;> interval_cases y <;> first | decide | exact absurd ⟨rfl, rfl⟩ h
    refine ⟨fun r hr => ?_, ?_⟩
    · obtain ⟨k, hk⟩ := getMultiplier_defined _ r hm hr
      exact ⟨k, hk⟩
    · interval_cases x <;> interval_cases y <;>
        first | exact ⟨_, rfl⟩ | exact absurd ⟨rfl, rfl⟩ h
  · rintro ⟨rfl, rfl⟩
    exact ⟨rfl, fun r => rfl, by decide⟩

/-- C24, amended. A successful `GetMode` returns
`(bit 3 of CTRL_REG1_A << 1) | bit 3 of CTRL_REG4_A`, a value in `0..3`. It is
one of NORMAL (0), HIGH_RESOLUTION (1), LOW_POWER (2) exactly when the two bits
are not both set, and then `getMultiplier` with a valid range does not abort
and `AccelerometerMode.String` does not index out of bounds; when both bits are
set the result is 3, no defined mode, on which both of them fail. -/
theorem GetMode_value {σ : Type} (bus : Bus σ) (a : Accelerometer)
    (ds : AccelerometerDatasheet) (hds : a.datasheet = some ds)
    (s0 s1 s2 : σ) (log : List Event) (b1 b4 : Nat) (hb1 : b1 < 256) (hb4 : b4 < 256)
    (hr1 : bus.read s0 a.mmr ds.CTRL_REG1_A = (.ok b1, s1))
    (hr4 : bus.read s1 a.mmr ds.CTRL_REG4_A = (.ok b4, s2)) :
    a.GetMode bus ⟨s0, log⟩ =
      (.ok ((2 * ((b1 >>> 3) % 2) + (b4 >>> 3) % 2 : Nat) : Int),
       ⟨s2, log ++ [Event.readOk a.mmr ds.CTRL_REG1_A b1,
                    Event.readOk a.mmr ds.CTRL_REG4_A b4]⟩) ∧
    (0 : Int) ≤ ((2 * ((b1 >>> 3) % 2) + (b4 >>> 3) % 2 : Nat) : Int) ∧
    ((2 * ((b1 >>> 3) % 2) + (b4 >>> 3) % 2 : Nat) : Int) ≤ 3 ∧
    ((((2 * ((b1 >>> 3) % 2) + (b4 >>> 3) % 2 : Nat) : Int) ∈ modes) ↔
      ¬ ((b1 >>> 3) % 2 = 1 ∧ (b4 >>> 3) % 2 = 1)) ∧
    (¬ ((b1 >>> 3) % 2 = 1 ∧ (b4 >>> 3) % 2 = 1) →
      (∀ r ∈ ranges, ∃ k,
        getMultiplier ((2 * ((b1 >>> 3) % 2) + (b4 >>> 3) % 2 : Nat) : Int) r = .ok k) ∧
      ∃ name,
        AccelerometerMode.String ((2 * ((b1 >>> 3) % 2) + (b4 >>> 3) % 2 : Nat) : Int)
          = some name) ∧
    ((b1 >>> 3) % 2 = 1 ∧ (b4 >>> 3) % 2 = 1 →
      ((2 * ((b1 >>> 3) % 2) + (b4 >>> 3) % 2 : Nat) : Int) = 3 ∧
      (∀ r, getMultiplier ((2 * ((b1 >>> 3) % 2) + (b4 >>> 3) % 2 : Nat) : Int) r
        = .error (Error.fatalUnknownMode 3)) ∧
      AccelerometerMode.String ((2 * ((b1 >>> 3) % 2) + (b4 >>> 3) % 2 : Nat) : Int)
        = none) := by
  refine ⟨?_, mode_value_cases _ _ (Nat.mod_lt _ (by norm_num)) (Nat.mod_lt _ (by norm_num))⟩
  simp only [Accelerometer.GetMode, hds]
  rw [ReadUint8_of_ok bus _ _ _ b1 s1 hr1]
  simp only []
  rw [ReadUint8_of_ok bus _ _ _ b4 s2 hr4]
  simp only [Nat.mod_eq_of_lt hb1, Nat.mod_eq_of_lt hb4, readBits_one_three,
    mode_combine _ _ (Nat.mod_lt _ (by norm_num)) (Nat.mod_lt _ (by norm_num)),
    List.append_assoc, List.cons_append, List.nil_append]

/-- C24 amended, at CTRL_REG1_A = `0x5F` (bit 3 set) and CTRL_REG4_A = `0x10`
(bit 3 clear): `GetMode` returns LOW_POWER. -/
theorem GetMode_value_witness :
    (dlhcAccelerometer.GetMode faithfulBus
      ⟨fun _ y => if y = 0x20 then 0x5F else 0x10, []⟩).1 = .ok ACCELEROMETER_MODE_LOW_POWER ∧
    ACCELEROMETER_MODE_LOW_POWER ∈ modes := by
  have h := GetMode_value faithfulBus dlhcAccelerometer (datasheetForAccelerometer LSM303DLHC)
    rfl (fun _ y => if y = 0x20 then 0x5F else 0x10) (fun _ y => if y = 0x20 then 0x5F else 0x10)
    (fun _ y => if y = 0x20 then 0x5F else 0x10) [] 0x5F 0x10 (by decide) (by decide) rfl rfl
  refine ⟨?_, ?_⟩
  · rw [h.1]; rfl
  · exact h.2.2.2.1.2 (by decide)

/-! ## Bus address of the handle -/

theorem accelerometer_options_datasheet (opts : List AccelerometerOption) (d : Accelerometer) :
    (opts.foldl (fun d o => o.Apply d) d).datasheet = d.datasheet := by
  induction opts generalizing d with
  | nil => rfl
  | cons o rest ih =>
    rw [List.foldl_cons, ih]
    cases o <;> rfl

theorem accelerometer_options_addr (opts : List AccelerometerOption) (d : Accelerometer)
    (hno : ∀ a, AccelerometerOption.WithAccelerometerAddress a ∉ opts) :
    (opts.foldl (fun d o => o.Apply d) d).addr = d.addr := by
  induction opts generalizing d with
  | nil => rfl
  | cons o rest ih =>
    rw [List.foldl_cons, ih _ (fun a ha => hno a (List.mem_cons_of_mem _ ha))]
    cases o with
    | WithAccelerometerAddress a => exact absurd (List.mem_cons_self _ _) (hno a)
    | _ => rfl

/-- Without an address option the handle is addressed at the ADDRESS of the
datasheet of its sensor type. -/
theorem newAccelerometerDevice_default (opts : List AccelerometerOption)
    (hno : ∀ a, AccelerometerOption.WithAccelerometerAddress a ∉ opts) :
    (newAccelerometerDevice opts).datasheet =
      some (datasheetForAccelerometer (newAccelerometerDevice opts).sensorType) ∧
    (newAccelerometerDevice opts).mmr =
      (datasheetForAccelerometer (newAccelerometerDevice opts).sensorType).ADDRESS := by
  simp only [newAccelerometerDevice, accelerometer_options_datasheet,
    accelerometer_options_addr _ _ hno, and_self]

theorem datasheetForAccelerometer_address (v : SensorType) :
    (v = LSM303C → (datasheetForAccelerometer v).ADDRESS = 0x1D) ∧
    (v ≠ LSM303C → (datasheetForAccelerometer v).ADDRESS = 0x19) := by
  unfold datasheetForAccelerometer
  simp only []
  constructor
  · rintro rfl; decide
  · intro h
    split_ifs <;> rfl

/-- In every datasheet table of the package the accelerometer and the
magnetometer of one sensor type have different bus addresses. -/
theorem addresses_differ (v : SensorType) :
    (datasheetForAccelerometer v).ADDRESS ≠ (datasheetForMagnetometer v).ADDRESS ∧
    (datasheetForMagnetometer v).ADDRESS = 0x1E := by
  have hm : (datasheetForMagnetometer v).ADDRESS = 0x1E := by
    unfold datasheetForMagnetometer
    simp only []
    split_ifs <;> rfl
  refine ⟨?_, hm⟩
  rw [hm]
  by_cases h : v = LSM303C
  · rw [(datasheetForAccelerometer_address v).1 h]; decide
  · rw [(datasheetForAccelerometer_address v).2 h]; decide

/-- C21. Default accelerometer bus address as the doc comment of
`WithAccelerometerAddress` states it, evaluated on the code: for sensor type
LSM303C and no address option the handle is addressed at `0x1D`, not at the
`0x1E` of the comment, and on a faithful bus that holds the chip id `0x41` all
eight transactions of `NewAccelerometer` go to `0x1D`. -/
theorem NewAccelerometer_lsm303c_address :
    (newAccelerometerDevice
      [AccelerometerOption.WithAccelerometerSensorType LSM303C]).mmr = 0x1D ∧
    (0x1D : Nat) ≠ 0x1E ∧
    ((NewAccelerometer faithfulBus [AccelerometerOption.WithAccelerometerSensorType LSM303C]
        ⟨fun _ _ => 0x41, []⟩).2.log.map Event.addr) =
      [0x1D, 0x1D, 0x1D, 0x1D, 0x1D, 0x1D, 0x1D, 0x1D] ∧
    (∃ h, (NewAccelerometer faithfulBus [AccelerometerOption.WithAccelerometerSensorType LSM303C]
        ⟨fun _ _ => 0x41, []⟩).1 = .ok h) :=
  ⟨rfl, by decide, rfl, ⟨_, rfl⟩⟩

/-- When no `WithAccelerometerAddress` option is given, `NewAccelerometer`
addresses the device at the ADDRESS of the datasheet of the selected sensor
type: `0x19` for LSM303DLHC and LSM303AGR and `0x1D` for LSM303C; every
transaction it issues, on any bus, goes to that address. -/
theorem NewAccelerometer_default_address (opts : List AccelerometerOption)
    (hno : ∀ a, AccelerometerOption.WithAccelerometerAddress a ∉ opts)
    (v : SensorType) (hv : (newAccelerometerDevice opts).sensorType = v) :
    (newAccelerometerDevice opts).mmr = (datasheetForAccelerometer v).ADDRESS ∧
    (v = LSM303DLHC ∨ v = LSM303AGR → (newAccelerometerDevice opts).mmr = 0x19) ∧
    (v = LSM303C → (newAccelerometerDevice opts).mmr = 0x1D) ∧
    (∀ {σ : Type} (bus : Bus σ) (w : World σ),
      ∃ evs, (NewAccelerometer bus opts w).2.log = w.log ++ evs ∧
        ∀ e ∈ evs, e.addr = (datasheetForAccelerometer v).ADDRESS) := by
  obtain ⟨hds, hmmr⟩ := newAccelerometerDevice_default opts hno
  rw [hv] at hds hmmr
  refine ⟨hmmr, ?_, ?_, ?_⟩
  · intro h
    rw [hmmr]
    rcases h with rfl | rfl <;> decide
  · rintro rfl
    rw [hmmr]
    decide
  · intro σ bus w
    obtain ⟨evs, h1, h2, -, -⟩ := NewAccelerometer_events bus opts _ hds w
    exact ⟨evs, h1, fun e he => by rw [← hmmr]; exact (h2 e he).1⟩

/-- The default address at the option lists that select LSM303C, LSM303AGR and
no sensor type: `0x1D`, `0x19` and `0x19`. -/
theorem NewAccelerometer_default_address_witness :
    (newAccelerometerDevice
      [AccelerometerOption.WithAccelerometerSensorType LSM303C]).mmr = 0x1D ∧
    (newAccelerometerDevice
      [AccelerometerOption.WithAccelerometerSensorType LSM303AGR]).mmr = 0x19 ∧
    (newAccelerometerDevice []).mmr = 0x19 :=
  ⟨(NewAccelerometer_default_address
      [AccelerometerOption.WithAccelerometerSensorType LSM303C] (by simp) LSM303C rfl).2.2.1 rfl,
   (NewAccelerometer_default_address
      [AccelerometerOption.WithAccelerometerSensorType LSM303AGR] (by simp)
      LSM303AGR rfl).2.1 (Or.inr rfl),
   (NewAccelerometer_default_address [] (by simp) LSM303DLHC rfl).2.1 (Or.inl rfl)⟩

/-- C25. Address override is independent of option order. For every sensor
type `v` and address `a`, `NewAccelerometer` given
`WithAccelerometerSensorType v` and `WithAccelerometerAddress a` in either
order resolves the same handle, with device address `a` and the datasheet of
`v`; on any bus every transaction it issues goes to device `a` and to a
register number of that datasheet, a handle is returned only after the chip-id
register of that datasheet was read as its CHIP_ID, and the not-detected error
(naming `v`) only after it was read as another byte. The same holds for
`NewMagnetometer` with `WithMagnetometerSensorType v` and
`WithMagnetometerAddress a`. A record `ds` given through `WithDatasheet`
together with `WithMagnetometerSensorType v`, in either order, is the datasheet
of the handle, and its ADDRESS, register numbers and CHIP_ID are used in place
of those of the table of `v`. -/
theorem address_override_any_order (v : SensorType) (a : Nat) :
    (∀ opts : List AccelerometerOption,
      opts = [AccelerometerOption.WithAccelerometerSensorType v,
              AccelerometerOption.WithAccelerometerAddress a] ∨
      opts = [AccelerometerOption.WithAccelerometerAddress a,
              AccelerometerOption.WithAccelerometerSensorType v] →
      newAccelerometerDevice opts =
        ⟨a, v, some (datasheetForAccelerometer v), some a, ACCELEROMETER_RANGE_4G,
          ACCELEROMETER_MODE_NORMAL⟩ ∧
      ∀ {σ : Type} (bus : Bus σ) (w : World σ),
        ∃ evs, (NewAccelerometer bus opts w).2.log = w.log ++ evs ∧
          (∀ e ∈ evs, e.addr = a ∧
            (e.reg = (datasheetForAccelerometer v).CTRL_REG1_A ∨
             e.reg = (datasheetForAccelerometer v).WHO_AM_I_A ∨
             e.reg = (datasheetForAccelerometer v).CTRL_REG4_A)) ∧
          (∀ h, (NewAccelerometer bus opts w).1 = .ok h →
            Event.readOk a (datasheetForAccelerometer v).WHO_AM_I_A
              (datasheetForAccelerometer v).CHIP_ID ∈ evs) ∧
          (∀ s, (NewAccelerometer bus opts w).1 = .error (Error.notDetected s) →
            s = v ∧ ∃ b, b ≠ (datasheetForAccelerometer v).CHIP_ID ∧
              Event.readOk a (datasheetForAccelerometer v).WHO_AM_I_A b ∈ evs)) ∧
    (∀ opts : List MagnetometerOption,
      opts = [MagnetometerOption.WithMagnetometerSensorType v,
              MagnetometerOption.WithMagnetometerAddress a] ∨
      opts = [MagnetometerOption.WithMagnetometerAddress a,
              MagnetometerOption.WithMagnetometerSensorType v] →
      newMagnetometerDevice opts =
        ⟨a, v, some (datasheetForMagnetometer v), some a, MAGNETOMETER_RATE_30,
          MAGNETOMETER_GAIN_4_0⟩ ∧
      ∀ {σ : Type} (bus : Bus σ) (w : World σ),
        ∃ evs, (NewMagnetometer bus opts w).2.log = w.log ++ evs ∧
          (∀ e ∈ evs, e.addr = a ∧
            (e.reg = (datasheetForMagnetometer v).MR_REG_M ∨
             e.reg = (datasheetForMagnetometer v).WHO_AM_I_M ∨
             e.reg = (datasheetForMagnetometer v).CRB_REG_M ∨
             e.reg = (datasheetForMagnetometer v).CRA_REG_M)) ∧
          (∀ h, (NewMagnetometer bus opts w).1 = .ok h →
            Event.readOk a (datasheetForMagnetometer v).WHO_AM_I_M
              (datasheetForMagnetometer v).CHIP_ID ∈ evs) ∧
          (∀ s, (NewMagnetometer bus opts w).1 = .error (Error.notDetected s) →
            s = v ∧ ∃ b, b ≠ (datasheetForMagnetometer v).CHIP_ID ∧
              Event.readOk a (datasheetForMagnetometer v).WHO_AM_I_M b ∈ evs)) ∧
    (∀ (ds : MagnetometerDatasheet) (opts : List MagnetometerOption),
      opts = [MagnetometerOption.WithDatasheet ds,
              MagnetometerOption.WithMagnetometerSensorType v] ∨
      opts = [MagnetometerOption.WithMagnetometerSensorType v,
              MagnetometerOption.WithDatasheet ds] →
      newMagnetometerDevice opts =
        ⟨ds.ADDRESS, v, some ds, some ds.ADDRESS, MAGNETOMETER_RATE_30,
          MAGNETOMETER_GAIN_4_0⟩ ∧
      ∀ {σ : Type} (bus : Bus σ) (w : World σ),
        ∃ evs, (NewMagnetometer bus opts w).2.log = w.log ++ evs ∧
          (∀ e ∈ evs, e.addr = ds.ADDRESS ∧
            (e.reg = ds.MR_REG_M ∨ e.reg = ds.WHO_AM_I_M ∨ e.reg = ds.CRB_REG_M ∨
             e.reg = ds.CRA_REG_M)) ∧
          (∀ h, (NewMagnetometer bus opts w).1 = .ok h →
            Event.readOk ds.ADDRESS ds.WHO_AM_I_M ds.CHIP_ID ∈ evs) ∧
          (∀ s, (NewMagnetometer bus opts w).1 = .error (Error.notDetected s) →
            s = v ∧ ∃ b, b ≠ ds.CHIP_ID ∧
              Event.readOk ds.ADDRESS ds.WHO_AM_I_M b ∈ evs)) := by
  refine ⟨?_, ?_, ?_⟩
  · intro opts hopts
    have hdev : newAccelerometerDevice opts =
        ⟨a, v, some (datasheetForAccelerometer v), some a, ACCELEROMETER_RANGE_4G,
          ACCELEROMETER_MODE_NORMAL⟩ := by
      rcases hopts with rfl | rfl <;> rfl
    refine ⟨hdev, ?_⟩
    intro σ bus w
    have h := NewAccelerometer_events bus opts (datasheetForAccelerometer v)
      (by rw [hdev]) w
    rw [hdev] at h
    exact h
  · intro opts hopts
    have hdev : newMagnetometerDevice opts =
        ⟨a, v, some (datasheetForMagnetometer v), some a, MAGNETOMETER_RATE_30,
          MAGNETOMETER_GAIN_4_0⟩ := by
      rcases hopts with rfl | rfl <;> rfl
    refine ⟨hdev, ?_⟩
    intro σ bus w
    have h := NewMagnetometer_events bus opts (datasheetForMagnetometer v)
      (by rw [hdev]) w
    rw [hdev] at h
    exact h
  · intro ds opts hopts
    have hdev : newMagnetometerDevice opts =
        ⟨ds.ADDRESS, v, some ds, some ds.ADDRESS, MAGNETOMETER_RATE_30,
          MAGNETOMETER_GAIN_4_0⟩ := by
      rcases hopts with rfl | rfl <;> rfl
    refine ⟨hdev, ?_⟩
    intro σ bus w
    have h := NewMagnetometer_events bus opts ds (by rw [hdev]) w
    rw [hdev] at h
    exact h

/-- C25, at sensor type LSM303C and address `0x42`: the address option given
first and the sensor type second yields the handle at `0x42` with the LSM303C
datasheet, for the accelerometer and for the magnetometer; and the LSM303DLHC
record given through `WithDatasheet` before `WithMagnetometerSensorType LSM303C`
stays the datasheet of the handle. -/
theorem address_override_any_order_witness :
    newAccelerometerDevice
        [AccelerometerOption.WithAccelerometerAddress 0x42,
         AccelerometerOption.WithAccelerometerSensorType LSM303C] =
      ⟨0x42, LSM303C, some (datasheetForAccelerometer LSM303C), some 0x42,
        ACCELEROMETER_RANGE_4G, ACCELEROMETER_MODE_NORMAL⟩ ∧
    newMagnetometerDevice
        [MagnetometerOption.WithMagnetometerAddress 0x42,
         MagnetometerOption.WithMagnetometerSensorType LSM303C] =
      ⟨0x42, LSM303C, some (datasheetForMagnetometer LSM303C), some 0x42,
        MAGNETOMETER_RATE_30, MAGNETOMETER_GAIN_4_0⟩ ∧
    newMagnetometerDevice
        [MagnetometerOption.WithDatasheet (datasheetForMagnetometer LSM303DLHC),
         MagnetometerOption.WithMagnetometerSensorType LSM303C] =
      ⟨(datasheetForMagnetometer LSM303DLHC).ADDRESS, LSM303C,
        some (datasheetForMagnetometer LSM303DLHC),
        some (datasheetForMagnetometer LSM303DLHC).ADDRESS,
        MAGNETOMETER_RATE_30, MAGNETOMETER_GAIN_4_0⟩ :=
  ⟨((address_override_any_order LSM303C 0x42).1 _ (Or.inr rfl)).1,
   ((address_override_any_order LSM303C 0x42).2.1 _ (Or.inr rfl)).1,
   ((address_override_any_order LSM303C 0x42).2.2 _ _ (Or.inl rfl)).1⟩

/-! ## Temperature: range and exactness -/

theorem s16_low_nibble (high low : Nat) :
    s16 (high * 256 + low) / 16 = s16 (high * 256 + low / 16 * 16) / 16 := by
  unfold s16
  split_ifs <;> omega

theorem temperature_exact (e : Int) (h1 : -2048 ≤ e) (h2 : e ≤ 2047) :
    e * physic.Celsius = 8 * (e * 125000000) ∧
    Int.tdiv (e * physic.Celsius) 8 = e * 125000000 ∧
    e * physic.Celsius / 8 = e * 125000000 ∧
    -(2 ^ 63) ≤ e * physic.Celsius ∧ e * physic.Celsius < 2 ^ 63 ∧
    -(2 ^ 63) ≤ physic.ZeroCelsius + e * 125000000 ∧
    physic.ZeroCelsius + e * 125000000 < 2 ^ 63 := by
  have c3 : physic.Celsius = 1000000000 := rfl
  have c4 : physic.ZeroCelsius = 273150000000 := rfl
  have c7 : e * 1000000000 = (e * 125000000) * 8 := by ring
  rw [c3, c4]
  refine ⟨by ring, ?_, ?_, ?_, ?_, ?_, ?_⟩
  · rw [c7, Int.mul_tdiv_cancel _ (by norm_num)]
  · rw [c7, Int.mul_ediv_cancel _ (by norm_num)]
  all_goals norm_num
  all_goals omega

/-- C26. Temperature range and exactness. When the reads of TEMP_OUT_H_M and
TEMP_OUT_L_M succeed with the bytes `high` and `low`,
`senseRelativeTemperatureRaw` returns `eighths = s16 (high*256 + low) / 16`
(floor), a value in `[-2048, 2047]` that does not depend on the low 4 bits of
`low`; `eighths * Celsius` is a multiple of 8, so the division by 8 is exact and
neither the product nor the sum leaves the `int64` range; the result of
`SenseRelativeTemperature` is `ZeroCelsius + eighths * 125000000`; and the
conversion as the code computes it is strictly increasing in `eighths` over
`[-2048, 2047]`. -/
theorem temperature_range_exact {σ : Type} (bus : Bus σ) (m : Magnetometer)
    (ds : MagnetometerDatasheet) (hds : m.datasheet = some ds)
    (s0 s1 s2 : σ) (log : List Event) (high low : Nat) (hh : high < 256) (hl : low < 256)
    (h1 : bus.read s0 m.mmr ds.TEMP_OUT_H_M = (.ok high, s1))
    (h2 : bus.read s1 m.mmr ds.TEMP_OUT_L_M = (.ok low, s2)) :
    m.senseRelativeTemperatureRaw bus ⟨s0, log⟩ =
      (.ok (s16 (high * 256 + low) / 16),
       ⟨s2, log ++ [Event.readOk m.mmr ds.TEMP_OUT_H_M high,
                    Event.readOk m.mmr ds.TEMP_OUT_L_M low]⟩) ∧
    -2048 ≤ s16 (high * 256 + low) / 16 ∧ s16 (high * 256 + low) / 16 ≤ 2047 ∧
    s16 (high * 256 + low) / 16 = s16 (high * 256 + low / 16 * 16) / 16 ∧
    s16 (high * 256 + low) / 16 * physic.Celsius =
      8 * (s16 (high * 256 + low) / 16 * 125000000) ∧
    Int.tdiv (s16 (high * 256 + low) / 16 * physic.Celsius) 8 =
      s16 (high * 256 + low) / 16 * 125000000 ∧
    -(2 ^ 63) ≤ s16 (high * 256 + low) / 16 * physic.Celsius ∧
    s16 (high * 256 + low) / 16 * physic.Celsius < 2 ^ 63 ∧
    -(2 ^ 63) ≤ physic.ZeroCelsius + s16 (high * 256 + low) / 16 * 125000000 ∧
    physic.ZeroCelsius + s16 (high * 256 + low) / 16 * 125000000 < 2 ^ 63 ∧
    m.SenseRelativeTemperature bus ⟨s0, log⟩ =
      (.ok (physic.ZeroCelsius + s16 (high * 256 + low) / 16 * 125000000),
       ⟨s2, log ++ [Event.readOk m.mmr ds.TEMP_OUT_H_M high,
                    Event.readOk m.mmr ds.TEMP_OUT_L_M low]⟩) ∧
    (∀ e1 e2 : Int, -2048 ≤ e1 → e1 < e2 → e2 ≤ 2047 →
      int64 (Int.tdiv (int64 (int64 e1 * int64 physic.Celsius)) 8 + int64 physic.ZeroCelsius) <
      int64 (Int.tdiv (int64 (int64 e2 * int64 physic.Celsius)) 8 + int64 physic.ZeroCelsius)) := by
  have hraw : m.senseRelativeTemperatureRaw bus ⟨s0, log⟩ =
      (.ok (s16 (high * 256 + low) / 16),
       ⟨s2, log ++ [Event.readOk m.mmr ds.TEMP_OUT_H_M high,
                    Event.readOk m.mmr ds.TEMP_OUT_L_M low]⟩) := by
    simp only [Magnetometer.senseRelativeTemperatureRaw, hds]
    rw [ReadUint8_of_ok bus _ _ _ high s1 h1]
    simp only []
    rw [ReadUint8_of_ok bus _ _ _ low s2 h2]
    simp only [Nat.mod_eq_of_lt hh, Nat.mod_eq_of_lt hl, temperature_raw _ _ hh hl,
      List.append_assoc, List.cons_append, List.nil_append]
  obtain ⟨r1, r2⟩ := s16_div16_range (high * 256 + low) (by omega)
  obtain ⟨x1, x2, x3, x4, x5, x6, x7⟩ := temperature_exact _ r1 r2
  refine ⟨hraw, r1, r2, s16_low_nibble _ _, x1, x2, x4, x5, x6, x7, ?_, ?_⟩
  · simp only [Magnetometer.SenseRelativeTemperature, hraw, temperature_scale _ r1 r2, x3]
    rw [add_comm]
  · intro e1 e2 a1 a2 a3
    rw [temperature_scale e1 a1 (by omega), temperature_scale e2 (by omega) a3,
      (temperature_exact e1 a1 (by omega)).2.2.1, (temperature_exact e2 (by omega) a3).2.2.1]
    omega

/-- C26, at the byte pairs `(0x7F, 0xFF)` and `(0x80, 0x0F)`: the raw values are
the extremes 2047 and -2048, and the low nibble `0xF` plays no part. -/
theorem temperature_range_exact_witness :
    (dlhcMagnetometer.senseRelativeTemperatureRaw faithfulBus
      ⟨fun _ r => if r = 0x31 then 0x7F else 0xFF, []⟩).1 = .ok 2047 ∧
    (dlhcMagnetometer.senseRelativeTemperatureRaw faithfulBus
      ⟨fun _ r => if r = 0x31 then 0x80 else 0x0F, []⟩).1 = .ok (-2048) ∧
    (dlhcMagnetometer.SenseRelativeTemperature faithfulBus
      ⟨fun _ r => if r = 0x31 then 0x80 else 0x0F, []⟩).1 =
      .ok (physic.ZeroCelsius - 256 * physic.Celsius) := by
  have ha := temperature_range_exact faithfulBus dlhcMagnetometer
    (datasheetForMagnetometer LSM303DLHC) rfl (fun _ r => if r = 0x31 then 0x7F else 0xFF)
    (fun _ r => if r = 0x31 then 0x7F else 0xFF) (fun _ r => if r = 0x31 then 0x7F else 0xFF) []
    0x7F 0xFF (by decide) (by decide) rfl rfl
  have hb := temperature_range_exact faithfulBus dlhcMagnetometer
    (datasheetForMagnetometer LSM303DLHC) rfl (fun _ r => if r = 0x31 then 0x80 else 0x0F)
    (fun _ r => if r = 0x31 then 0x80 else 0x0F) (fun _ r => if r = 0x31 then 0x80 else 0x0F) []
    0x80 0x0F (by decide) (by decide) rfl rfl
  refine ⟨?_, ?_, ?_⟩
  · rw [ha.1]; exact congrArg Except.ok (by decide)
  · rw [hb.1]; exact congrArg Except.ok (by decide)
  · rw [hb.2.2.2.2.2.2.2.2.2.2.1]; exact congrArg Except.ok (by decide)

end Lsm303
